import Mathlib

/-!
# xl domain lifecycle and migration orchestration (tools/xl/xl_cmdimpl.c)

A shallow embedding of the save-file codec, the restart decision of
`handle_domain_death` and the sender side of the migration handshake, with
the properties of the specification stated over it.
-/

namespace Xl

/-! ## Bytes, machine integers and the build platform -/

/-- One octet of a file or of a stream. -/
abbrev Byte := Fin 256

/-- The two properties of the C implementation that the code depends on: the
byte order of a `uint32_t` in memory, and whether `long`, `ptrdiff_t` and
`size_t` are 64 bits wide (LP64) or 32 bits wide (ILP32). -/
structure Platform where
  big_endian : Bool
  lp64 : Bool
deriving DecidableEq, Repr

/-- Byte `i` (0 is the least significant) of a 32-bit value. -/
def u32_byte (x : Nat) (i : Nat) : Byte :=
  ⟨(x / 256 ^ i) % 256, Nat.mod_lt _ (by decide)⟩

/-- The four bytes of a `uint32_t` as they lie in memory (the `u32buf` union,
and the integer fields of `struct save_file_header`). -/
def u32_to_bytes (P : Platform) (x : Nat) : List Byte :=
  if P.big_endian then [u32_byte x 3, u32_byte x 2, u32_byte x 1, u32_byte x 0]
  else [u32_byte x 0, u32_byte x 1, u32_byte x 2, u32_byte x 3]

/-- The `uint32_t` whose memory image is the first four bytes of `b`
(missing bytes read as zero; callers always pass four). -/
def u32_of_bytes (P : Platform) (b : List Byte) : Nat :=
  let b0 := (b.getD 0 0).val
  let b1 := (b.getD 1 0).val
  let b2 := (b.getD 2 0).val
  let b3 := (b.getD 3 0).val
  if P.big_endian then b3 + 256 * b2 + 65536 * b1 + 16777216 * b0
  else b0 + 256 * b1 + 65536 * b2 + 16777216 * b3

/-- Conversion of a `uint32_t` to `int` (two's complement wrap-around). -/
def int_of_u32 (x : Nat) : Int :=
  if x % 4294967296 < 2147483648 then ((x % 4294967296 : Nat) : Int)
  else ((x % 4294967296 : Nat) : Int) - 4294967296

/-- Conversion of an `int` to `uint32_t`. -/
def u32_of_int (x : Int) : Nat := (x % 4294967296).toNat

/-- Conversion of an `int` to `size_t`. -/
def size_t_of_int (P : Platform) (x : Int) : Nat :=
  if P.lp64 then (x % 18446744073709551616).toNat else (x % 4294967296).toNat

/-! ## Constants -/

/-- The error code `ERROR_FAIL` of libxl.h (the header is not part of this
source file; its value there is -3). -/
def ERROR_FAIL : Int := -3

/-- The error code `ERROR_INVAL` of libxl.h (value -6 there). -/
def ERROR_INVAL : Int := -6

/-- The error code `ERROR_GUEST_TIMEDOUT` of libxl.h (value -8 there). -/
def ERROR_GUEST_TIMEDOUT : Int := -8

/-- The sentinel `INVALID_DOMID` of libxl.h, `~0` stored in a `uint32_t`. -/
def INVALID_DOMID : Nat := 4294967295

def EXIT_SUCCESS : Nat := 0

def EXIT_FAILURE : Nat := 1

/-- The bytes of an ASCII string literal, without a terminating NUL. -/
def ascii (s : String) : List Byte :=
  s.data.map (fun c => (⟨c.toNat % 256, Nat.mod_lt _ (by decide)⟩ : Byte))

/-- The array `savefileheader_magic[32]`: the literal fills all 32 bytes, so no
terminating NUL is stored. -/
def savefileheader_magic : List Byte :=
  ascii "Xen saved domain, xl format\n \x00 \r"

/-- The array `migrate_receiver_banner[]`, terminating NUL included. -/
def migrate_receiver_banner : List Byte :=
  ascii "xl migration receiver ready, send binary domain data.\n" ++ [0]

/-- The array `migrate_receiver_ready[]`, terminating NUL included. -/
def migrate_receiver_ready : List Byte :=
  ascii "domain received, ready to unpause" ++ [0]

/-- The array `migrate_permission_to_go[]`, terminating NUL included. -/
def migrate_permission_to_go : List Byte :=
  ascii "domain is yours, you are cleared to unpause" ++ [0]

/-- The array `migrate_report[]`, terminating NUL included. -/
def migrate_report : List Byte :=
  ascii "my copy unpause results are as follows" ++ [0]

def XL_MANDATORY_FLAG_JSON : Nat := 1

def XL_MANDATORY_FLAG_STREAMv2 : Nat := 2

def XL_MANDATORY_FLAG_ALL : Nat := XL_MANDATORY_FLAG_JSON ||| XL_MANDATORY_FLAG_STREAMv2

def SAVEFILE_BYTEORDER_VALUE : Nat := 0x01020304

/-- Bitwise complement of a 32-bit unsigned value. -/
def not32 (x : Nat) : Nat := 4294967295 - x % 4294967296

/-! ## The save-file header -/

/-- The record `struct save_file_header`: 32 bytes of magic and four
`uint32_t` fields, 48 bytes without padding. -/
structure save_file_header where
  magic : List Byte
  byteorder : Nat
  mandatory_flags : Nat
  optional_flags : Nat
  optional_data_len : Nat
deriving DecidableEq, Repr

/-- The memory image of a header, as `libxl_write_exactly(&hdr, sizeof(hdr))`
sends it. -/
def save_file_header.bytes (P : Platform) (h : save_file_header) : List Byte :=
  h.magic ++ u32_to_bytes P h.byteorder ++ u32_to_bytes P h.mandatory_flags
    ++ u32_to_bytes P h.optional_flags ++ u32_to_bytes P h.optional_data_len

/-- The header overlaid on 48 bytes, as `libxl_read_exactly(&hdr, sizeof(hdr))`
fills it. -/
def save_file_header.of_bytes (P : Platform) (b : List Byte) : save_file_header :=
  { magic := b.take 32
    byteorder := u32_of_bytes P (b.drop 32)
    mandatory_flags := u32_of_bytes P (b.drop 36)
    optional_flags := u32_of_bytes P (b.drop 40)
    optional_data_len := u32_of_bytes P (b.drop 44) }

/-- The call `libxl_read_exactly(fd, buf, n)` on a descriptor from which the
bytes `stream` can still be read: the `n` bytes and the rest of the stream, or
`none` when the stream ends first. -/
def libxl_read_exactly (stream : List Byte) (n : Nat) : Option (List Byte × List Byte) :=
  if n ≤ stream.length then some (stream.take n, stream.drop n) else none

/-! ## Encoder: `save_domain_core_writeconfig` -/

/-- The macro `ADD_OPTDATA(ptr, len)` inside `save_domain_core_writeconfig`:
when `len` is non-zero, `optional_data_len` grows by `len` (in `uint32_t`
arithmetic) and the `len` bytes at `ptr` are appended to the buffer. The state
is the pair of `hdr.optional_data_len` and the contents of `optdata_begin`. -/
def ADD_OPTDATA (st : Nat × List Byte) (ptr : List Byte) (len : Int) : Nat × List Byte :=
  if len ≠ 0 then (u32_of_int ((st.1 : Int) + len), st.2 ++ ptr.take len.toNat) else st

/-- The function `save_domain_core_writeconfig` up to its two writes: the header
and the contents of `optdata_begin`. `config_len` is the C `int` argument; both
callers pass the size of the object at `config_data`. (For a `config_len` that
is negative or larger than that object the C reads outside it; the model then
copies the bytes that exist.) -/
def save_domain_core_writeconfig (P : Platform) (config_data : List Byte) (config_len : Int) :
    save_file_header × List Byte :=
  let hdr0 : save_file_header :=
    { magic := savefileheader_magic
      byteorder := SAVEFILE_BYTEORDER_VALUE
      mandatory_flags := XL_MANDATORY_FLAG_STREAMv2
      optional_flags := 0
      optional_data_len := 0 }
  let u32buf := u32_to_bytes P (u32_of_int config_len)
  let st1 := ADD_OPTDATA (hdr0.optional_data_len, []) u32buf 4
  let st2 := ADD_OPTDATA st1 config_data config_len
  let flags :=
    if config_len ≠ 0 then hdr0.mandatory_flags ||| XL_MANDATORY_FLAG_JSON
    else hdr0.mandatory_flags
  ({ hdr0 with mandatory_flags := flags, optional_data_len := st2.1 }, st2.2)

/-- The bytes that `save_domain_core_writeconfig` writes to its descriptor when
both `libxl_write_exactly` calls succeed: `sizeof(hdr)` bytes of the header,
then `hdr.optional_data_len` bytes of the optional data. -/
def save_domain_core_writeconfig_bytes (P : Platform) (config_data : List Byte)
    (config_len : Int) : List Byte :=
  let r := save_domain_core_writeconfig P config_data config_len
  r.1.bytes P ++ r.2.take r.1.optional_data_len

/-! ## Decoder: the restoring block of `create_domain` -/

/-- How a fragment of a C function ends: it returns `rc` to its caller, the
process is terminated by `CHK_ERRNOVAL` (macro of xl_utils.h, reached with a
non-zero result of the wrapped call), the code goes on to allocate and copy
`sz` bytes although fewer lie in the optional data, or control goes on with
a state. -/
inductive Outcome (α : Type) where
  | ret (rc : Int)
  | chk_errnoval
  | oversize (sz : Nat)
  | cont (a : α)
deriving DecidableEq, Repr

/-- The locals of `create_domain` that the restoring block sets. `config_data`
is `none` for the null pointer. -/
structure RestoreState where
  hdr : save_file_header
  config_len : Int
  config_data : Option (List Byte)
deriving DecidableEq, Repr

/-- The macro `OPTDATA_LEFT` with `optdata_here - optdata_begin = off`. On LP64
the `uint32_t` length is converted to `long`; on ILP32 the difference is
computed in `unsigned int`. -/
def OPTDATA_LEFT (P : Platform) (optional_data_len : Nat) (off : Nat) : Int :=
  if P.lp64 then (optional_data_len : Int) - (off : Int)
  else ((optional_data_len : Int) - (off : Int)) % 4294967296

/-- The comparison `OPTDATA_LEFT < (amt)` of `WITH_OPTDATA` for an `int` amount:
signed in `long` on LP64, unsigned in `unsigned int` on ILP32. -/
def optdata_short (P : Platform) (left : Int) (amt : Int) : Bool :=
  if P.lp64 then decide (left < amt) else decide (left < amt % 4294967296)

/-- Lines 723-747 of `create_domain`: read the 48-byte header and validate
it. The second component is what remains unread on the restore descriptor
when the fragment ends (a read that meets the end of the stream leaves
nothing). -/
def create_domain_read_header (P : Platform) (stream : List Byte) :
    Outcome save_file_header × List Byte :=
  match libxl_read_exactly stream 48 with
  | none => (.chk_errnoval, [])
  | some (raw, rest) =>
    let hdr := save_file_header.of_bytes P raw
    if hdr.magic ≠ savefileheader_magic then (.ret ERROR_INVAL, rest)
    else if hdr.byteorder ≠ SAVEFILE_BYTEORDER_VALUE then (.ret ERROR_INVAL, rest)
    else
      let badflags := hdr.mandatory_flags &&& not32 XL_MANDATORY_FLAG_ALL
      if badflags ≠ 0 then (.ret ERROR_INVAL, rest)
      else (.cont hdr, rest)

/-- Lines 748-780 of `create_domain`: read the optional data and take the
configuration out of it; `rest` is what the header read left on the
descriptor. An allocation of as many bytes as are copied is taken to succeed
(`xmalloc(0)` returning a non-null pointer). -/
def create_domain_read_optdata (P : Platform) (hdr : save_file_header) (rest : List Byte) :
    Outcome RestoreState × List Byte :=
  if hdr.optional_data_len = 0 then
    (.cont { hdr := hdr, config_len := 0, config_data := none }, rest)
  else
    match libxl_read_exactly rest hdr.optional_data_len with
    | none => (.chk_errnoval, [])
    | some (optdata, rest2) =>
      if optdata_short P (OPTDATA_LEFT P hdr.optional_data_len 0) 4 then
        (.ret ERROR_INVAL, rest2)
      else
        let config_len := int_of_u32 (u32_of_bytes P optdata)
        if optdata_short P (OPTDATA_LEFT P hdr.optional_data_len 4) config_len then
          (.ret ERROR_INVAL, rest2)
        else
          let sz := size_t_of_int P config_len
          if sz ≤ (optdata.drop 4).length then
            (.cont { hdr := hdr, config_len := config_len,
                     config_data := some ((optdata.drop 4).take sz) }, rest2)
          else (.oversize sz, rest2)

/-- The restoring block of `create_domain` (lines 723-782) on a restore
descriptor from which `stream` can be read: how it ends, and what is left
unread on the descriptor. -/
def create_domain_restoring (P : Platform) (stream : List Byte) :
    Outcome RestoreState × List Byte :=
  match create_domain_read_header P stream with
  | (.ret rc, rest) => (.ret rc, rest)
  | (.chk_errnoval, rest) => (.chk_errnoval, rest)
  | (.oversize sz, rest) => (.oversize sz, rest)
  | (.cont hdr, rest) => create_domain_read_optdata P hdr rest

/-- Lines 784-816 of `create_domain` when no configuration file overrides
(`config_file` is null): the saved configuration is required, and it is JSON
exactly when the header says so. Returns the configuration bytes, their length
and `config_in_json`. -/
def create_domain_saved_config (st : RestoreState) : Outcome (List Byte × Int × Bool) :=
  match st.config_data with
  | none => .ret ERROR_INVAL
  | some d => .cont (d, st.config_len, decide (st.hdr.mandatory_flags &&& XL_MANDATORY_FLAG_JSON ≠ 0))

/-! ## Restart decision: `handle_domain_death` -/

/-- The values of `event->u.domain_shutdown.shutdown_reason` that the first
switch of `handle_domain_death` tells apart: the six named enumerators, and
`other` for a code that is none of them (the `default:` label). -/
inductive libxl_shutdown_reason where
  | POWEROFF
  | REBOOT
  | SUSPEND
  | CRASH
  | WATCHDOG
  | SOFT_RESET
  | other (code : Int)
deriving DecidableEq, Repr

/-- The enumeration `libxl_action_on_shutdown`. -/
inductive libxl_action_on_shutdown where
  | DESTROY
  | RESTART
  | RESTART_RENAME
  | PRESERVE
  | COREDUMP_DESTROY
  | COREDUMP_RESTART
  | SOFT_RESET
deriving DecidableEq, Repr

/-- Modelled from the spec: the enumeration `domain_restart_type` is declared in
xl.h, which is not part of the source; its four values are the RestartDecision
outcomes no-restart, restart-in-place, restart-with-rename and
restart-with-soft-reset. -/
inductive domain_restart_type where
  | DOMAIN_RESTART_NONE
  | DOMAIN_RESTART_NORMAL
  | DOMAIN_RESTART_RENAME
  | DOMAIN_RESTART_SOFT_RESET
deriving DecidableEq, Repr

open domain_restart_type

/-- Modelled from the spec: the integer values of `domain_restart_type` (xl.h,
not part of the source), in declaration order from 0, so that the statement
`return 0;` of `handle_domain_death` yields no-restart. A value outside the
enumeration has no decision. -/
def domain_restart_type.of_int : Int → Option domain_restart_type
  | 0 => some DOMAIN_RESTART_NONE
  | 1 => some DOMAIN_RESTART_NORMAL
  | 2 => some DOMAIN_RESTART_RENAME
  | 3 => some DOMAIN_RESTART_SOFT_RESET
  | _ => none

/-- The fields of `libxl_domain_config` that the orchestrator reads: the
domain name `c_info.name` and the five configured actions. -/
structure libxl_domain_config where
  name : String
  on_poweroff : libxl_action_on_shutdown
  on_reboot : libxl_action_on_shutdown
  on_watchdog : libxl_action_on_shutdown
  on_crash : libxl_action_on_shutdown
  on_soft_reset : libxl_action_on_shutdown
deriving DecidableEq, Repr

/-- The `what` argument of the `libxl_read_exactly` and `libxl_write_exactly`
calls of the migration code: "header", "banner", "ready message", "GO message",
"success/failure report message", "success/failure status" and "permission for
sender to resume" on the sending side; on the receiving side also
"success/failure report", "success/failure code" and "permission to sender to
have domain back". -/
inductive What where
  | header
  | banner
  | ready_message
  | GO_message
  | report_message
  | status
  | resume_permission
  | report
  | status_code
  | go_back
deriving DecidableEq, Repr

/-- The enumeration `libxl_checkpointed_stream`. -/
inductive libxl_checkpointed_stream where
  | NONE
  | REMUS
  | COLO
deriving DecidableEq, Repr

/-- The observable steps of the orchestrator: calls into libxl (with their
result where the code branches on it), I/O on the migration endpoints, the
warning of the `failed_badly` label, the system calls on the lock file, and
the calls made while a domain is brought up and monitored. -/
inductive Ev where
  | read_exactly (what : What) (size : Nat) (got : Option (List Byte))
  | write_exactly (what : What) (data : List Byte) (rc : Nat)
  | domain_suspend (domid : Nat) (rc : Int)
  | domain_rename (domid : Nat) (old_name new_name : String) (rc : Int)
  | domain_resume (domid : Nat)
  | domain_destroy (domid : Nat)
  | domain_core_dump (domid : Nat) (rc : Int)
  | userdata_retrieve (domid : Nat)
  | userdata_unlink (domid : Nat)
  | retrieve_domain_configuration (domid : Nat) (rc : Int)
  | close_send_fd
  | migration_child_report
  | undefined_state_warning
  | lock_open (fd : Int)
  | lock_setfd (rc : Int)
  | lock_wait (interrupted : Nat) (rc : Int)
  | lock_release (interrupted : Nat) (rc : Int)
  | lock_close (fd : Int)
  | domain_need_memory (rc : Int)
  | get_free_memory (rc : Int) (free_memkb : Nat)
  | set_memory_target (domid : Nat) (relative_target : Nat) (rc : Int)
  | wait_for_memory_target (rc : Int)
  | freemem (result : Bool)
  | pipe (rc : Int)
  | domain_create_restore (stream_version : Nat) (checkpointed : libxl_checkpointed_stream)
      (ret : Int)
  | domain_soft_reset (domid : Nat) (ret : Int)
  | domain_create_new (ret : Int)
  | domain_unpause (domid : Nat) (rc : Int)
  | vncviewer (domid : Nat)
  | do_daemonize
  | evenable_domain_death (domid : Nat) (ret : Int)
  | evenable_disk_eject (domid : Nat) (ret : Int)
  | event_wait (ret : Int) (domid : Nat)
  | cdrom_insert (domid : Nat)
  | domain_preserve (domid : Nat) (rc : Int)
  | event_check (ret : Int)
  | parse_config (in_json : Bool) (config_data : List Byte) (config_len : Int)
deriving DecidableEq, Repr

/-- What the platform answers to the calls of `reload_domain_config`: the
result and stored length of `libxl_userdata_retrieve`, the configuration that
`parse_config_data` makes of the stored data, and the result and output of
`libxl_retrieve_domain_configuration`. -/
structure ReloadEnv where
  userdata_ret : Int
  t_len : Int
  updated : libxl_domain_config
  retrieve_rc : Int
  retrieved : libxl_domain_config
deriving DecidableEq, Repr

/-- The function `reload_domain_config`: the new contents of `*d_config` and
the platform calls made. -/
def reload_domain_config (env : ReloadEnv) (domid : Nat) (d_config : libxl_domain_config) :
    libxl_domain_config × List Ev :=
  if env.t_len > 0 then
    (env.updated, [.userdata_retrieve domid, .userdata_unlink domid])
  else if env.retrieve_rc ≠ 0 then
    (d_config, [.userdata_retrieve domid, .retrieve_domain_configuration domid env.retrieve_rc])
  else
    (env.retrieved, [.userdata_retrieve domid, .retrieve_domain_configuration domid env.retrieve_rc])

/-- What the platform answers during `handle_domain_death`: the result of
`libxl_domain_core_dump` and the answers to the configuration reload. -/
structure DeathEnv where
  core_dump_rc : Int
  reload : ReloadEnv
deriving DecidableEq, Repr

/-- The result of `handle_domain_death`: the returned decision, the value left
in `*r_domid`, the contents left in `*d_config` and the platform calls made. -/
structure DeathResult where
  restart : domain_restart_type
  r_domid : Nat
  d_config : libxl_domain_config
  calls : List Ev
deriving DecidableEq, Repr

/-- The first switch of `handle_domain_death`: the configured action for the
shutdown reason; `none` for `LIBXL_SHUTDOWN_REASON_SUSPEND`, where the function
returns at once. -/
def handle_domain_death_action (shutdown_reason : libxl_shutdown_reason)
    (d_config : libxl_domain_config) : Option libxl_action_on_shutdown :=
  match shutdown_reason with
  | .POWEROFF => some d_config.on_poweroff
  | .REBOOT => some d_config.on_reboot
  | .SUSPEND => none
  | .CRASH => some d_config.on_crash
  | .WATCHDOG => some d_config.on_watchdog
  | .SOFT_RESET => some d_config.on_soft_reset
  | .other _ => some .DESTROY

/-- The function `handle_domain_death`; `none` stands for a call of `abort()`. -/
def handle_domain_death (env : DeathEnv) (r_domid : Nat)
    (shutdown_reason : libxl_shutdown_reason) (d_config : libxl_domain_config) :
    Option DeathResult :=
  let restart := DOMAIN_RESTART_NONE
  match handle_domain_death_action shutdown_reason d_config with
  | none =>
    (domain_restart_type.of_int 0).map
      (fun r => { restart := r, r_domid := r_domid, d_config := d_config, calls := [] })
  | some action0 =>
    let dump : libxl_action_on_shutdown × List Ev :=
      if action0 = .COREDUMP_DESTROY ∨ action0 = .COREDUMP_RESTART then
        (if action0 = .COREDUMP_DESTROY then .DESTROY else .RESTART,
         [.domain_core_dump r_domid env.core_dump_rc])
      else (action0, [])
    match dump.1 with
    | .PRESERVE =>
      some { restart := restart, r_domid := r_domid, d_config := d_config, calls := dump.2 }
    | .RESTART_RENAME =>
      let r := reload_domain_config env.reload r_domid d_config
      some { restart := DOMAIN_RESTART_RENAME, r_domid := r_domid, d_config := r.1,
             calls := dump.2 ++ r.2 }
    | .RESTART =>
      let r := reload_domain_config env.reload r_domid d_config
      some { restart := DOMAIN_RESTART_NORMAL, r_domid := INVALID_DOMID, d_config := r.1,
             calls := dump.2 ++ r.2 ++ [.domain_destroy r_domid] }
    | .DESTROY =>
      some { restart := restart, r_domid := INVALID_DOMID, d_config := d_config,
             calls := dump.2 ++ [.domain_destroy r_domid] }
    | .SOFT_RESET =>
      let r := reload_domain_config env.reload r_domid d_config
      some { restart := DOMAIN_RESTART_SOFT_RESET, r_domid := r_domid, d_config := r.1,
             calls := dump.2 ++ r.2 }
    | .COREDUMP_DESTROY => none
    | .COREDUMP_RESTART => none

/-! ## Migration, sending side: `migrate_domain` -/

/-- What the environment answers to the sender: the JSON text that
`save_domain_core_begin` obtains (`none` when it exits instead), the two
descriptors that `create_migration_child` leaves, the bytes that can be read
from the receive endpoint, the value of the global `common_domname` (`none`
for the null pointer), and the results of the writes and platform calls.
`libxl_write_exactly` returns 0 or an errno value. The pipes and the fork of
`create_migration_child` are taken to succeed (otherwise the process exits
there with a non-zero status, before any step listed in a run). -/
structure MigrateEnv where
  config_c : Option (List Byte)
  send_fd : Int
  recv_fd : Int
  recv : List Byte
  write_header_rc : Nat
  write_optdata_rc : Nat
  suspend_rc : Int
  common_domname : Option String
  rename_away_rc : Int
  write_go_rc : Nat
  rename_back_rc : Int
deriving DecidableEq, Repr

/-- The C function `strlen` on the string stored in `s` followed by a NUL. -/
def strlen (s : List Byte) : Nat := (s.takeWhile (fun b => b ≠ 0)).length

/-- The function `save_domain_core_begin`: the configuration as a JSON string
with its terminating NUL, and `strlen + 1` stored in an `int`; `none` when it
calls `exit(EXIT_FAILURE)`. -/
def save_domain_core_begin (env : MigrateEnv) : Option (List Byte × Int) :=
  env.config_c.map (fun config_c => (config_c ++ [0], int_of_u32 (strlen config_c + 1)))

/-- The function `migrate_read_fixedmessage` reading from a descriptor on which
`recv` is available: its result (0 or 1), what is left on the descriptor, and
the read performed. -/
def migrate_read_fixedmessage (recv : List Byte) (msg : List Byte) (msgsz : Nat)
    (what : What) : Int × List Byte × Ev :=
  match libxl_read_exactly recv msgsz with
  | none => (1, [], .read_exactly what msgsz none)
  | some (buf, rest) =>
    if buf ≠ msg.take msgsz then (1, rest, .read_exactly what msgsz (some buf))
    else (0, rest, .read_exactly what msgsz (some buf))

/-- The label `failed_suspend` of `migrate_domain`. -/
def failed_suspend : List Ev × Nat :=
  ([.close_send_fd, .migration_child_report], EXIT_FAILURE)

/-- The label `failed_resume` of `migrate_domain`. -/
def failed_resume (domid : Nat) : List Ev × Nat :=
  ([.close_send_fd, .migration_child_report, .domain_resume domid], EXIT_FAILURE)

/-- The label `failed_badly` of `migrate_domain`. -/
def failed_badly : List Ev × Nat :=
  ([.undefined_state_warning, .close_send_fd, .migration_child_report], EXIT_FAILURE)

/-- Prepend the steps already taken to the rest of a run. -/
def after (evs : List Ev) (r : List Ev × Nat) : List Ev × Nat := (evs ++ r.1, r.2)

/-- Lines 2448-2483 of `migrate_domain`: from the read of the report to the
exit, with `recv` left on the receive endpoint. -/
def migrate_domain_report (domid : Nat) (env : MigrateEnv) (recv : List Byte) :
    List Ev × Nat :=
  let r1 := migrate_read_fixedmessage recv migrate_report migrate_report.length .report_message
  if r1.1 ≠ 0 then after [r1.2.2] failed_badly
  else
    match libxl_read_exactly r1.2.1 1 with
    | none => after [r1.2.2, .read_exactly .status 1 none] failed_badly
    | some (rc_buf, recv2) =>
      if rc_buf ≠ [0] then
        let r2 := migrate_read_fixedmessage recv2 migrate_permission_to_go
          migrate_permission_to_go.length .resume_permission
        if r2.1 ≠ 0 then
          after [r1.2.2, .read_exactly .status 1 (some rc_buf), r2.2.2] failed_badly
        else
          let rename : List Ev :=
            match env.common_domname with
            | some name =>
              [.domain_rename domid (name ++ "--migratedaway") name env.rename_back_rc]
            | none => []
          ([r1.2.2, .read_exactly .status 1 (some rc_buf), r2.2.2] ++ rename
            ++ [.domain_resume domid], EXIT_FAILURE)
      else
        ([r1.2.2, .read_exactly .status 1 (some rc_buf), .domain_destroy domid], EXIT_SUCCESS)

/-- Lines 2402-2446 of `migrate_domain`: from the suspend to the write of the
permission to go, then on to the report. -/
def migrate_domain_suspend (domid : Nat) (env : MigrateEnv) (recv : List Byte) :
    List Ev × Nat :=
  if env.suspend_rc ≠ 0 then
    if env.suspend_rc = ERROR_GUEST_TIMEDOUT then
      after [.domain_suspend domid env.suspend_rc] failed_suspend
    else after [.domain_suspend domid env.suspend_rc] (failed_resume domid)
  else
    let r := migrate_read_fixedmessage recv migrate_receiver_ready
      migrate_receiver_ready.length .ready_message
    if r.1 ≠ 0 then after [.domain_suspend domid env.suspend_rc, r.2.2] (failed_resume domid)
    else
      let rename : Option Ev :=
        env.common_domname.map
          (fun name => .domain_rename domid name (name ++ "--migratedaway") env.rename_away_rc)
      if env.common_domname.isSome ∧ env.rename_away_rc ≠ 0 then
        after ([.domain_suspend domid env.suspend_rc, r.2.2] ++ rename.toList)
          (failed_resume domid)
      else
        let go : Ev := .write_exactly .GO_message migrate_permission_to_go env.write_go_rc
        if env.write_go_rc ≠ 0 then
          after ([.domain_suspend domid env.suspend_rc, r.2.2] ++ rename.toList ++ [go])
            failed_badly
        else
          after ([.domain_suspend domid env.suspend_rc, r.2.2] ++ rename.toList ++ [go])
            (migrate_domain_report domid env r.2.1)

/-- The function `migrate_do_preamble`: the steps taken and, when it returns
rather than exits, what is left on the receive endpoint. -/
def migrate_do_preamble (P : Platform) (env : MigrateEnv) (config_data : List Byte)
    (config_len : Int) : List Ev × Option (List Byte) :=
  if env.send_fd < 0 ∨ env.recv_fd < 0 then ([], none)
  else
    let r := migrate_read_fixedmessage env.recv migrate_receiver_banner
      (migrate_receiver_banner.length - 1) .banner
    if r.1 ≠ 0 then ([r.2.2, .close_send_fd, .migration_child_report], none)
    else
      let w := save_domain_core_writeconfig P config_data config_len
      let w1 : Ev := .write_exactly .header (w.1.bytes P) env.write_header_rc
      let w2 : Ev :=
        .write_exactly .header (w.2.take w.1.optional_data_len) env.write_optdata_rc
      if env.write_header_rc ≠ 0 then ([r.2.2, w1], none)
      else if env.write_optdata_rc ≠ 0 then ([r.2.2, w1, w2], none)
      else ([r.2.2, w1, w2], some r.2.1)

/-- The function `migrate_domain`: the steps taken and the exit status of the
process (every path ends in `exit`). -/
def migrate_domain (P : Platform) (domid : Nat) (env : MigrateEnv) : List Ev × Nat :=
  match save_domain_core_begin env with
  | none => ([], EXIT_FAILURE)
  | some (config_data, config_len) =>
    if config_len = 0 then ([], EXIT_FAILURE)
    else
      match migrate_do_preamble P env config_data config_len with
      | (evs, none) => (evs, EXIT_FAILURE)
      | (evs, some recv) => after evs (migrate_domain_suspend domid env recv)

/-- The restart-decision table as the specification words it: the decision
fixed by a configured action. Preserve and destroy give no-restart, restart
gives restart-in-place, rename-restart gives restart-with-rename, soft-reset
gives restart-with-soft-reset, and the two core-dump actions give what destroy
and restart give. -/
def restart_decision_table : libxl_action_on_shutdown → domain_restart_type
  | .PRESERVE => DOMAIN_RESTART_NONE
  | .DESTROY => DOMAIN_RESTART_NONE
  | .RESTART => DOMAIN_RESTART_NORMAL
  | .RESTART_RENAME => DOMAIN_RESTART_RENAME
  | .SOFT_RESET => DOMAIN_RESTART_SOFT_RESET
  | .COREDUMP_DESTROY => DOMAIN_RESTART_NONE
  | .COREDUMP_RESTART => DOMAIN_RESTART_NORMAL

/-- An environment of the sender in which the configuration is the text `{}`,
both descriptors are valid and every write and platform call succeeds, for a
given `common_domname` and a given content of the receive endpoint. -/
def MigrateEnv.nominal (common_domname : Option String) (recv : List Byte) : MigrateEnv :=
  { config_c := some (ascii "{}")
    send_fd := 4
    recv_fd := 5
    recv := recv
    write_header_rc := 0
    write_optdata_rc := 0
    suspend_rc := 0
    common_domname := common_domname
    rename_away_rc := 0
    write_go_rc := 0
    rename_back_rc := 0 }

/-! ## The creation lock: `acquire_lock`, `release_lock` -/

/-- What the system answers to the calls of `acquire_lock`: the result of
`open` on the lock file, the result of `fcntl(F_SETFD)`, how many times
`fcntl(F_SETLKW)` is interrupted (`EINTR`) before it gives a final result, and
that result. -/
structure LockEnv where
  open_fd : Int
  setfd_rc : Int
  interrupted : Nat
  setlkw_rc : Int
deriving DecidableEq, Repr

/-- The result of a lock operation: its return value, the value left in the
global `fd_lock`, and the system calls made. -/
structure LockResult where
  rc : Int
  fd_lock : Int
  calls : List Ev
deriving DecidableEq, Repr

/-- The function `acquire_lock` entered with the given value of `fd_lock`. -/
def acquire_lock (fd_lock : Int) (env : LockEnv) : LockResult :=
  if fd_lock ≥ 0 then { rc := ERROR_INVAL, fd_lock := fd_lock, calls := [] }
  else if env.open_fd < 0 then
    { rc := ERROR_FAIL, fd_lock := env.open_fd, calls := [.lock_open env.open_fd] }
  else if env.setfd_rc < 0 then
    { rc := ERROR_FAIL, fd_lock := env.open_fd,
      calls := [.lock_open env.open_fd, .lock_setfd env.setfd_rc, .lock_close env.open_fd] }
  else
    { rc := if env.setlkw_rc < 0 then ERROR_FAIL else 0
      fd_lock := env.open_fd
      calls := [.lock_open env.open_fd, .lock_setfd env.setfd_rc,
                .lock_wait env.interrupted env.setlkw_rc] }

/-- The function `release_lock` entered with the given value of `fd_lock`;
`interrupted` and `unlock_rc` describe the `fcntl(F_SETLKW)` that unlocks. -/
def release_lock (fd_lock : Int) (interrupted : Nat) (unlock_rc : Int) : LockResult :=
  if fd_lock < 0 then { rc := ERROR_INVAL, fd_lock := fd_lock, calls := [] }
  else
    { rc := if unlock_rc < 0 then ERROR_FAIL else 0
      fd_lock := -1
      calls := [.lock_release interrupted unlock_rc, .lock_close fd_lock] }

/-! ## Memory reclamation: `freemem` -/

/-- What the platform answers to the calls of `freemem`: the global
`autoballoon`, the result and output of `libxl_domain_need_memory`, and for
the query number `i` (from 0) the result and output of `libxl_get_free_memory`
and the results of `libxl_set_memory_target` and
`libxl_wait_for_memory_target`. -/
structure FreememEnv where
  autoballoon : Bool
  need_rc : Int
  need_memkb : Nat
  free_rc : Nat → Int
  free_memkb : Nat → Nat
  set_target_rc : Nat → Int
  wait_rc : Nat → Int

/-- The `do ... while (retries > 0)` loop of `freemem` with `retries` passes
left, at query number `i`. The relative target handed to
`libxl_set_memory_target` for domain 0 is `free_memkb - need_memkb` computed
in `uint64_t`. -/
def freemem_loop (env : FreememEnv) : Nat → Nat → Bool × List Ev
  | 0, _ => (false, [])
  | retries + 1, i =>
    if env.free_rc i < 0 then (false, [.get_free_memory (env.free_rc i) (env.free_memkb i)])
    else if env.free_memkb i ≥ env.need_memkb then
      (true, [.get_free_memory (env.free_rc i) (env.free_memkb i)])
    else
      let target : Nat :=
        (((env.free_memkb i : Int) - (env.need_memkb : Int)) % 18446744073709551616).toNat
      if env.set_target_rc i < 0 then
        (false, [.get_free_memory (env.free_rc i) (env.free_memkb i),
                 .set_memory_target 0 target (env.set_target_rc i)])
      else if env.wait_rc i < 0 then
        (false, [.get_free_memory (env.free_rc i) (env.free_memkb i),
                 .set_memory_target 0 target (env.set_target_rc i),
                 .wait_for_memory_target (env.wait_rc i)])
      else
        let r := freemem_loop env retries (i + 1)
        (r.1, [.get_free_memory (env.free_rc i) (env.free_memkb i),
               .set_memory_target 0 target (env.set_target_rc i),
               .wait_for_memory_target (env.wait_rc i)] ++ r.2)

/-- The function `freemem`: its result and the platform calls made. -/
def freemem (env : FreememEnv) : Bool × List Ev :=
  if ¬ env.autoballoon then (true, [])
  else if env.need_rc < 0 then (false, [.domain_need_memory env.need_rc])
  else
    let r := freemem_loop env 3 0
    (r.1, .domain_need_memory env.need_rc :: r.2)

/-! ## Bringing a domain up and monitoring it: `create_domain` -/

/-- How the run of a function in a process ends: the function returns `v`,
the process calls `exit(code)`, it calls `abort()` (also through a failed
`assert`), it goes on to allocate and copy `sz` bytes that are not there (see
`Outcome.oversize`), it waits for ever for an event that never comes, or the
run goes on beyond the passes for which the environment gives answers. -/
inductive End where
  | ret (v : Int)
  | exit (code : Int)
  | abort
  | oversize (sz : Nat)
  | blocked
  | unfinished
deriving DecidableEq, Repr

/-- The `config_file` argument when it is not null: the special name
`/dev/null`, or the path of a file. -/
inductive ConfigFile where
  | dev_null
  | path
deriving DecidableEq, Repr

/-- The fields of `struct domain_create` that decide the control flow of
`create_domain`; `restore_file` tells whether that pointer is non-null. -/
structure domain_create where
  debug : Bool
  daemonize : Bool
  monitor : Bool
  paused : Bool
  dryrun : Bool
  vnc : Bool
  console_autoconnect : Bool
  checkpointed_stream : libxl_checkpointed_stream
  config_file : Option ConfigFile
  extra_config : Option (List Byte)
  restore_file : Bool
  migrate_fd : Int
  send_back_fd : Int
deriving DecidableEq, Repr

/-- The inline function `libxl_domid_valid_guest` of libxl.h (not part of the
source): a domain id above 0 and below `DOMID_FIRST_RESERVED` (0x7FF0). -/
def libxl_domid_valid_guest (domid : Nat) : Bool := decide (0 < domid ∧ domid < 0x7FF0)

/-- Which process the run follows through the fork of `do_daemonize`: the
parent, with the result of `child_report`; the child, which detaches and
returns; or the child when one of its steps fails and it exits. -/
inductive DaemonizeEnv where
  | parent (child_report_ret : Int)
  | child
  | child_exit (code : Int)
deriving DecidableEq, Repr

/-- The function `do_daemonize`: the value returned, or the exit of the
child. -/
def do_daemonize : DaemonizeEnv → End
  | .parent r => if r ≠ 0 then .ret r else .ret 1
  | .child => .ret 0
  | .child_exit code => .exit code

/-- What the system answers to `preserve_domain`: whether the current time
could be obtained and formatted, and the result of `libxl_domain_preserve`. -/
structure PreserveEnv where
  time_ok : Bool
  preserve_rc : Int
deriving DecidableEq, Repr

/-- The function `preserve_domain`: its result (1 or 0), the value left in
`*r_domid`, and the platform call made. -/
def preserve_domain (env : PreserveEnv) (r_domid : Nat) : Int × Nat × List Ev :=
  if ¬ env.time_ok then (0, r_domid, [])
  else (if env.preserve_rc = 0 then 1 else 0, INVALID_DOMID,
        [.domain_preserve r_domid env.preserve_rc])

/-- What the platform answers while a shutdown event is handled: the answers
to `handle_domain_death` and to `preserve_domain`, and the first non-zero
result of `libxl_event_check` when the pending events are discarded. -/
structure ShutdownEnv where
  death : DeathEnv
  preserve : PreserveEnv
  event_check_ret : Int
deriving DecidableEq, Repr

/-- The type of a `libxl_event` as the wait loop tells it apart (with, for a
shutdown, the reason and the answers of the platform while it is handled). -/
inductive WaitEvent where
  | domain_shutdown (reason : libxl_shutdown_reason) (answers : ShutdownEnv)
  | domain_death
  | disk_eject
  | other (type : Int)
deriving DecidableEq, Repr

/-- One result of `libxl_event_wait`: failure with the libxl error code
`-(code + 1)`, or an event for the domain `domid`. -/
inductive WaitResult where
  | failed (code : Nat)
  | event (domid : Nat) (ev : WaitEvent)
deriving DecidableEq, Repr

/-- The variables of `create_domain` (and the globals it uses) that live across
`goto start`. `unread` is what is left to read on the restore descriptor. -/
structure CreateState where
  domid : Nat
  domid_soft_reset : Nat
  restoring : Bool
  paused : Bool
  console_autoconnect : Bool
  need_daemon : Bool
  d_config : libxl_domain_config
  common_domname : Option String
  migration_domname : Option String
  ret : Int
  fd_lock : Int
  mandatory_flags : Nat
  unread : List Byte
deriving DecidableEq, Repr

/-- What the environment answers during one pass from `start:`: to the lock,
to `freemem`, to `libxl_pipe`, to the bring-up call (its result, the domain id
it stores, and how many bytes of the stream a restore reads), to the unlock,
to `libxl_domain_unpause`, to `do_daemonize`, to the enabling of the death and
disk-eject events (one result per removable disk), and the results of
`libxl_event_wait` in order. -/
structure PassEnv where
  lock : LockEnv
  freemem : FreememEnv
  pipe_rc : Int
  bringup_ret : Int
  bringup_domid : Nat
  restore_reads : Nat
  unlock_interrupted : Nat
  unlock_rc : Int
  unpause_rc : Int
  daemonize : DaemonizeEnv
  evenable_death_ret : Int
  evenable_eject_ret : List Int
  events : List WaitResult

/-- A run of `create_domain`: the steps taken, how it ends, and the values
left in the globals `fd_lock` and `common_domname`, in `*migration_domname_r`
(`none` when nothing was stored) and on the restore descriptor. -/
structure Run where
  trace : List Ev
  ending : End
  fd_lock : Int
  common_domname : Option String
  migration_domname : Option String
  unread : List Byte
deriving DecidableEq, Repr

/-- Prepend the steps already taken to a run. -/
def Run.prepend (evs : List Ev) (r : Run) : Run := { r with trace := evs ++ r.trace }

/-- A run that ends in the given way from the given state. -/
def Run.of (st : CreateState) (ending : End) (trace : List Ev) : Run :=
  { trace := trace
    ending := ending
    fd_lock := st.fd_lock
    common_domname := st.common_domname
    migration_domname := st.migration_domname
    unread := st.unread }

/-- How a pass from `start:` ends: `create_domain` is over, or control jumps
back to `start:` with a new state. -/
inductive PassResult where
  | done (r : Run)
  | restart (trace : List Ev) (st : CreateState)
deriving DecidableEq, Repr

/-- The steps taken in a pass. -/
def PassResult.trace : PassResult → List Ev
  | .done r => r.trace
  | .restart trace _ => trace

/-- The value of the global `fd_lock` at the end of a pass. -/
def PassResult.fd_lock : PassResult → Int
  | .done r => r.fd_lock
  | .restart _ st => st.fd_lock

/-- Prepend the steps already taken to the result of a pass. -/
def PassResult.prepend (evs : List Ev) : PassResult → PassResult
  | .done r => .done (r.prepend evs)
  | .restart trace st => .restart (evs ++ trace) st

/-- The label `out:` of `create_domain`, reached with the value of `ret` in the
state: a process that has daemonized exits, any other returns. -/
def create_domain_out (info : domain_create) (st : CreateState) (trace : List Ev) : Run :=
  Run.of st (if info.daemonize ∧ ¬ st.need_daemon then .exit st.ret else .ret st.ret) trace

/-- The label `error_out:` of `create_domain`, which falls through to `out:`. -/
def create_domain_error_out (info : domain_create) (st : CreateState) (env : PassEnv)
    (trace : List Ev) : Run :=
  let rl := release_lock st.fd_lock env.unlock_interrupted env.unlock_rc
  let valid := libxl_domid_valid_guest st.domid
  create_domain_out info
    { st with fd_lock := rl.fd_lock, domid := if valid then INVALID_DOMID else st.domid }
    (trace ++ rl.calls ++ (if valid then [.domain_destroy st.domid] else []))

/-- The three platform calls that bring a domain up. -/
def Ev.is_bringup : Ev → Bool
  | .domain_create_restore _ _ _ => true
  | .domain_soft_reset _ _ => true
  | .domain_create_new _ => true
  | _ => false

/-- How the first part of a pass ends: at `error_out:` (or at the failed
`assert`), or with the domain brought up and the lock released. -/
inductive BringupResult where
  | failed (r : Run)
  | created (trace : List Ev) (st : CreateState)
deriving DecidableEq, Repr

/-- The steps taken in the first part of a pass. -/
def BringupResult.trace : BringupResult → List Ev
  | .failed r => r.trace
  | .created trace _ => trace

/-- The value of the global `fd_lock` at the end of the first part of a pass. -/
def BringupResult.fd_lock : BringupResult → Int
  | .failed r => r.fd_lock
  | .created _ st => st.fd_lock

/-- The bring-up call of a pass, selected by mode, and the state it leaves. -/
def create_domain_call (info : domain_create) (st : CreateState) (env : PassEnv) :
    Ev × CreateState :=
  if st.restoring then
    (.domain_create_restore
        (if st.mandatory_flags &&& XL_MANDATORY_FLAG_STREAMv2 ≠ 0 then 2 else 1)
        info.checkpointed_stream env.bringup_ret,
     { st with ret := env.bringup_ret, domid := env.bringup_domid, restoring := false,
               unread := st.unread.drop env.restore_reads })
  else if st.domid_soft_reset ≠ INVALID_DOMID then
    (.domain_soft_reset st.domid_soft_reset env.bringup_ret,
     { st with ret := env.bringup_ret, domid := st.domid_soft_reset,
               domid_soft_reset := INVALID_DOMID })
  else
    (.domain_create_new env.bringup_ret,
     { st with ret := env.bringup_ret, domid := env.bringup_domid })

/-- Lines 864-927 of `create_domain`: from `start:` to the `release_lock()` that
follows a successful bring-up call. The step `freemem` marks the return of
that function, after the platform calls it made. -/
def create_domain_bringup (info : domain_create) (st : CreateState) (env : PassEnv) :
    BringupResult :=
  if st.domid ≠ INVALID_DOMID then .failed (Run.of st .abort [])
  else
    let al := acquire_lock st.fd_lock env.lock
    let st1 := { st with fd_lock := al.fd_lock }
    if al.rc < 0 then .failed (create_domain_error_out info st1 env al.calls)
    else
      let fm : Bool × List Ev :=
        if st.domid_soft_reset = INVALID_DOMID then
          ((freemem env.freemem).1, (freemem env.freemem).2 ++ [.freemem (freemem env.freemem).1])
        else (true, [])
      if ¬ fm.1 then
        .failed (create_domain_error_out info { st1 with ret := ERROR_FAIL } env
          (al.calls ++ fm.2))
      else
        let pipe : List Ev := if st.console_autoconnect then [.pipe env.pipe_rc] else []
        if st.console_autoconnect ∧ env.pipe_rc ≠ 0 then
          .failed (create_domain_error_out info { st1 with ret := ERROR_FAIL } env
            (al.calls ++ fm.2 ++ pipe))
        else
          let c := create_domain_call info st1 env
          if env.bringup_ret ≠ 0 then
            .failed (create_domain_error_out info c.2 env (al.calls ++ fm.2 ++ pipe ++ [c.1]))
          else
            let rl := release_lock c.2.fd_lock env.unlock_interrupted env.unlock_rc
            .created (al.calls ++ fm.2 ++ pipe ++ [c.1] ++ rl.calls)
              { c.2 with fd_lock := rl.fd_lock }

/-- The case `DOMAIN_RESTART_NORMAL` of the wait loop: pending events are
discarded, the settings of a first boot are dropped, and control jumps to
`start:`. -/
def create_domain_restart (st : CreateState) (a : ShutdownEnv) (trace : List Ev) :
    PassResult :=
  .restart (trace ++ [.event_check a.event_check_ret])
    { st with
        ret := a.event_check_ret
        console_autoconnect := false
        paused := false
        d_config :=
          match st.common_domname with
          | some name => { st.d_config with name := name }
          | none => st.d_config }

/-- The case `DOMAIN_RESTART_RENAME` of the wait loop, which falls through to
`DOMAIN_RESTART_NORMAL` unless `preserve_domain` is called and fails. -/
def create_domain_rename (info : domain_create) (st : CreateState) (a : ShutdownEnv)
    (trace : List Ev) : PassResult :=
  if st.domid_soft_reset = INVALID_DOMID then
    let p := preserve_domain a.preserve st.domid
    if p.1 = 0 then
      .done (create_domain_out info { st with domid := p.2.1, ret := -1 } (trace ++ p.2.2))
    else create_domain_restart { st with domid := p.2.1 } a (trace ++ p.2.2)
  else create_domain_restart st a trace

/-- The case `LIBXL_EVENT_TYPE_DOMAIN_SHUTDOWN` of the wait loop: the switch on
the result of `handle_domain_death`. -/
def create_domain_shutdown (info : domain_create) (st : CreateState)
    (reason : libxl_shutdown_reason) (a : ShutdownEnv) : PassResult :=
  match handle_domain_death a.death st.domid reason st.d_config with
  | none => .done (Run.of st .abort [])
  | some r =>
    let st1 := { st with domid := r.r_domid, d_config := r.d_config }
    match r.restart with
    | DOMAIN_RESTART_SOFT_RESET =>
      create_domain_rename info
        { st1 with domid_soft_reset := st1.domid, domid := INVALID_DOMID } a r.calls
    | DOMAIN_RESTART_RENAME => create_domain_rename info st1 a r.calls
    | DOMAIN_RESTART_NORMAL => create_domain_restart st1 a r.calls
    | DOMAIN_RESTART_NONE => .done (create_domain_out info { st1 with ret := 0 } r.calls)

/-- The wait loop of `create_domain` (lines 1004-1098, with `domain_wait_event`)
on the results that `libxl_event_wait` gives in order. An event for another
domain is skipped by `domain_wait_event`. -/
def create_domain_wait (info : domain_create) (st : CreateState) :
    List WaitResult → PassResult
  | [] => .done (Run.of st .blocked [])
  | .failed code :: _ =>
    .done (create_domain_out info { st with ret := -((code : Int) + 1) }
      [.event_wait (-((code : Int) + 1)) st.domid])
  | .event d ev :: rest =>
    if d ≠ st.domid then
      (create_domain_wait info st rest).prepend [.event_wait 0 d]
    else
      match ev with
      | .domain_shutdown reason a =>
        (create_domain_shutdown info { st with ret := 0 } reason a).prepend [.event_wait 0 d]
      | .domain_death =>
        .done (create_domain_out info { st with ret := 0 } [.event_wait 0 d])
      | .disk_eject =>
        (create_domain_wait info { st with ret := 0 } rest).prepend
          [.event_wait 0 d, .cdrom_insert st.domid]
      | .other _ =>
        (create_domain_wait info { st with ret := 0 } rest).prepend [.event_wait 0 d]

/-- The loop that enables the disk-eject event for each removable disk, on the
results of `libxl_evenable_disk_eject` in order: the first non-zero result, if
any, and the calls made. -/
def evenable_disk_ejects (domid : Nat) : List Int → Option Int × List Ev
  | [] => (none, [])
  | r :: rest =>
    if r ≠ 0 then (some r, [.evenable_disk_eject domid r])
    else
      let k := evenable_disk_ejects domid rest
      (k.1, .evenable_disk_eject domid r :: k.2)

/-- Lines 986-1098 of `create_domain`: the enabling of the death and disk-eject
events, then the wait loop; `pre` holds the steps of the pass so far. -/
def create_domain_events (info : domain_create) (st : CreateState) (env : PassEnv)
    (pre : List Ev) : PassResult :=
  if env.evenable_death_ret ≠ 0 then
    .done (create_domain_out info { st with ret := env.evenable_death_ret }
      (pre ++ [.evenable_domain_death st.domid env.evenable_death_ret]))
  else
    let ej := evenable_disk_ejects st.domid env.evenable_eject_ret
    match ej.1 with
    | some r =>
      .done (create_domain_out info { st with ret := r }
        (pre ++ [.evenable_domain_death st.domid env.evenable_death_ret] ++ ej.2))
    | none =>
      (create_domain_wait info { st with ret := 0 } env.events).prepend
        (pre ++ [.evenable_domain_death st.domid env.evenable_death_ret] ++ ej.2)

/-- Lines 929-1098 of `create_domain`: from after the `release_lock()` of a
successful bring-up to the end of the pass. -/
def create_domain_monitor (info : domain_create) (st : CreateState) (env : PassEnv)
    (trace : List Ev) : PassResult :=
  let unpause : List Ev := if ¬ st.paused then [.domain_unpause st.domid env.unpause_rc] else []
  let st1 := { st with ret := int_of_u32 st.domid }
  if ¬ info.daemonize ∧ ¬ info.monitor then
    .done (create_domain_out info st1 (trace ++ unpause))
  else
    let vnc : List Ev := if info.vnc then [.vncviewer st.domid] else []
    if st1.need_daemon then
      match do_daemonize env.daemonize with
      | .ret dret =>
        if dret ≠ 0 then
          .done (create_domain_out info
            { st1 with ret := if dret = 1 then int_of_u32 st.domid else dret }
            (trace ++ unpause ++ vnc ++ [.do_daemonize]))
        else create_domain_events info { st1 with ret := dret, need_daemon := false } env
          (trace ++ unpause ++ vnc ++ [.do_daemonize])
      | e => .done (Run.of st1 e (trace ++ unpause ++ vnc ++ [.do_daemonize]))
    else create_domain_events info st1 env (trace ++ unpause ++ vnc)

/-- One pass of `create_domain` from `start:`. -/
def create_domain_start (info : domain_create) (st : CreateState) (env : PassEnv) :
    PassResult :=
  match create_domain_bringup info st env with
  | .failed r => .done r
  | .created trace st1 => create_domain_monitor info st1 env trace

/-- The passes of `create_domain` from `start:`, one for each set of answers of
the environment. -/
def create_domain_passes (info : domain_create) : CreateState → List PassEnv → Run
  | st, [] => Run.of st .unfinished []
  | st, env :: envs =>
    match create_domain_start info st env with
    | .done r => r
    | .restart trace st1 => (create_domain_passes info st1 envs).prepend trace

/-- What the environment answers to `create_domain` before the first pass, and
the answers for each pass: whether the restore file can be opened, the result
of `libxl_fd_set_cloexec`, the bytes readable on the restore descriptor, the
contents of the configuration file (`none` when it cannot be read), the
configuration that the parser (external to this file) makes of the selected
configuration text, whether the output format is SXP, whether the conversion
to JSON for printing succeeds, and the value of the global `common_domname` at
entry. -/
structure CreateEnv where
  open_restore_ok : Bool
  cloexec_rc : Int
  stream : List Byte
  config_file_contents : Option (List Byte)
  parsed : libxl_domain_config
  output_sxp : Bool
  to_json_ok : Bool
  common_domname : Option String
  passes : List PassEnv

/-- Lines 784-807 of `create_domain`, a configuration file being given: the
configuration bytes and their length, or the error returned. The extra
configuration is appended only when not restoring. -/
def create_domain_file_config (P : Platform) (info : domain_create) (restoring : Bool)
    (cf : ConfigFile) (contents : Option (List Byte)) : Outcome (List Byte × Int × Bool) :=
  let file : Option (List Byte × Int) :=
    match cf with
    | .dev_null => some ([], 0)
    | .path => contents.map (fun d => (d, int_of_u32 d.length))
  match file with
  | none => .ret ERROR_FAIL
  | some (data, len) =>
    match info.extra_config with
    | some extra =>
      if ¬ restoring ∧ strlen extra ≠ 0 then
        let w : Int := if P.lp64 then 18446744073709551616 else 4294967296
        if ((size_t_of_int P len : Nat) : Int) > ((2147483647 : Int) - (strlen extra + 2 + 1)) % w
        then .ret ERROR_FAIL
        else
          .cont (data ++ [10] ++ extra.take (strlen extra) ++ [10],
                 len + (strlen extra + 2), false)
      else .cont (data, len, false)
    | none => .cont (data, len, false)

/-- The end of `create_domain` before any state of a pass exists. -/
def create_domain_early (env : CreateEnv) (fd_lock : Int) (unread : List Byte)
    (ending : End) : Run :=
  { trace := []
    ending := ending
    fd_lock := fd_lock
    common_domname := env.common_domname
    migration_domname := none
    unread := unread }

/-- Lines 784-816 of `create_domain`: the configuration that is parsed, its
length and `config_in_json`, from the file when one is given, else from the
save file. -/
def create_domain_select_config (P : Platform) (info : domain_create) (env : CreateEnv)
    (restoring : Bool) (rs : RestoreState) : Outcome (List Byte × Int × Bool) :=
  match info.config_file with
  | some cf => create_domain_file_config P info restoring cf env.config_file_contents
  | none => create_domain_saved_config rs

/-- Lines 818-1139 of `create_domain`: from the parsing of the selected
configuration on. The parser is external to this file; a configuration always
carries a name. -/
def create_domain_configured (info : domain_create) (env : CreateEnv) (fd_lock : Int)
    (restoring : Bool) (mandatory_flags : Nat) (unread : List Byte)
    (config : List Byte × Int × Bool) : Run :=
  let parse : Ev := .parse_config config.2.2 config.1 config.2.1
  if info.migrate_fd ≥ 0 ∧ env.common_domname.isSome then
    (create_domain_early env fd_lock unread .abort).prepend [parse]
  else
    let st : CreateState :=
      { domid := INVALID_DOMID
        domid_soft_reset := INVALID_DOMID
        restoring := restoring
        paused := info.paused
        console_autoconnect := info.console_autoconnect
        need_daemon := info.daemonize
        d_config :=
          if info.migrate_fd ≥ 0 then { env.parsed with name := env.parsed.name ++ "--incoming" }
          else env.parsed
        common_domname :=
          if info.migrate_fd ≥ 0 then some env.parsed.name else env.common_domname
        migration_domname :=
          if info.migrate_fd ≥ 0 then some (env.parsed.name ++ "--incoming") else none
        ret := 0
        fd_lock := fd_lock
        mandatory_flags := mandatory_flags
        unread := unread }
    if (info.debug ∨ info.dryrun) ∧ ¬ env.output_sxp ∧ ¬ env.to_json_ok then
      Run.of st (.exit 1) [parse]
    else if info.dryrun then create_domain_out info st [parse]
    else (create_domain_passes info st env.passes).prepend [parse]

/-- Lines 697-782 of `create_domain`: the restoring block when a restore file
or a migration stream is given (with the opening of the restore file), and the
initial values of the locals otherwise (the header is then never used). -/
def create_domain_decode (P : Platform) (info : domain_create) (env : CreateEnv)
    (restoring : Bool) : Outcome RestoreState × List Byte :=
  if restoring then
    if ¬ (info.migrate_fd ≥ 0) ∧ ¬ env.open_restore_ok then (.ret ERROR_INVAL, env.stream)
    else if ¬ (info.migrate_fd ≥ 0) ∧ env.cloexec_rc ≠ 0 then (.ret env.cloexec_rc, env.stream)
    else create_domain_restoring P env.stream
  else
    (.cont { hdr := { magic := [], byteorder := 0, mandatory_flags := 0, optional_flags := 0,
                      optional_data_len := 0 }
             config_len := 0
             config_data := none }, env.stream)

/-- The function `create_domain`, entered with the given value of the global
`fd_lock`. -/
def create_domain (P : Platform) (info : domain_create) (env : CreateEnv) (fd_lock : Int) :
    Run :=
  let restoring : Bool := info.restore_file || decide (info.migrate_fd ≥ 0)
  match create_domain_decode P info env restoring with
  | (.ret rc, rest) => create_domain_early env fd_lock rest (.ret rc)
  | (.chk_errnoval, rest) => create_domain_early env fd_lock rest (.exit EXIT_FAILURE)
  | (.oversize sz, rest) => create_domain_early env fd_lock rest (.oversize sz)
  | (.cont rs, rest) =>
    match create_domain_select_config P info env restoring rs with
    | .ret rc => create_domain_early env fd_lock rest (.ret rc)
    | .chk_errnoval => create_domain_early env fd_lock rest (.exit EXIT_FAILURE)
    | .oversize sz => create_domain_early env fd_lock rest (.oversize sz)
    | .cont config =>
      create_domain_configured info env fd_lock restoring rs.hdr.mandatory_flags rest config

/-! ## Migration, receiving side: `migrate_receive` -/

/-- What the environment answers to the receiver: the results of its writes
(0 or an errno value), the answers to `create_domain` (whose stream is what can
be read from the receive endpoint), and the results of the rename, unpause and
destroy of the received domain. -/
structure ReceiveEnv where
  write_banner_rc : Nat
  create : CreateEnv
  write_ready_rc : Nat
  rename_rc : Int
  unpause_rc : Int
  write_report_rc : Nat
  write_status_rc : Nat
  destroy_rc : Int
  write_go_back_rc : Nat

/-- Prepend the steps already taken to the rest of a run of the receiver. -/
def after_end (evs : List Ev) (r : List Ev × End) : List Ev × End := (evs ++ r.1, r.2)

/-- The status byte `rc_buf = -rc` stored in a `char`. -/
def status_byte (rc : Int) : Byte := Fin.ofNat ((-rc) % 256).toNat

/-- The label `perhaps_destroy_notify_rc` of `migrate_receive`, reached with
the result `rc`. -/
def migrate_receive_notify (domid : Nat) (rc : Int) (env : ReceiveEnv) : List Ev × End :=
  let w1 : Ev := .write_exactly .report migrate_report env.write_report_rc
  if env.write_report_rc ≠ 0 then ([w1], .exit EXIT_FAILURE)
  else if decide (status_byte rc ≠ 0) ≠ decide (rc ≠ 0) then ([w1], .abort)
  else
    let w2 : Ev := .write_exactly .status_code [status_byte rc] env.write_status_rc
    if env.write_status_rc ≠ 0 then ([w1, w2], .exit EXIT_FAILURE)
    else if rc ≠ 0 then
      if env.destroy_rc ≠ 0 then ([w1, w2, .domain_destroy domid], .exit EXIT_FAILURE)
      else
        let w3 : Ev := .write_exactly .go_back migrate_permission_to_go env.write_go_back_rc
        if env.write_go_back_rc ≠ 0 then
          ([w1, w2, .domain_destroy domid, w3], .exit EXIT_FAILURE)
        else ([w1, w2, .domain_destroy domid, w3], .exit EXIT_SUCCESS)
    else ([w1, w2], .exit EXIT_SUCCESS)

/-- The rename of the received domain from its temporary name to
`common_domname`, made when `migration_domname` is not null. -/
def migrate_receive_rename (domid : Nat) (migration_domname common_domname : Option String)
    (env : ReceiveEnv) : List Ev :=
  match migration_domname with
  | some name => [.domain_rename domid name (common_domname.getD "") env.rename_rc]
  | none => []

/-- Lines 2602-2667 of `migrate_receive`: the handshake of a migration that is
not checkpointed, from the write of "ready" on; `unread` is what can still be
read from the receive endpoint. -/
def migrate_receive_handshake (pause_after_migration : Bool) (domid : Nat)
    (migration_domname common_domname : Option String) (unread : List Byte)
    (env : ReceiveEnv) : List Ev × End :=
  let w : Ev := .write_exactly .ready_message migrate_receiver_ready env.write_ready_rc
  if env.write_ready_rc ≠ 0 then ([w], .exit EXIT_FAILURE)
  else
    let r := migrate_read_fixedmessage unread migrate_permission_to_go
      migrate_permission_to_go.length .GO_message
    if r.1 ≠ 0 then after_end [w, r.2.2] (migrate_receive_notify domid r.1 env)
    else
      let rename := migrate_receive_rename domid migration_domname common_domname env
      if migration_domname.isSome ∧ env.rename_rc ≠ 0 then
        after_end ([w, r.2.2] ++ rename) (migrate_receive_notify domid env.rename_rc env)
      else if ¬ pause_after_migration then
        if env.unpause_rc ≠ 0 then
          after_end ([w, r.2.2] ++ rename ++ [.domain_unpause domid env.unpause_rc])
            (migrate_receive_notify domid env.unpause_rc env)
        else
          after_end ([w, r.2.2] ++ rename ++ [.domain_unpause domid env.unpause_rc])
            (migrate_receive_notify domid 0 env)
      else after_end ([w, r.2.2] ++ rename) (migrate_receive_notify domid 0 env)

/-- Lines 2554-2596 of `migrate_receive`: the two checkpointed modes, entered
with `rc` holding the result of `create_domain`. -/
def migrate_receive_checkpointed (checkpointed : libxl_checkpointed_stream) (rc : Int)
    (domid : Nat) (migration_domname common_domname : Option String) (env : ReceiveEnv) :
    List Ev × End :=
  let rename := migrate_receive_rename domid migration_domname common_domname env
  let rc1 : Int := if migration_domname.isSome then env.rename_rc else rc
  if checkpointed = .COLO then (rename, .exit (if rc1 ≠ 0 then -ERROR_FAIL else 0))
  else
    (rename ++ [.domain_unpause domid env.unpause_rc],
     .exit (if env.unpause_rc ≠ 0 then EXIT_FAILURE else EXIT_SUCCESS))

/-- The `struct domain_create` that `migrate_receive` hands to `create_domain`. -/
def migrate_receive_dom_info (debug daemonize monitor : Bool) (send_fd recv_fd : Int)
    (checkpointed : libxl_checkpointed_stream) : domain_create :=
  { debug := debug
    daemonize := daemonize
    monitor := monitor
    paused := true
    dryrun := false
    vnc := false
    console_autoconnect := false
    checkpointed_stream := checkpointed
    config_file := none
    extra_config := none
    restore_file := false
    migrate_fd := recv_fd
    send_back_fd := send_fd }

/-- The function `migrate_receive`, entered with the given value of the global
`fd_lock`: the steps taken and how the process ends. -/
def migrate_receive (P : Platform) (debug daemonize monitor pause_after_migration : Bool)
    (send_fd recv_fd : Int) (checkpointed : libxl_checkpointed_stream) (env : ReceiveEnv)
    (fd_lock : Int) : List Ev × End :=
  let wb : Ev :=
    .write_exactly .banner (migrate_receiver_banner.take (migrate_receiver_banner.length - 1))
      env.write_banner_rc
  if env.write_banner_rc ≠ 0 then ([wb], .exit EXIT_FAILURE)
  else
    let r := create_domain P
      (migrate_receive_dom_info debug daemonize monitor send_fd recv_fd checkpointed)
      env.create fd_lock
    match r.ending with
    | .ret rc =>
      if rc < 0 then (wb :: r.trace, .exit EXIT_FAILURE)
      else
        match checkpointed with
        | .NONE =>
          after_end (wb :: r.trace)
            (migrate_receive_handshake pause_after_migration (u32_of_int rc)
              r.migration_domname r.common_domname r.unread env)
        | c =>
          after_end (wb :: r.trace)
            (migrate_receive_checkpointed c rc (u32_of_int rc) r.migration_domname
              r.common_domname env)
    | e => (wb :: r.trace, e)

/-- The function `main_migrate_receive` after its options are read: `-F` clears
`daemonize`, `-e` clears `daemonize` and `monitor`, `-p` sets
`pause_after_migration`; the endpoints are standard output and standard
input. If `migrate_receive` returned, the result would be `EXIT_SUCCESS`; it
never does. -/
def main_migrate_receive (P : Platform) (opt_F opt_e opt_d opt_p : Bool)
    (checkpointed : libxl_checkpointed_stream) (env : ReceiveEnv) (fd_lock : Int) :
    List Ev × End :=
  migrate_receive P opt_d (!(opt_F || opt_e)) (!opt_e) opt_p 1 0 checkpointed env fd_lock

/-! ## Environments in which every call succeeds -/

/-- The lock file opens as descriptor 7 and the lock is granted at once. -/
def LockEnv.nominal : LockEnv :=
  { open_fd := 7, setfd_rc := 0, interrupted := 0, setlkw_rc := 0 }

/-- Autoballoon is disabled and every platform call of `freemem` succeeds. -/
def FreememEnv.nominal : FreememEnv :=
  { autoballoon := false
    need_rc := 0
    need_memkb := 0
    free_rc := fun _ => 0
    free_memkb := fun _ => 0
    set_target_rc := fun _ => 0
    wait_rc := fun _ => 0 }

/-- A pass in which every call succeeds: the bring-up call stores `domid`, a
restore reads `restore_reads` bytes of the stream, there is no removable disk,
and `libxl_event_wait` gives the listed results. -/
def PassEnv.nominal (domid restore_reads : Nat) (daemonize : DaemonizeEnv)
    (events : List WaitResult) : PassEnv :=
  { lock := LockEnv.nominal
    freemem := FreememEnv.nominal
    pipe_rc := 0
    bringup_ret := 0
    bringup_domid := domid
    restore_reads := restore_reads
    unlock_interrupted := 0
    unlock_rc := 0
    unpause_rc := 0
    daemonize := daemonize
    evenable_death_ret := 0
    evenable_eject_ret := []
    events := events }

/-- A configuration named `name` with the actions that xl applies when none is
configured: destroy on poweroff, watchdog and crash, restart on reboot, soft
reset on soft reset. -/
def libxl_domain_config.nominal (name : String) : libxl_domain_config :=
  { name := name
    on_poweroff := .DESTROY
    on_reboot := .RESTART
    on_watchdog := .DESTROY
    on_crash := .DESTROY
    on_soft_reset := .SOFT_RESET }

/-- Answers to `create_domain` in which the restore file opens, the parser
gives the nominal configuration named `vm`, and `common_domname` is null at
entry, for a given stream and given passes. -/
def CreateEnv.nominal (stream : List Byte) (passes : List PassEnv) : CreateEnv :=
  { open_restore_ok := true
    cloexec_rc := 0
    stream := stream
    config_file_contents := some (ascii "name=\"vm\"")
    parsed := libxl_domain_config.nominal "vm"
    output_sxp := false
    to_json_ok := true
    common_domname := none
    passes := passes }

/-- Answers to the receiver in which every write and platform call succeeds,
for a given content of the receive endpoint and given passes of
`create_domain`. -/
def ReceiveEnv.nominal (stream : List Byte) (passes : List PassEnv) : ReceiveEnv :=
  { write_banner_rc := 0
    create := CreateEnv.nominal stream passes
    write_ready_rc := 0
    rename_rc := 0
    unpause_rc := 0
    write_report_rc := 0
    write_status_rc := 0
    destroy_rc := 0
    write_go_back_rc := 0 }

/-- The `struct domain_create` of `xl create` with a configuration file and no
option: the domain is monitored by a daemon. -/
def domain_create.nominal : domain_create :=
  { debug := false
    daemonize := true
    monitor := true
    paused := false
    dryrun := false
    vnc := false
    console_autoconnect := false
    checkpointed_stream := .NONE
    config_file := some .path
    extra_config := none
    restore_file := false
    migrate_fd := -1
    send_back_fd := -1 }

/-- The save file of the scenario: a header with `mandatory_flags =
JSON|STREAMv2` and `optional_data_len = 11`, then the 4-byte length 7, the
seven bytes of the text `\x7b"a":1\x7d` and a NUL. -/
def scenario_save_file (P : Platform) : List Byte :=
  save_file_header.bytes P
      { magic := savefileheader_magic
        byteorder := SAVEFILE_BYTEORDER_VALUE
        mandatory_flags := XL_MANDATORY_FLAG_JSON ||| XL_MANDATORY_FLAG_STREAMv2
        optional_flags := 0
        optional_data_len := 11 }
    ++ u32_to_bytes P 7 ++ [123, 34, 97, 34, 58, 49, 125] ++ [0]


/-- The steps of a pass before its bring-up call. -/
def create_domain_bringup_prelude (st : CreateState) (env : PassEnv) : List Ev :=
  (acquire_lock st.fd_lock env.lock).calls
    ++ (if st.domid_soft_reset = INVALID_DOMID then
          (freemem env.freemem).2 ++ [Ev.freemem (freemem env.freemem).1]
        else [])
    ++ (if st.console_autoconnect then [Ev.pipe env.pipe_rc] else [])

/-- What the second part of a pass keeps of the state `st` at which it is
entered: the global `fd_lock`; its steps bring no domain up; and a jump back
to `start:` leaves `restoring` as it was. -/
def PassResult.keeps (r : PassResult) (st : CreateState) : Prop :=
  r.fd_lock = st.fd_lock
  ∧ (∀ e ∈ r.trace, e.is_bringup = false)
  ∧ (∀ tr st1, r = .restart tr st1 → st1.restoring = st.restoring)

/-! ## Notions used to state further properties -/

/-- Modelled from the spec: the relative target of `libxl_set_memory_target`
is declared in libxl.h, which is not part of the source, as a signed 64-bit
integer; this is the value that an unsigned 64-bit argument takes there. -/
def int64_of_u64 (x : Nat) : Int :=
  if x % 18446744073709551616 < 9223372036854775808 then ((x % 18446744073709551616 : Nat) : Int)
  else ((x % 18446744073709551616 : Nat) : Int) - 18446744073709551616

/-- The calls of `libxl_get_free_memory` among the steps. -/
def Ev.is_free_query : Ev → Bool
  | .get_free_memory _ _ => true
  | _ => false

/-- The calls of `libxl_set_memory_target` among the steps. -/
def Ev.is_shrink : Ev → Bool
  | .set_memory_target _ _ _ => true
  | _ => false

/-- One lock operation of a session, with what the system answers to it. -/
inductive LockOp where
  | acquire (env : LockEnv)
  | release (interrupted : Nat) (unlock_rc : Int)
deriving DecidableEq, Repr

/-- The value of the global `fd_lock` after the calls of `acquire_lock` and
`release_lock` listed, made in order from the given value. -/
def lock_session : Int → List LockOp → Int
  | fd_lock, [] => fd_lock
  | fd_lock, .acquire env :: ops => lock_session (acquire_lock fd_lock env).fd_lock ops
  | fd_lock, .release i rc :: ops => lock_session (release_lock fd_lock i rc).fd_lock ops

/-- Holding the lock as the specification words it, after the calls listed: an
earlier `acquire_lock` succeeded (returned 0) and no `release_lock` has run
since. -/
def lock_held : Int → Bool → List LockOp → Bool
  | _, held, [] => held
  | fd_lock, held, .acquire env :: ops =>
    lock_held (acquire_lock fd_lock env).fd_lock
      (held || decide ((acquire_lock fd_lock env).rc = 0)) ops
  | fd_lock, _, .release i rc :: ops =>
    lock_held (release_lock fd_lock i rc).fd_lock false ops

/-- The lock file being open as `fd_lock` records it, after the calls listed:
an earlier `acquire_lock` opened it, whether or not it went on to obtain the
lock, and no `release_lock` has run since. -/
def lock_opened : Bool → List LockOp → Bool
  | opened, [] => opened
  | opened, .acquire env :: ops => lock_opened (opened || decide (env.open_fd ≥ 0)) ops
  | _, .release _ _ :: ops => lock_opened false ops

/-- What keeps the assertion at `start:` and the decision switches from
aborting: a pass that ends `create_domain` does not end it in `abort()`, and a
jump back to `start:` is made with `domid` invalid and `restoring` clear. -/
def PassResult.safe (r : PassResult) : Prop :=
  (∀ run, r = .done run → run.ending ≠ End.abort)
  ∧ (∀ tr st1, r = .restart tr st1 → st1.domid = INVALID_DOMID ∧ st1.restoring = false)

/-- The bytes that a step puts on the wire: the data of a write that
succeeded. -/
def Ev.written : Ev → List Byte
  | .write_exactly _ data 0 => data
  | _ => []

/-- The bytes that a run puts on the wire, in order. -/
def written : List Ev → List Byte
  | [] => []
  | e :: es => e.written ++ written es

/-- The state in the wait loop of `xl create` monitoring the domain `domid`
named `vm`, in a process that has daemonized: no soft reset is pending and
nothing is left to restore. -/
def CreateState.nominal (domid : Nat) : CreateState :=
  { domid := domid
    domid_soft_reset := INVALID_DOMID
    restoring := false
    paused := false
    console_autoconnect := false
    need_daemon := false
    d_config := libxl_domain_config.nominal "vm"
    common_domname := none
    migration_domname := none
    ret := 0
    fd_lock := -1
    mandatory_flags := 0
    unread := [] }

/-- Answers to the handling of a shutdown in which nothing is stored for the
domain, the platform gives back the nominal configuration, and every call
succeeds. -/
def ShutdownEnv.nominal : ShutdownEnv :=
  { death := { core_dump_rc := 0
               reload := { userdata_ret := 0
                           t_len := 0
                           updated := libxl_domain_config.nominal "vm"
                           retrieve_rc := 0
                           retrieved := libxl_domain_config.nominal "vm" } }
    preserve := { time_ok := true, preserve_rc := 0 }
    event_check_ret := -1 }

/-- The values of the global `common_domname` and of the name stored through
`migration_domname_r` at the end of a pass. -/
def PassResult.names : PassResult → Option String × Option String
  | .done r => (r.common_domname, r.migration_domname)
  | .restart _ st => (st.common_domname, st.migration_domname)

/-! ## Properties of the save-file codec -/

theorem u32_of_bytes_to_bytes (P : Platform) (x : Nat) (l : List Byte) :
    u32_of_bytes P (u32_to_bytes P x ++ l) = x % 4294967296 := by
  unfold u32_of_bytes u32_to_bytes u32_byte
  cases P.big_endian <;> simp [List.getD] <;> omega

theorem u32_to_bytes_length (P : Platform) (x : Nat) : (u32_to_bytes P x).length = 4 := by
  unfold u32_to_bytes
  cases P.big_endian <;> simp

theorem u32_of_bytes_lt (P : Platform) (b : List Byte) : u32_of_bytes P b < 4294967296 := by
  unfold u32_of_bytes
  have h0 := (b.getD 0 0).isLt
  have h1 := (b.getD 1 0).isLt
  have h2 := (b.getD 2 0).isLt
  have h3 := (b.getD 3 0).isLt
  cases P.big_endian <;> simp <;> omega

theorem savefileheader_magic_length : savefileheader_magic.length = 32 := by decide

theorem save_file_header.bytes_length (P : Platform) (h : save_file_header)
    (hm : h.magic.length = 32) : (h.bytes P).length = 48 := by
  simp [save_file_header.bytes, u32_to_bytes_length, hm]

theorem save_file_header.of_bytes_bytes (P : Platform) (h : save_file_header)
    (hm : h.magic.length = 32) (l : List Byte) :
    save_file_header.of_bytes P (h.bytes P ++ l) =
      { magic := h.magic
        byteorder := h.byteorder % 4294967296
        mandatory_flags := h.mandatory_flags % 4294967296
        optional_flags := h.optional_flags % 4294967296
        optional_data_len := h.optional_data_len % 4294967296 } := by
  have e32 : ∀ t : List Byte, List.drop 32 (h.magic ++ t) = t := fun t =>
    List.drop_left' hm
  have e4 : ∀ (x : Nat) (t : List Byte), List.drop 4 (u32_to_bytes P x ++ t) = t := fun x t =>
    List.drop_left' (u32_to_bytes_length P x)
  have d36 : ∀ t : List Byte, List.drop 36 t = List.drop 4 (List.drop 32 t) := fun t => by
    rw [List.drop_drop]
  have d40 : ∀ t : List Byte, List.drop 40 t = List.drop 4 (List.drop 4 (List.drop 32 t)) :=
    fun t => by rw [List.drop_drop, List.drop_drop]
  have d44 : ∀ t : List Byte,
      List.drop 44 t = List.drop 4 (List.drop 4 (List.drop 4 (List.drop 32 t))) :=
    fun t => by rw [List.drop_drop, List.drop_drop, List.drop_drop]
  unfold save_file_header.of_bytes save_file_header.bytes
  rw [d36, d40, d44]
  simp only [List.append_assoc, e32, e4, u32_of_bytes_to_bytes]
  congr 1
  exact List.take_left' hm

/-- Closed form of the encoder for a configuration whose length fits an `int`. -/
theorem save_domain_core_writeconfig_eq (P : Platform) (c : List Byte)
    (hn : c.length < 2147483648) :
    save_domain_core_writeconfig P c c.length =
      ({ magic := savefileheader_magic
         byteorder := SAVEFILE_BYTEORDER_VALUE
         mandatory_flags := if c.length = 0 then 2 else 3
         optional_flags := 0
         optional_data_len := 4 + c.length }, u32_to_bytes P c.length ++ c) := by
  unfold save_domain_core_writeconfig
  have hu : u32_of_int (c.length : Int) = c.length := by
    unfold u32_of_int; omega
  by_cases hc : c.length = 0
  · have hc' : c = [] := List.length_eq_zero.mp hc
    subst hc'
    simp [ADD_OPTDATA, u32_of_int, u32_to_bytes_length, XL_MANDATORY_FLAG_STREAMv2]
  · have hci : (c.length : Int) ≠ 0 := by omega
    simp [ADD_OPTDATA, hu, hc, hci, u32_to_bytes_length, XL_MANDATORY_FLAG_STREAMv2,
      XL_MANDATORY_FLAG_JSON]
    unfold u32_of_int; omega

/-- The validation of a header laid out in memory from its fields. -/
theorem create_domain_read_header_bytes (P : Platform) (h : save_file_header)
    (rest : List Byte) (hm : h.magic.length = 32)
    (hb : h.byteorder < 4294967296) (hf : h.mandatory_flags < 4294967296)
    (ho : h.optional_flags < 4294967296) (hl : h.optional_data_len < 4294967296) :
    create_domain_read_header P (h.bytes P ++ rest) =
      (if h.magic = savefileheader_magic ∧ h.byteorder = SAVEFILE_BYTEORDER_VALUE
          ∧ h.mandatory_flags &&& not32 XL_MANDATORY_FLAG_ALL = 0
        then Outcome.cont h else Outcome.ret ERROR_INVAL, rest) := by
  have hlen := save_file_header.bytes_length P h hm
  have hrd : libxl_read_exactly (h.bytes P ++ rest) 48 = some (h.bytes P, rest) := by
    unfold libxl_read_exactly
    rw [if_pos (by simp [hlen])]
    rw [← hlen, List.take_left, List.drop_left]
  have hof : save_file_header.of_bytes P (h.bytes P) = h := by
    have := save_file_header.of_bytes_bytes P h hm []
    rw [List.append_nil] at this
    rw [this, Nat.mod_eq_of_lt hb, Nat.mod_eq_of_lt hf, Nat.mod_eq_of_lt ho,
      Nat.mod_eq_of_lt hl]
  unfold create_domain_read_header
  rw [hrd]
  simp only [hof, ne_eq]
  by_cases h1 : h.magic = savefileheader_magic
  · by_cases h2 : h.byteorder = SAVEFILE_BYTEORDER_VALUE
    · by_cases h3 : h.mandatory_flags &&& not32 XL_MANDATORY_FLAG_ALL = 0
      · simp [h1, h2, h3]
      · simp [h1, h2, h3]
    · simp [h1, h2]
  · simp [h1]

/-- C1: round trip of the save-file codec. For every configuration `c` of
length `n` with `1 <= n` and `n + 4 < 2^31`, on either byte order and either
word size, the bytes written by `save_domain_core_writeconfig c n` (followed by
any state stream `tail`) are decoded by the restoring block of `create_domain`
without error, with magic `savefileheader_magic`, byte order `0x01020304`,
mandatory flags `JSON|STREAMv2`, optional flags 0, optional data length
`n + 4`, `config_len = n` and `config_data = c`; the descriptor is left at the
start of `tail`, and without an overriding configuration file the saved
configuration is the one used, as JSON. -/
theorem save_restore_roundtrip (P : Platform) (c tail : List Byte)
    (h1 : 1 ≤ c.length) (h2 : c.length + 4 < 2147483648) :
    create_domain_restoring P (save_domain_core_writeconfig_bytes P c c.length ++ tail) =
      (Outcome.cont
        { hdr := { magic := savefileheader_magic
                   byteorder := 0x01020304
                   mandatory_flags := XL_MANDATORY_FLAG_JSON ||| XL_MANDATORY_FLAG_STREAMv2
                   optional_flags := 0
                   optional_data_len := c.length + 4 }
          config_len := c.length
          config_data := some c }, tail)
    ∧ create_domain_saved_config
        { hdr := { magic := savefileheader_magic
                   byteorder := 0x01020304
                   mandatory_flags := XL_MANDATORY_FLAG_JSON ||| XL_MANDATORY_FLAG_STREAMv2
                   optional_flags := 0
                   optional_data_len := c.length + 4 }
          config_len := c.length
          config_data := some c } = Outcome.cont (c, (c.length : Int), true) := by
  have hn : c.length < 2147483648 := by omega
  have hne : c.length ≠ 0 := by omega
  have henc := save_domain_core_writeconfig_eq P c hn
  constructor
  · unfold save_domain_core_writeconfig_bytes
    simp only [henc, if_neg hne]
    have htake : List.take (4 + c.length) (u32_to_bytes P c.length ++ c)
        = u32_to_bytes P c.length ++ c := by
      apply List.take_of_length_le
      simp [u32_to_bytes_length]
    rw [htake, List.append_assoc]
    unfold create_domain_restoring
    rw [create_domain_read_header_bytes P _ _ savefileheader_magic_length
      (by simp [SAVEFILE_BYTEORDER_VALUE]) (by simp) (by simp) (by simp; omega)]
    have hflags : (3 : Nat) &&& not32 XL_MANDATORY_FLAG_ALL = 0 := by decide
    simp only [hflags, and_self, if_true]
    unfold create_domain_read_optdata
    have hL : ¬ (4 + c.length = 0) := by omega
    simp only [hL, if_false]
    have hrd : libxl_read_exactly ((u32_to_bytes P c.length ++ c) ++ tail) (4 + c.length)
        = some (u32_to_bytes P c.length ++ c, tail) := by
      have hl : (u32_to_bytes P c.length ++ c).length = 4 + c.length := by
        simp [u32_to_bytes_length]
      rw [← hl]
      unfold libxl_read_exactly
      rw [if_pos (by simp), List.take_left, List.drop_left]
    rw [hrd]
    have hcl : int_of_u32 (u32_of_bytes P (u32_to_bytes P c.length ++ c)) = (c.length : Int) := by
      rw [u32_of_bytes_to_bytes]
      unfold int_of_u32
      have : c.length % 4294967296 = c.length := Nat.mod_eq_of_lt (by omega)
      rw [Nat.mod_mod, this, if_pos (by omega)]
    have hs1 : optdata_short P (OPTDATA_LEFT P (4 + c.length) 0) 4 = false := by
      unfold optdata_short OPTDATA_LEFT
      cases P.lp64 <;> simp
      omega
    have hs2 : optdata_short P (OPTDATA_LEFT P (4 + c.length) 4) (c.length : Int) = false := by
      unfold optdata_short OPTDATA_LEFT
      cases P.lp64 <;> simp
    have hsz : size_t_of_int P (c.length : Int) = c.length := by
      unfold size_t_of_int
      cases P.lp64 <;> simp <;> omega
    have hdrop : List.drop 4 (u32_to_bytes P c.length ++ c) = c :=
      List.drop_left' (u32_to_bytes_length P _)
    simp [hcl, hs1, hs2, hsz, hdrop, XL_MANDATORY_FLAG_JSON, XL_MANDATORY_FLAG_STREAMv2,
      SAVEFILE_BYTEORDER_VALUE]
    omega
  · simp [create_domain_saved_config, XL_MANDATORY_FLAG_JSON, XL_MANDATORY_FLAG_STREAMv2]

theorem save_restore_roundtrip_witness :
    (1 ≤ ([123, 125, 0] : List Byte).length ∧ ([123, 125, 0] : List Byte).length + 4 < 2147483648)
    ∧ create_domain_restoring ⟨false, true⟩
        (save_domain_core_writeconfig_bytes ⟨false, true⟩ [123, 125, 0] 3 ++ [7, 7]) =
      (Outcome.cont
        { hdr := { magic := savefileheader_magic
                   byteorder := 0x01020304
                   mandatory_flags := 3
                   optional_flags := 0
                   optional_data_len := 7 }
          config_len := 3
          config_data := some [123, 125, 0] }, [7, 7]) :=
  ⟨⟨by decide, by decide⟩,
    (save_restore_roundtrip ⟨false, true⟩ [123, 125, 0] [7, 7] (by decide) (by decide)).1⟩

theorem badflags_eq_zero_iff (x : Nat) (hx : x < 4294967296) :
    x &&& not32 XL_MANDATORY_FLAG_ALL = 0 ↔ ∀ i, 2 ≤ i → x.testBit i = false := by
  have hC : not32 XL_MANDATORY_FLAG_ALL = 4294967292 := by decide
  rw [hC]
  constructor
  · intro h i hi
    by_cases h32 : i < 32
    · have hb : (x &&& 4294967292).testBit i = false := by rw [h]; simp
      rw [Nat.testBit_and] at hb
      have hc : (4294967292 : Nat).testBit i = true := by
        interval_cases i <;> decide
      rw [hc] at hb
      simpa using hb
    · apply Nat.testBit_lt_two_pow
      calc x < 2 ^ 32 := by simpa using hx
        _ ≤ 2 ^ i := Nat.pow_le_pow_right (by decide) (by omega)
  · intro h
    apply Nat.eq_of_testBit_eq
    intro i
    rw [Nat.testBit_and]
    by_cases hi : 2 ≤ i
    · simp [h i hi]
    · have hc : (4294967292 : Nat).testBit i = false := by
        interval_cases i <;> decide
      simp [hc]

theorem u32_of_bytes_drop_take (P : Platform) (s : List Byte) (k m : Nat) (hk : k + 4 ≤ m) :
    u32_of_bytes P (List.drop k (List.take m s)) = u32_of_bytes P (List.drop k s) := by
  unfold u32_of_bytes
  have hg : ∀ j, j < 4 → (List.drop k (List.take m s)).getD j 0
      = (List.drop k s).getD j 0 := by
    intro j hj
    simp only [List.getD_eq_getElem?_getD, List.getElem?_drop]
    rw [List.getElem?_take_of_lt (by omega)]
  rw [hg 0 (by omega), hg 1 (by omega), hg 2 (by omega), hg 3 (by omega)]

/-- Closed form of the header validation on a stream holding at least 48 bytes. -/
theorem create_domain_read_header_eq (P : Platform) (stream : List Byte)
    (hlen : 48 ≤ stream.length) :
    create_domain_read_header P stream =
      (if stream.take 32 = savefileheader_magic
          ∧ u32_of_bytes P (stream.drop 32) = 0x01020304
          ∧ u32_of_bytes P (stream.drop 36) &&& not32 XL_MANDATORY_FLAG_ALL = 0
        then Outcome.cont (save_file_header.of_bytes P (stream.take 48))
        else Outcome.ret ERROR_INVAL, stream.drop 48) := by
  have e32 : List.take 32 (List.take 48 stream) = List.take 32 stream := by
    rw [List.take_take]; rfl
  unfold create_domain_read_header libxl_read_exactly
  rw [if_pos hlen]
  simp only [save_file_header.of_bytes, e32, u32_of_bytes_drop_take P stream 32 48 (by omega),
    u32_of_bytes_drop_take P stream 36 48 (by omega), SAVEFILE_BYTEORDER_VALUE, ne_eq]
  by_cases hm : List.take 32 stream = savefileheader_magic
  · by_cases hb : u32_of_bytes P (List.drop 32 stream) = 16909060
    · by_cases hf : u32_of_bytes P (List.drop 36 stream) &&& not32 XL_MANDATORY_FLAG_ALL = 0
      · simp [hm, hb, hf]
      · simp [hm, hb, hf]
    · simp [hm, hb]
  · simp [hm]

/-- C2: a header with the right magic and byte order whose `mandatory_flags` has
some bit set other than bit 0 (JSON) and bit 1 (STREAMv2) makes the restoring
block of `create_domain` return `ERROR_INVAL`, whatever `optional_flags` and
`optional_data_len` are, and with the descriptor left right after the 48 header
bytes: everything that follows the header (`rest`) is still unread. -/
theorem unknown_mandatory_flag_rejected (P : Platform)
    (mandatory_flags optional_flags optional_data_len : Nat) (rest : List Byte)
    (hf : mandatory_flags < 4294967296) (ho : optional_flags < 4294967296)
    (hl : optional_data_len < 4294967296)
    (hbad : ∃ i, 2 ≤ i ∧ mandatory_flags.testBit i = true) :
    create_domain_restoring P
        (save_file_header.bytes P
            { magic := savefileheader_magic
              byteorder := SAVEFILE_BYTEORDER_VALUE
              mandatory_flags := mandatory_flags
              optional_flags := optional_flags
              optional_data_len := optional_data_len } ++ rest)
      = (Outcome.ret ERROR_INVAL, rest) := by
  have hne : ¬ (mandatory_flags &&& not32 XL_MANDATORY_FLAG_ALL = 0) := by
    intro h0
    obtain ⟨i, hi, hbit⟩ := hbad
    have := (badflags_eq_zero_iff mandatory_flags hf).mp h0 i hi
    rw [this] at hbit
    exact Bool.noConfusion hbit
  unfold create_domain_restoring
  rw [create_domain_read_header_bytes P _ _ savefileheader_magic_length
    (by simp [SAVEFILE_BYTEORDER_VALUE]) hf ho hl]
  simp [hne]

theorem unknown_mandatory_flag_rejected_witness :
    ((4 : Nat) < 4294967296 ∧ (4294967295 : Nat) < 4294967296 ∧ (11 : Nat) < 4294967296
      ∧ ∃ i, 2 ≤ i ∧ (4 : Nat).testBit i = true)
    ∧ create_domain_restoring ⟨false, true⟩
        (save_file_header.bytes ⟨false, true⟩
            { magic := savefileheader_magic
              byteorder := SAVEFILE_BYTEORDER_VALUE
              mandatory_flags := 4
              optional_flags := 4294967295
              optional_data_len := 11 } ++ [7, 0, 0, 0, 1])
      = (Outcome.ret ERROR_INVAL, [7, 0, 0, 0, 1]) :=
  ⟨⟨by decide, by decide, by decide, 2, by decide, by decide⟩,
    unknown_mandatory_flag_rejected ⟨false, true⟩ 4 4294967295 11 [7, 0, 0, 0, 1]
      (by decide) (by decide) (by decide) ⟨2, by decide, by decide⟩⟩

theorem create_domain_read_header_take40 (P : Platform) (s1 s2 : List Byte)
    (h1 : 48 ≤ s1.length) (h2 : 48 ≤ s2.length) (h : s2.take 40 = s1.take 40) :
    ((create_domain_read_header P s2).1 = Outcome.ret ERROR_INVAL
      ↔ (create_domain_read_header P s1).1 = Outcome.ret ERROR_INVAL) := by
  have e32 : s2.take 32 = s1.take 32 := by
    have a1 : List.take 32 (List.take 40 s1) = List.take 32 s1 := by rw [List.take_take]; rfl
    have a2 : List.take 32 (List.take 40 s2) = List.take 32 s2 := by rw [List.take_take]; rfl
    rw [← a1, ← a2, h]
  have eu : ∀ k, k + 4 ≤ 40 → u32_of_bytes P (s2.drop k) = u32_of_bytes P (s1.drop k) := by
    intro k hk
    rw [← u32_of_bytes_drop_take P s2 k 40 hk, ← u32_of_bytes_drop_take P s1 k 40 hk, h]
  rw [create_domain_read_header_eq P s1 h1, create_domain_read_header_eq P s2 h2, e32,
    eu 32 (by omega), eu 36 (by omega)]
  split_ifs <;> simp

/-- C9: header validation in `create_domain`. On a stream holding at least 48
bytes, with `hdr` the header overlaid on the first 48 in native byte order, the
header is accepted if and only if its magic equals `savefileheader_magic`, its
byte-order field equals `0x01020304` and `mandatory_flags` has no bit set from
bit 2 upwards; in every other case the result is `ERROR_INVAL`. A sentinel that
reads `0x04030201` is rejected (no byte swapping), and replacing the four bytes
of `optional_flags` by any others never changes acceptance. -/
theorem header_validation (P : Platform) (stream : List Byte) (hlen : 48 ≤ stream.length) :
    ((create_domain_read_header P stream).1
        = Outcome.cont (save_file_header.of_bytes P (stream.take 48))
      ↔ ((save_file_header.of_bytes P (stream.take 48)).magic = savefileheader_magic
          ∧ (save_file_header.of_bytes P (stream.take 48)).byteorder = 0x01020304
          ∧ ∀ i, 2 ≤ i →
              (save_file_header.of_bytes P (stream.take 48)).mandatory_flags.testBit i = false))
    ∧ (¬ ((save_file_header.of_bytes P (stream.take 48)).magic = savefileheader_magic
          ∧ (save_file_header.of_bytes P (stream.take 48)).byteorder = 0x01020304
          ∧ ∀ i, 2 ≤ i →
              (save_file_header.of_bytes P (stream.take 48)).mandatory_flags.testBit i = false)
        → create_domain_read_header P stream = (Outcome.ret ERROR_INVAL, stream.drop 48))
    ∧ ((save_file_header.of_bytes P (stream.take 48)).byteorder = 0x04030201
        → create_domain_read_header P stream = (Outcome.ret ERROR_INVAL, stream.drop 48))
    ∧ (∀ f : List Byte, f.length = 4 →
        ((create_domain_read_header P (stream.take 40 ++ f ++ stream.drop 44)).1
            = Outcome.ret ERROR_INVAL
          ↔ (create_domain_read_header P stream).1 = Outcome.ret ERROR_INVAL)) := by
  have e32 : List.take 32 (List.take 48 stream) = List.take 32 stream := by
    rw [List.take_take]; rfl
  have hclosed := create_domain_read_header_eq P stream hlen
  have hbits := badflags_eq_zero_iff (u32_of_bytes P (stream.drop 36)) (u32_of_bytes_lt P _)
  simp only [save_file_header.of_bytes, e32, u32_of_bytes_drop_take P stream 32 48 (by omega),
    u32_of_bytes_drop_take P stream 36 48 (by omega)] at hclosed ⊢
  rw [← hbits]
  refine ⟨?_, ?_, ?_, ?_⟩
  · rw [hclosed]
    constructor
    · intro h
      by_contra hn
      rw [if_neg hn] at h
      exact Outcome.noConfusion h
    · intro h
      rw [if_pos h]
  · intro hn
    rw [hclosed, if_neg hn]
  · intro hsw
    rw [hclosed, if_neg]
    rintro ⟨-, hb, -⟩
    rw [hsw] at hb
    exact absurd hb (by decide)
  · intro f hf
    apply create_domain_read_header_take40 P stream _ hlen
    · simp only [List.length_append, List.length_take, List.length_drop, hf]
      omega
    · rw [List.append_assoc, List.take_append_of_le_length (by simp; omega), List.take_take]
      simp

theorem header_validation_witness :
    48 ≤ (save_domain_core_writeconfig_bytes ⟨false, true⟩ [123, 125, 0] 3).length
    ∧ ((create_domain_read_header ⟨false, true⟩
          (save_domain_core_writeconfig_bytes ⟨false, true⟩ [123, 125, 0] 3)).1
        = Outcome.cont (save_file_header.of_bytes ⟨false, true⟩
            ((save_domain_core_writeconfig_bytes ⟨false, true⟩ [123, 125, 0] 3).take 48))) :=
  ⟨by decide,
    (header_validation ⟨false, true⟩
      (save_domain_core_writeconfig_bytes ⟨false, true⟩ [123, 125, 0] 3) (by decide)).1.mpr
      ⟨by decide, by decide, by
        intro i hi
        have h := (badflags_eq_zero_iff 3 (by decide)).mp (by decide) i hi
        exact h⟩⟩

/-- Where the truncation check of `WITH_OPTDATA` works: on ILP32 for every
stored length, on LP64 for stored lengths below `2^31`. A valid header
announcing `L > 0` bytes of optional data, followed by those `L` bytes, is
rejected with `ERROR_INVAL` when `L < 4` or the stored `config_len` exceeds
`L - 4`; the descriptor is left after the optional data. -/
theorem truncated_optdata_rejected (P : Platform) (hdr : save_file_header)
    (optdata rest : List Byte)
    (hm : hdr.magic = savefileheader_magic) (hb : hdr.byteorder = SAVEFILE_BYTEORDER_VALUE)
    (hf : hdr.mandatory_flags &&& not32 XL_MANDATORY_FLAG_ALL = 0)
    (hfl : hdr.mandatory_flags < 4294967296) (ho : hdr.optional_flags < 4294967296)
    (hL : 0 < hdr.optional_data_len) (hL2 : hdr.optional_data_len < 4294967296)
    (hlen : optdata.length = hdr.optional_data_len)
    (htr : hdr.optional_data_len < 4 ∨ hdr.optional_data_len - 4 < u32_of_bytes P optdata)
    (hplat : P.lp64 = false ∨ u32_of_bytes P optdata < 2147483648) :
    create_domain_restoring P (hdr.bytes P ++ (optdata ++ rest))
      = (Outcome.ret ERROR_INVAL, rest) := by
  unfold create_domain_restoring
  rw [create_domain_read_header_bytes P hdr _ (by rw [hm]; exact savefileheader_magic_length)
    (by rw [hb]; decide) hfl ho hL2]
  simp only [hm, hb, hf, and_self, if_true]
  unfold create_domain_read_optdata
  rw [if_neg (by omega)]
  have hrd : libxl_read_exactly (optdata ++ rest) hdr.optional_data_len
      = some (optdata, rest) := by
    rw [← hlen]
    unfold libxl_read_exactly
    rw [if_pos (by simp), List.take_left, List.drop_left]
  rw [hrd]
  have hlt := u32_of_bytes_lt P optdata
  by_cases h4 : hdr.optional_data_len < 4
  · have hs1 : optdata_short P (OPTDATA_LEFT P hdr.optional_data_len 0) 4 = true := by
      unfold optdata_short OPTDATA_LEFT
      cases P.lp64 <;> simp <;> omega
    simp [hs1]
  · have hs1 : optdata_short P (OPTDATA_LEFT P hdr.optional_data_len 0) 4 = false := by
      unfold optdata_short OPTDATA_LEFT
      cases P.lp64 <;> simp <;> omega
    have hn : hdr.optional_data_len - 4 < u32_of_bytes P optdata := by
      rcases htr with h | h
      · exact absurd h h4
      · exact h
    have hs2 : optdata_short P (OPTDATA_LEFT P hdr.optional_data_len 4)
        (int_of_u32 (u32_of_bytes P optdata)) = true := by
      unfold optdata_short OPTDATA_LEFT int_of_u32
      rw [Nat.mod_eq_of_lt hlt]
      rcases hplat with hp | hp
      · rw [hp]
        simp only [Bool.false_eq_true, if_false, decide_eq_true_eq]
        split_ifs <;> omega
      · rw [if_pos hp]
        cases P.lp64 <;> simp <;> omega
    simp [hs1, hs2]

/-- C10, the code at the failing input: on a little-endian LP64 build, a valid
header with `optional_data_len = 4` whose optional data stores the length
`0x80000000` is not rejected as truncated. `config_len` becomes `-2^31`, the
signed comparison `OPTDATA_LEFT < config_len` is false, and the code goes on to
allocate and copy `2^64 - 2^31` bytes. On ILP32 the same input is rejected. -/
theorem truncation_check_signed_length :
    create_domain_restoring ⟨false, true⟩
        (save_file_header.bytes ⟨false, true⟩
            { magic := savefileheader_magic
              byteorder := SAVEFILE_BYTEORDER_VALUE
              mandatory_flags := 3
              optional_flags := 0
              optional_data_len := 4 } ++ [0, 0, 0, 128])
      = (Outcome.oversize 18446744071562067968, [])
    ∧ create_domain_restoring ⟨false, false⟩
        (save_file_header.bytes ⟨false, false⟩
            { magic := savefileheader_magic
              byteorder := SAVEFILE_BYTEORDER_VALUE
              mandatory_flags := 3
              optional_flags := 0
              optional_data_len := 4 } ++ [0, 0, 0, 128])
      = (Outcome.ret ERROR_INVAL, []) := by
  constructor <;> decide

/-! ## Properties of the sender -/

/-- The two ways `migrate_read_fixedmessage` ends: the expected bytes were at
the head of the stream and the result is 0, or the result is 1 and what was
read (if anything) is not the expected message. -/
theorem migrate_read_fixedmessage_cases (recv msg : List Byte) (msgsz : Nat) (what : What) :
    (∃ rest, recv = msg.take msgsz ++ rest
        ∧ migrate_read_fixedmessage recv msg msgsz what
          = (0, rest, Ev.read_exactly what msgsz (some (msg.take msgsz))))
    ∨ (∃ rest got, got ≠ some (msg.take msgsz)
        ∧ migrate_read_fixedmessage recv msg msgsz what
          = (1, rest, Ev.read_exactly what msgsz got)) := by
  unfold migrate_read_fixedmessage libxl_read_exactly
  by_cases hlen : msgsz ≤ recv.length
  · rw [if_pos hlen]
    by_cases heq : List.take msgsz recv = List.take msgsz msg
    · left
      refine ⟨List.drop msgsz recv, ?_, ?_⟩
      · rw [← heq, List.take_append_drop]
      · simp [heq]
    · right
      refine ⟨List.drop msgsz recv, some (List.take msgsz recv), ?_, ?_⟩
      · simpa using heq
      · simp [heq]
  · rw [if_neg hlen]
    right
    exact ⟨[], none, by simp, rfl⟩

/-- The runs of `migrate_domain_report`, from the read of the report on. -/
theorem migrate_domain_report_cases (domid : Nat) (env : MigrateEnv) (recv : List Byte) :
    (migrate_domain_report domid env recv
        = ([Ev.read_exactly .report_message migrate_report.length (some migrate_report),
            Ev.read_exactly .status 1 (some [0]), Ev.domain_destroy domid], EXIT_SUCCESS))
    ∨ (∃ s, s ≠ [0] ∧ migrate_domain_report domid env recv
        = ([Ev.read_exactly .report_message migrate_report.length (some migrate_report),
            Ev.read_exactly .status 1 (some s),
            Ev.read_exactly .resume_permission migrate_permission_to_go.length
              (some migrate_permission_to_go)]
            ++ (match env.common_domname with
                | some name =>
                  [Ev.domain_rename domid (name ++ "--migratedaway") name env.rename_back_rc]
                | none => [])
            ++ [Ev.domain_resume domid], EXIT_FAILURE))
    ∨ (∃ got, got ≠ some migrate_report ∧ migrate_domain_report domid env recv
        = ([Ev.read_exactly .report_message migrate_report.length got,
            Ev.undefined_state_warning, Ev.close_send_fd, Ev.migration_child_report],
           EXIT_FAILURE))
    ∨ (migrate_domain_report domid env recv
        = ([Ev.read_exactly .report_message migrate_report.length (some migrate_report),
            Ev.read_exactly .status 1 none,
            Ev.undefined_state_warning, Ev.close_send_fd, Ev.migration_child_report],
           EXIT_FAILURE))
    ∨ (∃ s got, s ≠ [0] ∧ got ≠ some migrate_permission_to_go
        ∧ migrate_domain_report domid env recv
        = ([Ev.read_exactly .report_message migrate_report.length (some migrate_report),
            Ev.read_exactly .status 1 (some s),
            Ev.read_exactly .resume_permission migrate_permission_to_go.length got,
            Ev.undefined_state_warning, Ev.close_send_fd, Ev.migration_child_report],
           EXIT_FAILURE)) := by
  unfold migrate_domain_report
  rcases migrate_read_fixedmessage_cases recv migrate_report migrate_report.length
      .report_message with ⟨rest, -, hr⟩ | ⟨rest, got, hne, hr⟩
  · rw [List.take_length] at hr
    simp only [hr]
    cases hst : libxl_read_exactly rest 1 with
    | none =>
      right; right; right; left
      simp [after, failed_badly]
    | some p =>
      obtain ⟨rc_buf, recv2⟩ := p
      by_cases hz : rc_buf = [0]
      · left
        simp [hz]
      · rcases migrate_read_fixedmessage_cases recv2 migrate_permission_to_go
          migrate_permission_to_go.length .resume_permission
          with ⟨rest2, -, hr2⟩ | ⟨rest2, got2, hne2, hr2⟩
        · rw [List.take_length] at hr2
          right; left
          refine ⟨rc_buf, hz, ?_⟩
          simp [hz, hr2]
        · rw [List.take_length] at hne2
          right; right; right; right
          refine ⟨rc_buf, got2, hz, hne2, ?_⟩
          simp [hz, hr2, after, failed_badly]
  · rw [List.take_length] at hne
    right; right; left
    refine ⟨got, hne, ?_⟩
    simp [hr, after, failed_badly]

/-- The runs of `migrate_domain_suspend`: the failures before the permission to
go, and the two continuations of its write. -/
theorem migrate_domain_suspend_cases (domid : Nat) (env : MigrateEnv) (recv : List Byte) :
    (env.suspend_rc ≠ 0 ∧ migrate_domain_suspend domid env recv
        = ([Ev.domain_suspend domid env.suspend_rc, Ev.close_send_fd,
            Ev.migration_child_report], EXIT_FAILURE))
    ∨ (env.suspend_rc ≠ 0 ∧ migrate_domain_suspend domid env recv
        = ([Ev.domain_suspend domid env.suspend_rc, Ev.close_send_fd,
            Ev.migration_child_report, Ev.domain_resume domid], EXIT_FAILURE))
    ∨ (∃ got, got ≠ some migrate_receiver_ready ∧ migrate_domain_suspend domid env recv
        = ([Ev.domain_suspend domid 0,
            Ev.read_exactly .ready_message migrate_receiver_ready.length got,
            Ev.close_send_fd, Ev.migration_child_report, Ev.domain_resume domid],
           EXIT_FAILURE))
    ∨ (∃ name, env.common_domname = some name ∧ env.rename_away_rc ≠ 0
        ∧ migrate_domain_suspend domid env recv
        = ([Ev.domain_suspend domid 0,
            Ev.read_exactly .ready_message migrate_receiver_ready.length
              (some migrate_receiver_ready),
            Ev.domain_rename domid name (name ++ "--migratedaway") env.rename_away_rc,
            Ev.close_send_fd, Ev.migration_child_report, Ev.domain_resume domid],
           EXIT_FAILURE))
    ∨ (∃ mid rest, recv = migrate_receiver_ready ++ rest
        ∧ ((env.common_domname = none ∧ mid = [])
            ∨ ∃ name, env.common_domname = some name
                ∧ mid = [Ev.domain_rename domid name (name ++ "--migratedaway") 0])
        ∧ ((env.write_go_rc ≠ 0 ∧ migrate_domain_suspend domid env recv
              = ([Ev.domain_suspend domid 0,
                  Ev.read_exactly .ready_message migrate_receiver_ready.length
                    (some migrate_receiver_ready)] ++ mid
                  ++ [Ev.write_exactly .GO_message migrate_permission_to_go env.write_go_rc,
                      Ev.undefined_state_warning, Ev.close_send_fd,
                      Ev.migration_child_report], EXIT_FAILURE))
          ∨ (migrate_domain_suspend domid env recv
              = ([Ev.domain_suspend domid 0,
                  Ev.read_exactly .ready_message migrate_receiver_ready.length
                    (some migrate_receiver_ready)] ++ mid
                  ++ [Ev.write_exactly .GO_message migrate_permission_to_go 0]
                  ++ (migrate_domain_report domid env rest).1,
                 (migrate_domain_report domid env rest).2)))) := by
  unfold migrate_domain_suspend
  by_cases hs : env.suspend_rc = 0
  · rcases migrate_read_fixedmessage_cases recv migrate_receiver_ready
        migrate_receiver_ready.length .ready_message with ⟨rest, hrecv, hr⟩ | ⟨rest, got, hne, hr⟩
    · rw [List.take_length] at hr hrecv
      cases hn : env.common_domname with
      | none =>
        right; right; right; right
        refine ⟨[], rest, hrecv, Or.inl ⟨rfl, rfl⟩, ?_⟩
        by_cases hg : env.write_go_rc = 0
        · right
          simp [hs, hr, hn, hg, after]
        · left
          simp [hs, hr, hn, hg, after, failed_badly]
      | some name =>
        by_cases hrn : env.rename_away_rc = 0
        · right; right; right; right
          refine ⟨[Ev.domain_rename domid name (name ++ "--migratedaway") 0], rest, hrecv,
            Or.inr ⟨name, rfl, rfl⟩, ?_⟩
          by_cases hg : env.write_go_rc = 0
          · right
            simp [hs, hr, hn, hg, hrn, after]
          · left
            simp [hs, hr, hn, hg, hrn, after, failed_badly]
        · right; right; right; left
          refine ⟨name, rfl, hrn, ?_⟩
          simp [hs, hr, hn, hrn, after, failed_resume]
    · rw [List.take_length] at hne
      right; right; left
      refine ⟨got, hne, ?_⟩
      simp [hs, hr, after, failed_resume]
  · by_cases ht : env.suspend_rc = ERROR_GUEST_TIMEDOUT
    · left
      refine ⟨hs, ?_⟩
      rw [if_pos hs, if_pos ht]
      rfl
    · right; left
      refine ⟨hs, ?_⟩
      rw [if_pos hs, if_neg ht]
      rfl

/-- The runs of `migrate_domain`: the exits before the suspend, and the
continuation into `migrate_domain_suspend` once the banner was read and the
header and configuration were written. -/
theorem migrate_domain_cases (P : Platform) (domid : Nat) (env : MigrateEnv) :
    (migrate_domain P domid env = ([], EXIT_FAILURE))
    ∨ (∃ got, got ≠ some (migrate_receiver_banner.take (migrate_receiver_banner.length - 1))
        ∧ migrate_domain P domid env
          = ([Ev.read_exactly .banner (migrate_receiver_banner.length - 1) got,
              Ev.close_send_fd, Ev.migration_child_report], EXIT_FAILURE))
    ∨ (∃ hdr, env.write_header_rc ≠ 0 ∧ migrate_domain P domid env
          = ([Ev.read_exactly .banner (migrate_receiver_banner.length - 1)
                (some (migrate_receiver_banner.take (migrate_receiver_banner.length - 1))),
              Ev.write_exactly .header hdr env.write_header_rc], EXIT_FAILURE))
    ∨ (∃ hdr opt, env.write_optdata_rc ≠ 0 ∧ migrate_domain P domid env
          = ([Ev.read_exactly .banner (migrate_receiver_banner.length - 1)
                (some (migrate_receiver_banner.take (migrate_receiver_banner.length - 1))),
              Ev.write_exactly .header hdr 0,
              Ev.write_exactly .header opt env.write_optdata_rc], EXIT_FAILURE))
    ∨ (∃ cfg hdr opt rest, env.config_c = some cfg
        ∧ hdr ++ opt
          = save_domain_core_writeconfig_bytes P (cfg ++ [0]) (int_of_u32 (strlen cfg + 1))
        ∧ env.recv = migrate_receiver_banner.take (migrate_receiver_banner.length - 1) ++ rest
        ∧ migrate_domain P domid env
          = ([Ev.read_exactly .banner (migrate_receiver_banner.length - 1)
                (some (migrate_receiver_banner.take (migrate_receiver_banner.length - 1))),
              Ev.write_exactly .header hdr 0,
              Ev.write_exactly .header opt 0] ++ (migrate_domain_suspend domid env rest).1,
             (migrate_domain_suspend domid env rest).2)) := by
  unfold migrate_domain save_domain_core_begin
  cases hc : env.config_c with
  | none => left; rfl
  | some cfg =>
    simp only [Option.map_some']
    by_cases h0 : int_of_u32 (strlen cfg + 1) = 0
    · left; simp [h0]
    · rw [if_neg h0]
      unfold migrate_do_preamble
      by_cases hfd : env.send_fd < 0 ∨ env.recv_fd < 0
      · left; simp [hfd]
      · rcases migrate_read_fixedmessage_cases env.recv migrate_receiver_banner
            (migrate_receiver_banner.length - 1) .banner
            with ⟨rest, hrecv, hr⟩ | ⟨rest, got, hne, hr⟩
        · by_cases hw1 : env.write_header_rc = 0
          · by_cases hw2 : env.write_optdata_rc = 0
            · right; right; right; right
              refine ⟨cfg, (save_domain_core_writeconfig P (cfg ++ [0])
                  (int_of_u32 (strlen cfg + 1))).1.bytes P,
                (save_domain_core_writeconfig P (cfg ++ [0]) (int_of_u32 (strlen cfg + 1))).2.take
                  (save_domain_core_writeconfig P (cfg ++ [0])
                    (int_of_u32 (strlen cfg + 1))).1.optional_data_len, rest, rfl, rfl,
                hrecv, ?_⟩
              simp [if_neg hfd, hr, hw1, hw2, after]
            · right; right; right; left
              refine ⟨(save_domain_core_writeconfig P (cfg ++ [0])
                  (int_of_u32 (strlen cfg + 1))).1.bytes P,
                (save_domain_core_writeconfig P (cfg ++ [0]) (int_of_u32 (strlen cfg + 1))).2.take
                  (save_domain_core_writeconfig P (cfg ++ [0])
                    (int_of_u32 (strlen cfg + 1))).1.optional_data_len, hw2, ?_⟩
              simp [if_neg hfd, hr, hw1, hw2]
          · right; right; left
            refine ⟨(save_domain_core_writeconfig P (cfg ++ [0])
                (int_of_u32 (strlen cfg + 1))).1.bytes P, hw1, ?_⟩
            simp [if_neg hfd, hr, hw1]
        · right; left
          refine ⟨got, hne, ?_⟩
          simp [if_neg hfd, hr]

/-- C3: strict ordering on the sender. In every run of `migrate_domain` in which
"permission to go" is written to the send endpoint, the bytes written are the
literal `migrate_permission_to_go` and the write comes after, in this order,
(a) the read of the banner, matched, (b) the successful writes of the header
and of the configuration (together the bytes of
`save_domain_core_writeconfig`), (c) `libxl_domain_suspend` returning 0 and
(d) the read of the complete "ready" literal, matched; only the rename to
`--migratedaway` may stand between (d) and the write, nothing after the write
is another such write, and the receive endpoint did deliver the banner followed
by "ready". If the read of "ready" is short or returns other bytes,
"permission to go" is never written. -/
theorem permission_to_go_ordering (P : Platform) (domid : Nat) (env : MigrateEnv) :
    (∀ b rc, Ev.write_exactly .GO_message b rc ∈ (migrate_domain P domid env).1 →
      b = migrate_permission_to_go
      ∧ ∃ cfg hdr opt mid post rest,
          env.config_c = some cfg
          ∧ hdr ++ opt
            = save_domain_core_writeconfig_bytes P (cfg ++ [0]) (int_of_u32 (strlen cfg + 1))
          ∧ (migrate_domain P domid env).1
            = [Ev.read_exactly .banner (migrate_receiver_banner.length - 1)
                  (some (migrate_receiver_banner.take (migrate_receiver_banner.length - 1))),
                Ev.write_exactly .header hdr 0,
                Ev.write_exactly .header opt 0,
                Ev.domain_suspend domid 0,
                Ev.read_exactly .ready_message migrate_receiver_ready.length
                  (some migrate_receiver_ready)]
              ++ mid ++ [Ev.write_exactly .GO_message migrate_permission_to_go rc] ++ post
          ∧ (mid = [] ∨ ∃ name,
              mid = [Ev.domain_rename domid name (name ++ "--migratedaway") 0])
          ∧ (∀ b2 rc2, Ev.write_exactly .GO_message b2 rc2 ∉ post)
          ∧ env.recv = migrate_receiver_banner.take (migrate_receiver_banner.length - 1)
              ++ (migrate_receiver_ready ++ rest))
    ∧ (∀ n got, Ev.read_exactly .ready_message n got ∈ (migrate_domain P domid env).1 →
        got ≠ some migrate_receiver_ready →
        ∀ b rc, Ev.write_exactly .GO_message b rc ∉ (migrate_domain P domid env).1) := by
  have hrep : ∀ recv b rc,
      Ev.write_exactly .GO_message b rc ∉ (migrate_domain_report domid env recv).1 := by
    intro recv b rc
    rcases migrate_domain_report_cases domid env recv with h | ⟨s, -, h⟩ | ⟨got, -, h⟩ | h
      | ⟨s, got, -, -, h⟩
    · simp [h]
    · rw [h]
      cases env.common_domname <;> simp
    · simp [h]
    · simp [h]
    · simp [h]
  rcases migrate_domain_cases P domid env with h | ⟨got, -, h⟩ | ⟨hdr, -, h⟩ | ⟨hdr, opt, -, h⟩
    | ⟨cfg, hdr, opt, rest, hcfg, hbytes, hrecv, h⟩
  · simp [h]
  · simp [h]
  · simp [h]
  · simp [h]
  · rcases migrate_domain_suspend_cases domid env rest with ⟨-, hs⟩ | ⟨-, hs⟩ | ⟨got, hne, hs⟩
      | ⟨name, -, -, hs⟩ | ⟨mid, rest2, hrecv2, hmid, hgo⟩
    · simp [h, hs]
    · simp [h, hs]
    · rw [h, hs]
      constructor
      · simp
      · intro n got2 hmem hne2 b rc
        simp
    · simp [h, hs]
    · have hmidgo : ∀ b rc, Ev.write_exactly .GO_message b rc ∉ mid := by
        intro b rc
        rcases hmid with ⟨-, hm⟩ | ⟨name, -, hm⟩ <;> simp [hm]
      have hmidrd : ∀ n got, Ev.read_exactly .ready_message n got ∉ mid := by
        intro n got
        rcases hmid with ⟨-, hm⟩ | ⟨name, -, hm⟩ <;> simp [hm]
      have hmid2 : mid = [] ∨ ∃ name,
          mid = [Ev.domain_rename domid name (name ++ "--migratedaway") 0] := by
        rcases hmid with ⟨-, hm⟩ | ⟨name, -, hm⟩
        · exact Or.inl hm
        · exact Or.inr ⟨name, hm⟩
      rcases hgo with ⟨-, hs⟩ | hs
      · rw [h, hs]
        constructor
        · intro b rc hmem
          simp [hmidgo] at hmem
          obtain ⟨hb, hrc⟩ := hmem
          subst hb hrc
          refine ⟨rfl, cfg, hdr, opt, mid,
            [Ev.undefined_state_warning, Ev.close_send_fd, Ev.migration_child_report], rest2,
            hcfg, hbytes, ?_, hmid2, ?_, ?_⟩
          · simp
          · simp
          · rw [hrecv, hrecv2]
        · intro n got hmem hne b rc
          simp [hmidrd] at hmem
          exact absurd hmem.2 hne
      · rw [h, hs]
        constructor
        · intro b rc hmem
          simp [hmidgo, hrep] at hmem
          obtain ⟨hb, hrc⟩ := hmem
          subst hb hrc
          refine ⟨rfl, cfg, hdr, opt, mid, (migrate_domain_report domid env rest2).1, rest2,
            hcfg, hbytes, ?_, hmid2, ?_, ?_⟩
          · simp
          · intro b2 rc2
            exact hrep rest2 b2 rc2
          · rw [hrecv, hrecv2]
        · intro n got hmem hne b rc
          exfalso
          have hrd : Ev.read_exactly .ready_message n got
              ∉ (migrate_domain_report domid env rest2).1 := by
            rcases migrate_domain_report_cases domid env rest2 with h | ⟨s, -, h⟩ | ⟨got, -, h⟩
              | h | ⟨s, got, -, -, h⟩
            · simp [h]
            · rw [h]
              cases env.common_domname <;> simp
            · simp [h]
            · simp [h]
            · simp [h]
          simp [hmidrd, hrd] at hmem
          exact hne hmem.2

/-- C4: point of no return. In a run of `migrate_domain` in which, after the
attempt to write "permission to go", the write itself fails, or the "report"
literal is short or differs, or the status byte cannot be read, or the
"permission to go back" literal is short or differs, the run ends on the
undefined-state path: the warning of `failed_badly` is printed, the exit status
is failure, and the sender neither resumes nor destroys its domain, and makes
no rename other than the earlier one to `--migratedaway`. -/
theorem failure_after_go_undefined_state (P : Platform) (domid : Nat) (env : MigrateEnv)
    (hfail :
      (∃ b rc, rc ≠ 0 ∧ Ev.write_exactly .GO_message b rc ∈ (migrate_domain P domid env).1)
      ∨ (∃ n got, got ≠ some migrate_report
          ∧ Ev.read_exactly .report_message n got ∈ (migrate_domain P domid env).1)
      ∨ (∃ n, Ev.read_exactly .status n none ∈ (migrate_domain P domid env).1)
      ∨ (∃ n got, got ≠ some migrate_permission_to_go
          ∧ Ev.read_exactly .resume_permission n got ∈ (migrate_domain P domid env).1)) :
    Ev.undefined_state_warning ∈ (migrate_domain P domid env).1
    ∧ (∃ rc, Ev.write_exactly .GO_message migrate_permission_to_go rc
        ∈ (migrate_domain P domid env).1)
    ∧ (migrate_domain P domid env).2 = EXIT_FAILURE
    ∧ (∀ d, Ev.domain_resume d ∉ (migrate_domain P domid env).1)
    ∧ (∀ d, Ev.domain_destroy d ∉ (migrate_domain P domid env).1)
    ∧ (∀ d old new rc, Ev.domain_rename d old new rc ∈ (migrate_domain P domid env).1 →
        env.common_domname = some old ∧ new = old ++ "--migratedaway") := by
  rcases migrate_domain_cases P domid env with h | ⟨got, -, h⟩ | ⟨hdr, -, h⟩ | ⟨hdr, opt, -, h⟩
    | ⟨cfg, hdr, opt, rest, -, -, -, h⟩
  · simp [h] at hfail
  · simp [h] at hfail
  · simp [h] at hfail
  · simp [h] at hfail
  · rcases migrate_domain_suspend_cases domid env rest with ⟨-, hs⟩ | ⟨-, hs⟩ | ⟨got, hne, hs⟩
      | ⟨name, -, -, hs⟩ | ⟨mid, rest2, -, hmid, hgo⟩
    · simp [h, hs] at hfail
    · simp [h, hs] at hfail
    · simp [h, hs] at hfail
    · simp [h, hs] at hfail
    · rcases hgo with ⟨hrc, hs⟩ | hs
      · rcases hmid with ⟨hn, hm⟩ | ⟨name, hn, hm⟩ <;> subst hm <;> simp [h, hs, hn]
        intro d old new rc _ ho hnew _
        exact ⟨ho.symm, by rw [hnew, ho]⟩
      · rcases migrate_domain_report_cases domid env rest2 with hr | ⟨s, hs0, hr⟩
          | ⟨got, hgot, hr⟩ | hr | ⟨s, got, hs0, hgot, hr⟩
        · rcases hmid with ⟨hn, hm⟩ | ⟨name, hn, hm⟩ <;> subst hm <;> simp [h, hs, hr, hn] at hfail
        · rcases hmid with ⟨hn, hm⟩ | ⟨name, hn, hm⟩ <;> subst hm <;> simp [h, hs, hr, hn] at hfail
        · rcases hmid with ⟨hn, hm⟩ | ⟨name, hn, hm⟩ <;> subst hm <;>
            simp [h, hs, hr, hn, EXIT_FAILURE]
          intro d old new rc _ ho hnew _
          exact ⟨ho.symm, by rw [hnew, ho]⟩
        · rcases hmid with ⟨hn, hm⟩ | ⟨name, hn, hm⟩ <;> subst hm <;>
            simp [h, hs, hr, hn, EXIT_FAILURE]
          intro d old new rc _ ho hnew _
          exact ⟨ho.symm, by rw [hnew, ho]⟩
        · rcases hmid with ⟨hn, hm⟩ | ⟨name, hn, hm⟩ <;> subst hm <;>
            simp [h, hs, hr, hn, EXIT_FAILURE]
          intro d old new rc _ ho hnew _
          exact ⟨ho.symm, by rw [hnew, ho]⟩

/-- C5: the sender destroys its domain and exits with success exactly on the
runs on which it has read the matching "report" literal and then a status byte
equal to 0. Destroying the domain, exiting with success, and having read the
report and a zero status are equivalent; on every other run
`libxl_domain_destroy` is not called for any domain and the exit status is
failure. -/
theorem destroy_iff_report_success (P : Platform) (domid : Nat) (env : MigrateEnv) :
    ((Ev.domain_destroy domid ∈ (migrate_domain P domid env).1
        ∧ (migrate_domain P domid env).2 = EXIT_SUCCESS)
      ↔ (Ev.read_exactly .report_message migrate_report.length (some migrate_report)
            ∈ (migrate_domain P domid env).1
          ∧ Ev.read_exactly .status 1 (some [0]) ∈ (migrate_domain P domid env).1))
    ∧ (¬ (Ev.read_exactly .report_message migrate_report.length (some migrate_report)
            ∈ (migrate_domain P domid env).1
          ∧ Ev.read_exactly .status 1 (some [0]) ∈ (migrate_domain P domid env).1)
        → (∀ d, Ev.domain_destroy d ∉ (migrate_domain P domid env).1)
          ∧ (migrate_domain P domid env).2 = EXIT_FAILURE) := by
  have hne : EXIT_FAILURE ≠ EXIT_SUCCESS := by decide
  rcases migrate_domain_cases P domid env with h | ⟨got, -, h⟩ | ⟨hdr, -, h⟩ | ⟨hdr, opt, -, h⟩
    | ⟨cfg, hdr, opt, rest, -, -, -, h⟩
  · simp [h, hne]
  · simp [h, hne]
  · simp [h, hne]
  · simp [h, hne]
  · rcases migrate_domain_suspend_cases domid env rest with ⟨-, hs⟩ | ⟨-, hs⟩ | ⟨got, hne, hs⟩
      | ⟨name, -, -, hs⟩ | ⟨mid, rest2, -, hmid, hgo⟩
    · simp [h, hs, hne]
    · simp [h, hs, hne]
    · simp [h, hs, hne]
    · simp [h, hs, hne]
    · rcases hgo with ⟨hrc, hs⟩ | hs
      · rcases hmid with ⟨hn, hm⟩ | ⟨name, hn, hm⟩ <;> subst hm <;> simp [h, hs, hn, hne]
      · rcases migrate_domain_report_cases domid env rest2 with hr | ⟨s, hs0, hr⟩
          | ⟨got, hgot, hr⟩ | hr | ⟨s, got, hs0, hgot, hr⟩
        · rcases hmid with ⟨hn, hm⟩ | ⟨name, hn, hm⟩ <;> subst hm <;> simp [h, hs, hr, hn]
        · rcases hmid with ⟨hn, hm⟩ | ⟨name, hn, hm⟩ <;> subst hm <;>
            simp [h, hs, hr, hn, hne, hs0, Ne.symm hs0]
        · rcases hmid with ⟨hn, hm⟩ | ⟨name, hn, hm⟩ <;> subst hm <;>
            simp [h, hs, hr, hn, hne, hgot, Ne.symm hgot]
        · rcases hmid with ⟨hn, hm⟩ | ⟨name, hn, hm⟩ <;> subst hm <;>
            simp [h, hs, hr, hn, hne]
        · rcases hmid with ⟨hn, hm⟩ | ⟨name, hn, hm⟩ <;> subst hm <;>
            simp [h, hs, hr, hn, hne, hs0, Ne.symm hs0]

/-- C6 (amended): when the status byte read by the sender is non-zero, the next
step is the read of the "permission to go back" literal, and no resume has been
attempted before it. If that literal is read completely and matches, the sender
renames its domain back from `--migratedaway` to the original name when
`common_domname` is set (and makes no rename when it is null), then calls
`libxl_domain_resume` and exits with failure. If the literal is short or
differs, `libxl_domain_resume` is never called and the run ends on the
undefined-state path. -/
theorem status_nonzero_go_back (P : Platform) (domid : Nat) (env : MigrateEnv)
    (s : List Byte) (hs0 : s ≠ [0])
    (hmem : Ev.read_exactly .status 1 (some s) ∈ (migrate_domain P domid env).1) :
    ∃ pre got tail,
      (migrate_domain P domid env).1
        = pre ++ [Ev.read_exactly .status 1 (some s),
                  Ev.read_exactly .resume_permission migrate_permission_to_go.length got]
            ++ tail
      ∧ (∀ d, Ev.domain_resume d ∉ pre)
      ∧ (migrate_domain P domid env).2 = EXIT_FAILURE
      ∧ ((got = some migrate_permission_to_go
            ∧ tail = (match env.common_domname with
                      | some name =>
                        [Ev.domain_rename domid (name ++ "--migratedaway") name
                          env.rename_back_rc]
                      | none => []) ++ [Ev.domain_resume domid])
          ∨ (got ≠ some migrate_permission_to_go
            ∧ tail = [Ev.undefined_state_warning, Ev.close_send_fd, Ev.migration_child_report]
            ∧ ∀ d, Ev.domain_resume d ∉ (migrate_domain P domid env).1)) := by
  rcases migrate_domain_cases P domid env with h | ⟨got, -, h⟩ | ⟨hdr, -, h⟩ | ⟨hdr, opt, -, h⟩
    | ⟨cfg, hdr, opt, rest, -, -, -, h⟩
  · simp [h] at hmem
  · simp [h] at hmem
  · simp [h] at hmem
  · simp [h] at hmem
  · rcases migrate_domain_suspend_cases domid env rest with ⟨-, hs⟩ | ⟨-, hs⟩ | ⟨got, hne, hs⟩
      | ⟨name, -, -, hs⟩ | ⟨mid, rest2, -, hmid, hgo⟩
    · simp [h, hs] at hmem
    · simp [h, hs] at hmem
    · simp [h, hs] at hmem
    · simp [h, hs] at hmem
    · have hmidres : ∀ d, Ev.domain_resume d ∉ mid := by
        intro d
        rcases hmid with ⟨-, hm⟩ | ⟨name, -, hm⟩ <;> simp [hm]
      have hmidst : ∀ n got, Ev.read_exactly .status n got ∉ mid := by
        intro n got
        rcases hmid with ⟨-, hm⟩ | ⟨name, -, hm⟩ <;> simp [hm]
      rcases hgo with ⟨hrc, hs⟩ | hs
      · simp [h, hs, hmidst] at hmem
      · rcases migrate_domain_report_cases domid env rest2 with hr | ⟨s2, hs2, hr⟩
          | ⟨got, hgot, hr⟩ | hr | ⟨s2, got, hs2, hgot, hr⟩
        · simp [h, hs, hr, hmidst, hs0] at hmem
        · have hback : ∀ n got, Ev.read_exactly .status n got ∉
              (match env.common_domname with
                | some name =>
                  [Ev.domain_rename domid (name ++ "--migratedaway") name env.rename_back_rc]
                | none => []) := by
            intro n got
            cases env.common_domname <;> simp
          have hss : s2 = s := by
            simp [h, hs, hr, hmidst, hback] at hmem
            exact hmem.symm
          subst hss
          refine ⟨[Ev.read_exactly .banner (migrate_receiver_banner.length - 1)
                (some (migrate_receiver_banner.take (migrate_receiver_banner.length - 1))),
              Ev.write_exactly .header hdr 0, Ev.write_exactly .header opt 0,
              Ev.domain_suspend domid 0,
              Ev.read_exactly .ready_message migrate_receiver_ready.length
                (some migrate_receiver_ready)] ++ mid
              ++ [Ev.write_exactly .GO_message migrate_permission_to_go 0,
                  Ev.read_exactly .report_message migrate_report.length (some migrate_report)],
            some migrate_permission_to_go, _, ?_, ?_, ?_, Or.inl ⟨rfl, rfl⟩⟩
          · simp [h, hs, hr]
          · intro d
            simp [hmidres]
          · simp [h, hs, hr]
        · simp [h, hs, hr, hmidst] at hmem
        · simp [h, hs, hr, hmidst] at hmem
        · have hss : s2 = s := by
            simp [h, hs, hr, hmidst] at hmem
            exact hmem.symm
          subst hss
          refine ⟨[Ev.read_exactly .banner (migrate_receiver_banner.length - 1)
                (some (migrate_receiver_banner.take (migrate_receiver_banner.length - 1))),
              Ev.write_exactly .header hdr 0, Ev.write_exactly .header opt 0,
              Ev.domain_suspend domid 0,
              Ev.read_exactly .ready_message migrate_receiver_ready.length
                (some migrate_receiver_ready)] ++ mid
              ++ [Ev.write_exactly .GO_message migrate_permission_to_go 0,
                  Ev.read_exactly .report_message migrate_report.length (some migrate_report)],
            got, _, ?_, ?_, ?_, Or.inr ⟨hgot, rfl, ?_⟩⟩
          · simp [h, hs, hr]
          · intro d
            simp [hmidres]
          · simp [h, hs, hr]
          · intro d
            simp [h, hs, hr, hmidres]

set_option maxRecDepth 100000 in
theorem permission_to_go_ordering_witness :
    Ev.write_exactly .GO_message migrate_permission_to_go 0
        ∈ (migrate_domain ⟨false, true⟩ 5 (MigrateEnv.nominal (some "vm")
            (migrate_receiver_banner.take 54 ++ migrate_receiver_ready ++ migrate_report
              ++ [0]))).1
    ∧ ∃ rest, (MigrateEnv.nominal (some "vm")
            (migrate_receiver_banner.take 54 ++ migrate_receiver_ready ++ migrate_report
              ++ [0])).recv
        = migrate_receiver_banner.take (migrate_receiver_banner.length - 1)
            ++ (migrate_receiver_ready ++ rest) :=
  ⟨by decide,
    match ((permission_to_go_ordering ⟨false, true⟩ 5 (MigrateEnv.nominal (some "vm")
        (migrate_receiver_banner.take 54 ++ migrate_receiver_ready ++ migrate_report
          ++ [0]))).1 migrate_permission_to_go 0 (by decide)).2 with
    | ⟨_, _, _, _, _, rest, _, _, _, _, _, h⟩ => ⟨rest, h⟩⟩

set_option maxRecDepth 100000 in
theorem destroy_iff_report_success_witness :
    Ev.domain_destroy 5
        ∈ (migrate_domain ⟨false, true⟩ 5 (MigrateEnv.nominal (some "vm")
            (migrate_receiver_banner.take 54 ++ migrate_receiver_ready ++ migrate_report
              ++ [0]))).1
    ∧ (migrate_domain ⟨false, true⟩ 5 (MigrateEnv.nominal (some "vm")
            (migrate_receiver_banner.take 54 ++ migrate_receiver_ready ++ migrate_report
              ++ [0]))).2 = EXIT_SUCCESS :=
  (destroy_iff_report_success ⟨false, true⟩ 5 (MigrateEnv.nominal (some "vm")
      (migrate_receiver_banner.take 54 ++ migrate_receiver_ready ++ migrate_report
        ++ [0]))).1.mpr ⟨by decide, by decide⟩

set_option maxRecDepth 100000 in
theorem failure_after_go_undefined_state_witness :
    (∃ n, Ev.read_exactly .status n none
        ∈ (migrate_domain ⟨false, true⟩ 5 (MigrateEnv.nominal (some "vm")
            (migrate_receiver_banner.take 54 ++ migrate_receiver_ready ++ migrate_report))).1)
    ∧ Ev.undefined_state_warning
        ∈ (migrate_domain ⟨false, true⟩ 5 (MigrateEnv.nominal (some "vm")
            (migrate_receiver_banner.take 54 ++ migrate_receiver_ready ++ migrate_report))).1 :=
  ⟨⟨1, by decide⟩,
    (failure_after_go_undefined_state ⟨false, true⟩ 5 (MigrateEnv.nominal (some "vm")
        (migrate_receiver_banner.take 54 ++ migrate_receiver_ready ++ migrate_report))
      (Or.inr (Or.inr (Or.inl ⟨1, by decide⟩)))).1⟩

set_option maxRecDepth 100000 in
theorem status_nonzero_go_back_witness :
    (([3] : List Byte) ≠ [0]
      ∧ Ev.read_exactly .status 1 (some [3])
        ∈ (migrate_domain ⟨false, true⟩ 5 (MigrateEnv.nominal (some "vm")
            (migrate_receiver_banner.take 54 ++ migrate_receiver_ready ++ migrate_report ++ [3]
              ++ migrate_permission_to_go))).1)
    ∧ ∃ pre got tail,
      (migrate_domain ⟨false, true⟩ 5 (MigrateEnv.nominal (some "vm")
            (migrate_receiver_banner.take 54 ++ migrate_receiver_ready ++ migrate_report ++ [3]
              ++ migrate_permission_to_go))).1
        = pre ++ [Ev.read_exactly .status 1 (some [3]),
                  Ev.read_exactly .resume_permission migrate_permission_to_go.length got]
            ++ tail
      ∧ (∀ d, Ev.domain_resume d ∉ pre)
      ∧ (migrate_domain ⟨false, true⟩ 5 (MigrateEnv.nominal (some "vm")
            (migrate_receiver_banner.take 54 ++ migrate_receiver_ready ++ migrate_report ++ [3]
              ++ migrate_permission_to_go))).2 = EXIT_FAILURE
      ∧ ((got = some migrate_permission_to_go
            ∧ tail = (match (MigrateEnv.nominal (some "vm")
                        (migrate_receiver_banner.take 54 ++ migrate_receiver_ready
                          ++ migrate_report ++ [3] ++ migrate_permission_to_go)).common_domname with
                      | some name =>
                        [Ev.domain_rename 5 (name ++ "--migratedaway") name
                          (MigrateEnv.nominal (some "vm")
                            (migrate_receiver_banner.take 54 ++ migrate_receiver_ready
                              ++ migrate_report ++ [3]
                              ++ migrate_permission_to_go)).rename_back_rc]
                      | none => []) ++ [Ev.domain_resume 5])
          ∨ (got ≠ some migrate_permission_to_go
            ∧ tail = [Ev.undefined_state_warning, Ev.close_send_fd, Ev.migration_child_report]
            ∧ ∀ d, Ev.domain_resume d
                ∉ (migrate_domain ⟨false, true⟩ 5 (MigrateEnv.nominal (some "vm")
                    (migrate_receiver_banner.take 54 ++ migrate_receiver_ready ++ migrate_report
                      ++ [3] ++ migrate_permission_to_go))).1)) :=
  ⟨⟨by decide, by decide⟩,
    status_nonzero_go_back ⟨false, true⟩ 5 (MigrateEnv.nominal (some "vm")
        (migrate_receiver_banner.take 54 ++ migrate_receiver_ready ++ migrate_report ++ [3]
          ++ migrate_permission_to_go)) [3] (by decide) (by decide)⟩

set_option maxRecDepth 100000 in
/-- C6 as stated fails when `common_domname` is null: the status byte is 1, the
"permission to go back" literal is read completely and matches, the sender
resumes, and no rename of any domain is part of the run. -/
theorem go_back_without_rename :
    Ev.read_exactly .status 1 (some [1])
        ∈ (migrate_domain ⟨false, true⟩ 5 (MigrateEnv.nominal none
            (migrate_receiver_banner.take 54 ++ migrate_receiver_ready ++ migrate_report ++ [1]
              ++ migrate_permission_to_go))).1
    ∧ Ev.read_exactly .resume_permission migrate_permission_to_go.length
          (some migrate_permission_to_go)
        ∈ (migrate_domain ⟨false, true⟩ 5 (MigrateEnv.nominal none
            (migrate_receiver_banner.take 54 ++ migrate_receiver_ready ++ migrate_report ++ [1]
              ++ migrate_permission_to_go))).1
    ∧ Ev.domain_resume 5
        ∈ (migrate_domain ⟨false, true⟩ 5 (MigrateEnv.nominal none
            (migrate_receiver_banner.take 54 ++ migrate_receiver_ready ++ migrate_report ++ [1]
              ++ migrate_permission_to_go))).1
    ∧ ¬ ∃ d old new rc, Ev.domain_rename d old new rc
        ∈ (migrate_domain ⟨false, true⟩ 5 (MigrateEnv.nominal none
            (migrate_receiver_banner.take 54 ++ migrate_receiver_ready ++ migrate_report ++ [1]
              ++ migrate_permission_to_go))).1 := by
  have hrun : (migrate_domain ⟨false, true⟩ 5 (MigrateEnv.nominal none
      (migrate_receiver_banner.take 54 ++ migrate_receiver_ready ++ migrate_report ++ [1]
        ++ migrate_permission_to_go))).1
      = [Ev.read_exactly .banner 54 (some (migrate_receiver_banner.take 54)),
         Ev.write_exactly .header
           (save_file_header.bytes ⟨false, true⟩
             { magic := savefileheader_magic, byteorder := 0x01020304, mandatory_flags := 3,
               optional_flags := 0, optional_data_len := 7 }) 0,
         Ev.write_exactly .header [3, 0, 0, 0, 123, 125, 0] 0,
         Ev.domain_suspend 5 0,
         Ev.read_exactly .ready_message 34 (some migrate_receiver_ready),
         Ev.write_exactly .GO_message migrate_permission_to_go 0,
         Ev.read_exactly .report_message 39 (some migrate_report),
         Ev.read_exactly .status 1 (some [1]),
         Ev.read_exactly .resume_permission 44 (some migrate_permission_to_go),
         Ev.domain_resume 5] := by decide
  have h44 : migrate_permission_to_go.length = 44 := by decide
  rw [hrun, h44]
  simp

/-! ## Properties of the restart decision -/

/-- C7: the restart-decision table. For the reasons poweroff, reboot, crash,
watchdog and soft-reset, `handle_domain_death` returns (without reaching
`abort()`) the decision that the table gives for the action configured for that
reason, and for the reason suspend it returns no-restart whatever is
configured. This holds for every domain id and every outcome of the core dump
and of the configuration reload, so the decision is the same for any two of
them. -/
theorem restart_decision (env : DeathEnv) (r_domid : Nat) (d_config : libxl_domain_config) :
    (handle_domain_death env r_domid .POWEROFF d_config).map DeathResult.restart
        = some (restart_decision_table d_config.on_poweroff)
    ∧ (handle_domain_death env r_domid .REBOOT d_config).map DeathResult.restart
        = some (restart_decision_table d_config.on_reboot)
    ∧ (handle_domain_death env r_domid .CRASH d_config).map DeathResult.restart
        = some (restart_decision_table d_config.on_crash)
    ∧ (handle_domain_death env r_domid .WATCHDOG d_config).map DeathResult.restart
        = some (restart_decision_table d_config.on_watchdog)
    ∧ (handle_domain_death env r_domid .SOFT_RESET d_config).map DeathResult.restart
        = some (restart_decision_table d_config.on_soft_reset)
    ∧ (handle_domain_death env r_domid .SUSPEND d_config).map DeathResult.restart
        = some DOMAIN_RESTART_NONE
    ∧ (∀ (env2 : DeathEnv) (r_domid2 : Nat) (reason : libxl_shutdown_reason)
          (d_config2 : libxl_domain_config),
        handle_domain_death_action reason d_config2
          = handle_domain_death_action reason d_config →
        (handle_domain_death env2 r_domid2 reason d_config2).map DeathResult.restart
          = (handle_domain_death env r_domid reason d_config).map DeathResult.restart) := by
  have key : ∀ (e : DeathEnv) (d : Nat) (reason : libxl_shutdown_reason)
      (c : libxl_domain_config),
      (handle_domain_death e d reason c).map DeathResult.restart
        = match handle_domain_death_action reason c with
          | none => some DOMAIN_RESTART_NONE
          | some a => some (restart_decision_table a) := by
    intro e d reason c
    unfold handle_domain_death
    cases h : handle_domain_death_action reason c with
    | none => simp [domain_restart_type.of_int]
    | some a => cases a <;> simp [restart_decision_table]
  refine ⟨?_, ?_, ?_, ?_, ?_, ?_, ?_⟩
  · rw [key]; rfl
  · rw [key]; rfl
  · rw [key]; rfl
  · rw [key]; rfl
  · rw [key]; rfl
  · rw [key]; rfl
  · intro env2 r_domid2 reason d_config2 hact
    rw [key, key, hact]

/-- C8: for a shutdown reason code that is none of the six defined ones, and
for every configured policy, `handle_domain_death` destroys the domain (its
only platform call), leaves `INVALID_DOMID` in the caller's domain identifier,
leaves the configuration as it was and returns no-restart. -/
theorem unknown_reason_destroys (env : DeathEnv) (r_domid : Nat) (code : Int)
    (d_config : libxl_domain_config) :
    handle_domain_death env r_domid (.other code) d_config
      = some { restart := DOMAIN_RESTART_NONE
               r_domid := INVALID_DOMID
               d_config := d_config
               calls := [Ev.domain_destroy r_domid] } := by
  simp [handle_domain_death, handle_domain_death_action]

/-! ## Properties of the decoded scenario and of the wire layout -/

/-- C11 as stated fails: on the save file of the scenario the decoder stops the
optional data after the 11 declared bytes, so the configuration it yields is
the seven bytes of the text without the NUL (`config_len = 7`), which is not
the eight bytes ending in a NUL; the NUL is left unread on the stream. -/
theorem scenario_config_has_no_nul :
    create_domain_restoring ⟨false, true⟩ (scenario_save_file ⟨false, true⟩)
      = (Outcome.cont
          { hdr := { magic := savefileheader_magic
                     byteorder := 0x01020304
                     mandatory_flags := 3
                     optional_flags := 0
                     optional_data_len := 11 }
            config_len := 7
            config_data := some [123, 34, 97, 34, 58, 49, 125] }, [0])
    ∧ (some [123, 34, 97, 34, 58, 49, 125] : Option (List Byte))
        ≠ some [123, 34, 97, 34, 58, 49, 125, 0] := by
  constructor <;> decide

set_option maxRecDepth 100000 in
/-- C11 (amended): on the save file of the scenario, on every platform, the
decoder yields `mandatory_flags = JSON|STREAMv2`, `config_len = 7` and as
configuration the seven bytes of the text, leaving the NUL unread; without an
overriding configuration file the configuration is taken as JSON
(`config_in_json` true, and the parser is called in JSON mode on those seven
bytes), and the restore call of `create_domain` is made with stream version
2. -/
theorem scenario_decoded (P : Platform) :
    create_domain_restoring P (scenario_save_file P)
      = (Outcome.cont
          { hdr := { magic := savefileheader_magic
                     byteorder := 0x01020304
                     mandatory_flags := XL_MANDATORY_FLAG_JSON ||| XL_MANDATORY_FLAG_STREAMv2
                     optional_flags := 0
                     optional_data_len := 11 }
            config_len := 7
            config_data := some [123, 34, 97, 34, 58, 49, 125] }, [0])
    ∧ create_domain_saved_config
        { hdr := { magic := savefileheader_magic
                   byteorder := 0x01020304
                   mandatory_flags := XL_MANDATORY_FLAG_JSON ||| XL_MANDATORY_FLAG_STREAMv2
                   optional_flags := 0
                   optional_data_len := 11 }
          config_len := 7
          config_data := some [123, 34, 97, 34, 58, 49, 125] }
        = Outcome.cont ([123, 34, 97, 34, 58, 49, 125], 7, true)
    ∧ (create_domain P
          { domain_create.nominal with config_file := none, restore_file := true }
          (CreateEnv.nominal (scenario_save_file P) [PassEnv.nominal 9 1 (.parent 0) []])
          (-1)).trace.take 6
        = [Ev.parse_config true [123, 34, 97, 34, 58, 49, 125] 7,
           Ev.lock_open 7, Ev.lock_setfd 0, Ev.lock_wait 0 0, Ev.freemem true,
           Ev.domain_create_restore 2 .NONE 0] := by
  rcases P with ⟨_ | _, _ | _⟩ <;> refine ⟨?_, ?_, ?_⟩ <;> decide

/-- C12: wire layout of the encoder. For a configuration of `n` bytes (`n`
fitting the `int` argument), `save_domain_core_writeconfig` writes exactly
`52 + n` bytes: the magic at offset 0, the sentinel `0x01020304` at 32,
`mandatory_flags` at 36, `optional_flags = 0` at 40, `optional_data_len = 4 + n`
at 44, `config_len = n` at 48 and the configuration at 52, each integer as its
four bytes in native order. `mandatory_flags` has STREAMv2 (bit 1) set, has
JSON (bit 0) set if and only if `n` is not 0, and has no other bit set. -/
theorem encoder_wire_layout (P : Platform) (c : List Byte) (hn : c.length < 2147483648) :
    save_domain_core_writeconfig_bytes P c c.length
      = savefileheader_magic ++ u32_to_bytes P 0x01020304
          ++ u32_to_bytes P (save_domain_core_writeconfig P c c.length).1.mandatory_flags
          ++ u32_to_bytes P 0 ++ u32_to_bytes P (4 + c.length)
          ++ u32_to_bytes P c.length ++ c
    ∧ (save_domain_core_writeconfig_bytes P c c.length).length = 52 + c.length
    ∧ (save_domain_core_writeconfig_bytes P c c.length).take 32 = savefileheader_magic
    ∧ ((save_domain_core_writeconfig_bytes P c c.length).drop 32).take 4
        = u32_to_bytes P 0x01020304
    ∧ ((save_domain_core_writeconfig_bytes P c c.length).drop 36).take 4
        = u32_to_bytes P (save_domain_core_writeconfig P c c.length).1.mandatory_flags
    ∧ ((save_domain_core_writeconfig_bytes P c c.length).drop 40).take 4 = u32_to_bytes P 0
    ∧ ((save_domain_core_writeconfig_bytes P c c.length).drop 44).take 4
        = u32_to_bytes P (4 + c.length)
    ∧ ((save_domain_core_writeconfig_bytes P c c.length).drop 48).take 4
        = u32_to_bytes P c.length
    ∧ (save_domain_core_writeconfig_bytes P c c.length).drop 52 = c
    ∧ (save_domain_core_writeconfig P c c.length).1.mandatory_flags.testBit 1 = true
    ∧ ((save_domain_core_writeconfig P c c.length).1.mandatory_flags.testBit 0 = true
        ↔ c.length ≠ 0)
    ∧ (∀ i, 2 ≤ i →
        (save_domain_core_writeconfig P c c.length).1.mandatory_flags.testBit i = false) := by
  have henc := save_domain_core_writeconfig_eq P c hn
  have hm := savefileheader_magic_length
  have h4 := u32_to_bytes_length P
  have hflags : (save_domain_core_writeconfig P c c.length).1.mandatory_flags
      = if c.length = 0 then 2 else 3 := by rw [henc]
  have hbytes : save_domain_core_writeconfig_bytes P c c.length
      = savefileheader_magic ++ (u32_to_bytes P 0x01020304
          ++ (u32_to_bytes P (save_domain_core_writeconfig P c c.length).1.mandatory_flags
          ++ (u32_to_bytes P 0 ++ (u32_to_bytes P (4 + c.length)
          ++ (u32_to_bytes P c.length ++ c))))) := by
    rw [hflags]
    unfold save_domain_core_writeconfig_bytes
    simp only [henc, save_file_header.bytes, SAVEFILE_BYTEORDER_VALUE]
    have htake : List.take (4 + c.length) (u32_to_bytes P c.length ++ c)
        = u32_to_bytes P c.length ++ c := by
      apply List.take_of_length_le
      simp [h4]
    rw [htake]
    simp only [List.append_assoc]
  have d32 : ∀ t : List Byte, List.drop 32 (savefileheader_magic ++ t) = t := fun t =>
    List.drop_left' hm
  have d4 : ∀ (x : Nat) (t : List Byte), List.drop 4 (u32_to_bytes P x ++ t) = t := fun x t =>
    List.drop_left' (h4 x)
  have t4 : ∀ (x : Nat) (t : List Byte), List.take 4 (u32_to_bytes P x ++ t) = u32_to_bytes P x :=
    fun x t => List.take_left' (h4 x)
  have e36 : ∀ t : List Byte, List.drop 36 t = List.drop 4 (List.drop 32 t) := fun t => by
    rw [List.drop_drop]
  have e40 : ∀ t : List Byte, List.drop 40 t = List.drop 4 (List.drop 36 t) := fun t => by
    rw [List.drop_drop]
  have e44 : ∀ t : List Byte, List.drop 44 t = List.drop 4 (List.drop 40 t) := fun t => by
    rw [List.drop_drop]
  have e48 : ∀ t : List Byte, List.drop 48 t = List.drop 4 (List.drop 44 t) := fun t => by
    rw [List.drop_drop]
  have e52 : ∀ t : List Byte, List.drop 52 t = List.drop 4 (List.drop 48 t) := fun t => by
    rw [List.drop_drop]
  have h32 := d32 (u32_to_bytes P 0x01020304
          ++ (u32_to_bytes P (save_domain_core_writeconfig P c c.length).1.mandatory_flags
          ++ (u32_to_bytes P 0 ++ (u32_to_bytes P (4 + c.length)
          ++ (u32_to_bytes P c.length ++ c)))))
  rw [← hbytes] at h32
  have h36 := e36 (save_domain_core_writeconfig_bytes P c c.length)
  rw [h32, d4] at h36
  have h40 := e40 (save_domain_core_writeconfig_bytes P c c.length)
  rw [h36, d4] at h40
  have h44 := e44 (save_domain_core_writeconfig_bytes P c c.length)
  rw [h40, d4] at h44
  have h48 := e48 (save_domain_core_writeconfig_bytes P c c.length)
  rw [h44, d4] at h48
  have h52 := e52 (save_domain_core_writeconfig_bytes P c c.length)
  rw [h48, d4] at h52
  refine ⟨?_, ?_, ?_, ?_, ?_, ?_, ?_, ?_, h52, ?_, ?_, ?_⟩
  · rw [hbytes]; simp only [List.append_assoc]
  · rw [hbytes]; simp [hm, h4]; omega
  · rw [hbytes]; exact List.take_left' hm
  · rw [h32, t4]
  · rw [h36, t4]
  · rw [h40, t4]
  · rw [h44, t4]
  · rw [h48, t4]
  · rw [hflags]; split_ifs <;> decide
  · rw [hflags]
    by_cases h0 : c.length = 0
    · simp [h0]
    · simp [h0]
  · intro i hi
    rw [hflags]
    have h2 : ((if c.length = 0 then 2 else 3 : Nat)) &&& not32 XL_MANDATORY_FLAG_ALL = 0 := by
      split_ifs <;> decide
    exact (badflags_eq_zero_iff _ (by split_ifs <;> decide)).mp h2 i hi

theorem encoder_wire_layout_witness :
    ([123, 125, 0] : List Byte).length < 2147483648
    ∧ (save_domain_core_writeconfig_bytes ⟨false, true⟩ [123, 125, 0]
        (([123, 125, 0] : List Byte).length : Int)).length
      = 52 + ([123, 125, 0] : List Byte).length :=
  ⟨by decide, (encoder_wire_layout ⟨false, true⟩ [123, 125, 0] (by decide)).2.1⟩

/-! ## Further properties of the sender -/

/-- The run of `migrate_domain_suspend` when `libxl_domain_suspend` fails. -/
theorem migrate_domain_suspend_failed (domid : Nat) (env : MigrateEnv) (recv : List Byte)
    (hs : env.suspend_rc ≠ 0) :
    migrate_domain_suspend domid env recv
      = if env.suspend_rc = ERROR_GUEST_TIMEDOUT then
          ([Ev.domain_suspend domid env.suspend_rc, Ev.close_send_fd,
            Ev.migration_child_report], EXIT_FAILURE)
        else
          ([Ev.domain_suspend domid env.suspend_rc, Ev.close_send_fd,
            Ev.migration_child_report, Ev.domain_resume domid], EXIT_FAILURE) := by
  unfold migrate_domain_suspend
  rw [if_pos hs]
  split_ifs <;> rfl

set_option maxRecDepth 100000 in
/-- C13 as stated fails: when `libxl_domain_suspend` fails with
`ERROR_GUEST_TIMEDOUT`, and when the banner read is short, the sender exits
with failure without calling `libxl_domain_resume`. -/
theorem no_resume_on_timeout_or_banner :
    (migrate_domain ⟨false, true⟩ 5
        { MigrateEnv.nominal (some "vm") (migrate_receiver_banner.take 54) with
          suspend_rc := ERROR_GUEST_TIMEDOUT })
      = ([Ev.read_exactly .banner 54 (some (migrate_receiver_banner.take 54)),
          Ev.write_exactly .header
            (save_file_header.bytes ⟨false, true⟩
              { magic := savefileheader_magic, byteorder := 0x01020304, mandatory_flags := 3,
                optional_flags := 0, optional_data_len := 7 }) 0,
          Ev.write_exactly .header [3, 0, 0, 0, 123, 125, 0] 0,
          Ev.domain_suspend 5 (-8), Ev.close_send_fd, Ev.migration_child_report],
         EXIT_FAILURE)
    ∧ (migrate_domain ⟨false, true⟩ 5 (MigrateEnv.nominal (some "vm") [120, 108]))
      = ([Ev.read_exactly .banner 54 none, Ev.close_send_fd, Ev.migration_child_report],
         EXIT_FAILURE) := by
  constructor <;> decide

/-- C13 (amended): of the failures of the sender before "permission to go" is
written, a failure of `libxl_domain_suspend` with an error code other than
`ERROR_GUEST_TIMEDOUT` and a short or unexpected "ready" literal make
`migrate_domain` call `libxl_domain_resume` on its domain as its last step
before it exits with failure; on a short or unexpected banner, and on a suspend
failure with `ERROR_GUEST_TIMEDOUT`, it exits with failure without calling
`libxl_domain_resume`. -/
theorem pre_go_failure_resume (P : Platform) (domid : Nat) (env : MigrateEnv) :
    (∀ rc, rc ≠ 0 → rc ≠ ERROR_GUEST_TIMEDOUT →
      Ev.domain_suspend domid rc ∈ (migrate_domain P domid env).1 →
      (migrate_domain P domid env).1.getLast? = some (Ev.domain_resume domid)
      ∧ (migrate_domain P domid env).2 = EXIT_FAILURE)
    ∧ (∀ n got, got ≠ some migrate_receiver_ready →
      Ev.read_exactly .ready_message n got ∈ (migrate_domain P domid env).1 →
      (migrate_domain P domid env).1.getLast? = some (Ev.domain_resume domid)
      ∧ (migrate_domain P domid env).2 = EXIT_FAILURE)
    ∧ (∀ n got,
      got ≠ some (migrate_receiver_banner.take (migrate_receiver_banner.length - 1)) →
      Ev.read_exactly .banner n got ∈ (migrate_domain P domid env).1 →
      (∀ d, Ev.domain_resume d ∉ (migrate_domain P domid env).1)
      ∧ (migrate_domain P domid env).2 = EXIT_FAILURE)
    ∧ (Ev.domain_suspend domid ERROR_GUEST_TIMEDOUT ∈ (migrate_domain P domid env).1 →
      (∀ d, Ev.domain_resume d ∉ (migrate_domain P domid env).1)
      ∧ (migrate_domain P domid env).2 = EXIT_FAILURE) := by
  have hto : ERROR_GUEST_TIMEDOUT ≠ 0 := by decide
  have hrep : ∀ recv,
      (∀ n got, Ev.read_exactly .ready_message n got ∉ (migrate_domain_report domid env recv).1)
      ∧ (∀ n got, Ev.read_exactly .banner n got ∉ (migrate_domain_report domid env recv).1)
      ∧ (∀ d rc, Ev.domain_suspend d rc ∉ (migrate_domain_report domid env recv).1) := by
    intro recv
    rcases migrate_domain_report_cases domid env recv with h | ⟨s, -, h⟩ | ⟨got, -, h⟩ | h
      | ⟨s, got, -, -, h⟩
    · simp [h]
    · rw [h]
      cases env.common_domname <;> simp
    · simp [h]
    · simp [h]
    · simp [h]
  rcases migrate_domain_cases P domid env with h | ⟨got, hgot, h⟩ | ⟨hdr, -, h⟩
    | ⟨hdr, opt, -, h⟩ | ⟨cfg, hdr, opt, rest, -, -, -, h⟩
  · simp [h, EXIT_FAILURE]
  · simp [h, EXIT_FAILURE]
  · simp [h, EXIT_FAILURE]
  · simp [h, EXIT_FAILURE]
  · by_cases hs0 : env.suspend_rc = 0
    · rcases migrate_domain_suspend_cases domid env rest with ⟨hc, -⟩ | ⟨hc, -⟩ | ⟨got, hne, hs⟩
        | ⟨name, -, -, hs⟩ | ⟨mid, rest2, -, hmid, hgo⟩
      · exact absurd hs0 hc
      · exact absurd hs0 hc
      · rw [h, hs]
        refine ⟨?_, ?_, ?_, ?_⟩
        · intro rc hrc _ hmem
          simp at hmem
          exact absurd hmem hrc
        · intro n got2 _ _
          simp [EXIT_FAILURE]
        · intro n got2 hne2 hmem
          simp at hmem
          exact absurd hmem.2 hne2
        · intro hmem
          simp at hmem
          exact absurd hmem hto
      · rw [h, hs]
        refine ⟨?_, ?_, ?_, ?_⟩
        · intro rc hrc _ hmem
          simp at hmem
          exact absurd hmem hrc
        · intro n got2 hne2 hmem
          simp at hmem
          exact absurd hmem.2 hne2
        · intro n got2 hne2 hmem
          simp at hmem
          exact absurd hmem.2 hne2
        · intro hmem
          simp at hmem
          exact absurd hmem hto
      · have hmidf : (∀ n got, Ev.read_exactly .ready_message n got ∉ mid)
            ∧ (∀ n got, Ev.read_exactly .banner n got ∉ mid)
            ∧ (∀ d rc, Ev.domain_suspend d rc ∉ mid) := by
          rcases hmid with ⟨-, hm⟩ | ⟨name, -, hm⟩ <;> simp [hm]
        obtain ⟨hm1, hm2, hm3⟩ := hmidf
        obtain ⟨hr1, hr2, hr3⟩ := hrep rest2
        rcases hgo with ⟨-, hs⟩ | hs
        · rw [h, hs]
          refine ⟨?_, ?_, ?_, ?_⟩
          · intro rc hrc _ hmem
            simp [hm3] at hmem
            exact absurd hmem hrc
          · intro n got2 hne2 hmem
            simp [hm1] at hmem
            exact absurd hmem.2 hne2
          · intro n got2 hne2 hmem
            simp [hm2] at hmem
            exact absurd hmem.2 hne2
          · intro hmem
            simp [hm3] at hmem
            exact absurd hmem hto
        · rw [h, hs]
          refine ⟨?_, ?_, ?_, ?_⟩
          · intro rc hrc _ hmem
            simp [hm3, hr3] at hmem
            exact absurd hmem hrc
          · intro n got2 hne2 hmem
            simp [hm1, hr1] at hmem
            exact absurd hmem.2 hne2
          · intro n got2 hne2 hmem
            simp [hm2, hr2] at hmem
            exact absurd hmem.2 hne2
          · intro hmem
            simp [hm3, hr3] at hmem
            exact absurd hmem hto
    · rw [h, migrate_domain_suspend_failed domid env rest hs0]
      by_cases ht : env.suspend_rc = ERROR_GUEST_TIMEDOUT
      · rw [if_pos ht]
        refine ⟨?_, ?_, ?_, ?_⟩
        · intro rc _ hrc hmem
          simp at hmem
          rw [ht] at hmem
          exact absurd hmem hrc
        · intro n got2 _ hmem
          simp at hmem
        · intro n got2 hne2 hmem
          simp at hmem
          exact absurd hmem.2 hne2
        · intro _
          simp [EXIT_FAILURE]
      · rw [if_neg ht]
        refine ⟨?_, ?_, ?_, ?_⟩
        · intro rc _ _ _
          simp [EXIT_FAILURE]
        · intro n got2 _ hmem
          simp at hmem
        · intro n got2 hne2 hmem
          simp at hmem
          exact absurd hmem.2 hne2
        · intro hmem
          simp at hmem
          exact absurd hmem.symm ht


set_option maxRecDepth 100000 in
/-- C16 as stated fails: when the rename to `vm--migratedaway` fails (here with
`ERROR_FAIL`) after a matched "ready", the sender does not write "permission
to go"; it closes the send endpoint, resumes its domain and exits with
failure. -/
theorem rename_failure_stops_migration :
    (migrate_domain ⟨false, true⟩ 5
        { MigrateEnv.nominal (some "vm")
            (migrate_receiver_banner.take 54 ++ migrate_receiver_ready ++ migrate_report
              ++ [0]) with rename_away_rc := ERROR_FAIL })
      = ([Ev.read_exactly .banner 54 (some (migrate_receiver_banner.take 54)),
          Ev.write_exactly .header
            (save_file_header.bytes ⟨false, true⟩
              { magic := savefileheader_magic, byteorder := 0x01020304, mandatory_flags := 3,
                optional_flags := 0, optional_data_len := 7 }) 0,
          Ev.write_exactly .header [3, 0, 0, 0, 123, 125, 0] 0,
          Ev.domain_suspend 5 0,
          Ev.read_exactly .ready_message 34 (some migrate_receiver_ready),
          Ev.domain_rename 5 "vm" "vm--migratedaway" (-3),
          Ev.close_send_fd, Ev.migration_child_report, Ev.domain_resume 5],
         EXIT_FAILURE) := by
  decide

/-- The read of a fixed message whose bytes are at the head of the stream. -/
theorem migrate_read_fixedmessage_match (msg rest : List Byte) (what : What) :
    migrate_read_fixedmessage (msg ++ rest) msg msg.length what
      = (0, rest, Ev.read_exactly what msg.length (some msg)) := by
  unfold migrate_read_fixedmessage libxl_read_exactly
  simp

/-- The run of `migrate_domain_suspend` when the suspend succeeds, "ready" is
at the head of the stream and the rename to `--migratedaway` fails. -/
theorem migrate_domain_suspend_rename_failed (domid : Nat) (env : MigrateEnv)
    (rest : List Byte) (name : String) (hs : env.suspend_rc = 0)
    (hn : env.common_domname = some name) (hrc : env.rename_away_rc ≠ 0) :
    migrate_domain_suspend domid env (migrate_receiver_ready ++ rest)
      = ([Ev.domain_suspend domid 0,
          Ev.read_exactly .ready_message migrate_receiver_ready.length
            (some migrate_receiver_ready),
          Ev.domain_rename domid name (name ++ "--migratedaway") env.rename_away_rc,
          Ev.close_send_fd, Ev.migration_child_report, Ev.domain_resume domid],
         EXIT_FAILURE) := by
  unfold migrate_domain_suspend
  simp [hs, hn, hrc, migrate_read_fixedmessage_match, after, failed_resume]

/-- C16 (amended): the rename of the sender's domain to `<name>--migratedaway`
is not best-effort. In a run in which the "ready" literal was read and matched,
`common_domname` is set and that rename fails, `migrate_domain` ends with the
failed rename followed by the steps of `failed_resume` (close, child report,
`libxl_domain_resume`), it exits with failure, and "permission to go" is never
written. -/
theorem rename_failure_aborts (P : Platform) (domid : Nat) (env : MigrateEnv) (name : String)
    (hn : env.common_domname = some name) (hrc : env.rename_away_rc ≠ 0)
    (hready : Ev.read_exactly .ready_message migrate_receiver_ready.length
        (some migrate_receiver_ready) ∈ (migrate_domain P domid env).1) :
    (∃ hdr opt, (migrate_domain P domid env).1
        = [Ev.read_exactly .banner (migrate_receiver_banner.length - 1)
              (some (migrate_receiver_banner.take (migrate_receiver_banner.length - 1))),
            Ev.write_exactly .header hdr 0,
            Ev.write_exactly .header opt 0,
            Ev.domain_suspend domid 0,
            Ev.read_exactly .ready_message migrate_receiver_ready.length
              (some migrate_receiver_ready),
            Ev.domain_rename domid name (name ++ "--migratedaway") env.rename_away_rc,
            Ev.close_send_fd, Ev.migration_child_report, Ev.domain_resume domid])
    ∧ (migrate_domain P domid env).2 = EXIT_FAILURE
    ∧ (∀ b rc, Ev.write_exactly .GO_message b rc ∉ (migrate_domain P domid env).1) := by
  rcases migrate_domain_cases P domid env with h | ⟨got, hgot, h⟩ | ⟨hdr, -, h⟩
    | ⟨hdr, opt, -, h⟩ | ⟨cfg, hdr, opt, rest, -, -, -, h⟩
  · simp [h] at hready
  · simp [h] at hready
  · simp [h] at hready
  · simp [h] at hready
  · by_cases hs0 : env.suspend_rc = 0
    · rcases migrate_read_fixedmessage_cases rest migrate_receiver_ready
          migrate_receiver_ready.length .ready_message with ⟨rest2, hrecv, -⟩ | ⟨rest2, got, hne, hr⟩
      · rw [List.take_length] at hrecv
        rw [h, hrecv, migrate_domain_suspend_rename_failed domid env rest2 name hs0 hn hrc]
        refine ⟨⟨hdr, opt, ?_⟩, rfl, ?_⟩
        · simp
        · intro b rc
          simp
      · exfalso
        rw [List.take_length] at hne
        have hsus : migrate_domain_suspend domid env rest
            = ([Ev.domain_suspend domid 0,
                Ev.read_exactly .ready_message migrate_receiver_ready.length got,
                Ev.close_send_fd, Ev.migration_child_report, Ev.domain_resume domid],
               EXIT_FAILURE) := by
          unfold migrate_domain_suspend
          simp [hs0, hr, after, failed_resume]
        rw [h, hsus] at hready
        simp at hready
        exact hne hready.symm
    · exfalso
      rw [h, migrate_domain_suspend_failed domid env rest hs0] at hready
      split_ifs at hready <;> simp at hready

set_option maxRecDepth 100000 in
theorem rename_failure_aborts_witness :
    ((MigrateEnv.nominal (some "vm")
          (migrate_receiver_banner.take 54 ++ migrate_receiver_ready)).common_domname
        = some "vm"
      ∧ ERROR_FAIL ≠ 0)
    ∧ (migrate_domain ⟨false, true⟩ 5
        { MigrateEnv.nominal (some "vm")
            (migrate_receiver_banner.take 54 ++ migrate_receiver_ready) with
          rename_away_rc := ERROR_FAIL }).2 = EXIT_FAILURE :=
  ⟨⟨rfl, by decide⟩,
    (rename_failure_aborts ⟨false, true⟩ 5
      { MigrateEnv.nominal (some "vm")
          (migrate_receiver_banner.take 54 ++ migrate_receiver_ready) with
        rename_away_rc := ERROR_FAIL } "vm" rfl (by decide) (by decide)).2.1⟩


/-! ## Properties of `create_domain` -/

/-- After `release_lock` the lock is not held, whatever the unlock gave. -/
theorem release_lock_fd_lock (fd_lock : Int) (i : Nat) (rc : Int) :
    (release_lock fd_lock i rc).fd_lock < 0 := by
  unfold release_lock
  split_ifs with h
  all_goals first
    | exact h
    | simp

/-- The calls of `release_lock` bring no domain up. -/
theorem release_lock_calls (fd_lock : Int) (i : Nat) (rc : Int) :
    ∀ e ∈ (release_lock fd_lock i rc).calls, e.is_bringup = false := by
  unfold release_lock
  split_ifs <;> simp [Ev.is_bringup]

/-- The calls of `acquire_lock` bring no domain up. -/
theorem acquire_lock_calls (fd_lock : Int) (env : LockEnv) :
    ∀ e ∈ (acquire_lock fd_lock env).calls, e.is_bringup = false := by
  unfold acquire_lock
  split_ifs <;> simp [Ev.is_bringup]

/-- The calls of the loop of `freemem` bring no domain up. -/
theorem freemem_loop_calls (env : FreememEnv) :
    ∀ n i, ∀ e ∈ (freemem_loop env n i).2, e.is_bringup = false := by
  intro n
  induction n with
  | zero => intro i e he; simp [freemem_loop] at he
  | succ n ih =>
    intro i e he
    unfold freemem_loop at he
    split_ifs at he
    all_goals simp at he
    all_goals first
      | (rcases he with he | he | he | he <;> first
          | (subst he; rfl)
          | exact ih _ _ he)
      | (rcases he with he | he | he <;> subst he <;> rfl)
      | (rcases he with he | he <;> subst he <;> rfl)
      | (subst he; rfl)

/-- The calls of `freemem` bring no domain up. -/
theorem freemem_calls (env : FreememEnv) :
    ∀ e ∈ (freemem env).2, e.is_bringup = false := by
  intro e he
  unfold freemem at he
  split_ifs at he
  all_goals simp at he
  all_goals first
    | (subst he; rfl)
    | (rcases he with he | he
       · subst he; rfl
       · exact freemem_loop_calls env 3 0 e he)

/-- The steps of a pass result to which steps are prepended. -/
theorem PassResult.prepend_trace (evs : List Ev) (r : PassResult) :
    (r.prepend evs).trace = evs ++ r.trace := by
  cases r <;> rfl

/-- Prepending steps leaves the lock as it is. -/
theorem PassResult.prepend_fd_lock (evs : List Ev) (r : PassResult) :
    (r.prepend evs).fd_lock = r.fd_lock := by
  cases r <;> rfl

/-- The label `error_out:` leaves the lock not held. -/
theorem create_domain_error_out_fd_lock (info : domain_create) (st : CreateState)
    (env : PassEnv) (trace : List Ev) :
    (create_domain_error_out info st env trace).fd_lock < 0 :=
  release_lock_fd_lock st.fd_lock env.unlock_interrupted env.unlock_rc

/-- The label `error_out:` adds steps that bring no domain up. -/
theorem create_domain_error_out_trace (info : domain_create) (st : CreateState)
    (env : PassEnv) (trace : List Ev) :
    ∃ tail, (create_domain_error_out info st env trace).trace = trace ++ tail
      ∧ ∀ e ∈ tail, e.is_bringup = false := by
  refine ⟨(release_lock st.fd_lock env.unlock_interrupted env.unlock_rc).calls
      ++ (if libxl_domid_valid_guest st.domid then [Ev.domain_destroy st.domid] else []), ?_, ?_⟩
  · simp [create_domain_error_out, create_domain_out, Run.of]
  · intro e he
    rw [List.mem_append] at he
    rcases he with he | he
    · exact release_lock_calls _ _ _ e he
    · split_ifs at he
      · simp at he; subst he; rfl
      · simp at he

/-- The first part of a pass leaves the lock not held. -/
theorem create_domain_bringup_fd_lock (info : domain_create) (st : CreateState)
    (env : PassEnv) (h : st.fd_lock < 0) :
    (create_domain_bringup info st env).fd_lock < 0 := by
  unfold create_domain_bringup
  simp only []
  split_ifs
  all_goals first
    | exact h
    | exact create_domain_error_out_fd_lock _ _ _ _
    | exact release_lock_fd_lock _ _ _

/-- The selection of the bring-up call does not depend on the lock. -/
theorem create_domain_call_fd_lock (info : domain_create) (st : CreateState) (env : PassEnv)
    (fd : Int) :
    (create_domain_call info { st with fd_lock := fd } env).1 = (create_domain_call info st env).1
    ∧ (create_domain_call info st env).1.is_bringup = true
    ∧ (create_domain_call info st env).2.restoring = false := by
  unfold create_domain_call
  by_cases h1 : st.restoring = true
  · simp [h1, Ev.is_bringup]
  · by_cases h2 : st.domid_soft_reset = INVALID_DOMID
    · simp [h1, h2, Ev.is_bringup]
    · simp [h1, h2, Ev.is_bringup]

/-- The steps before the bring-up call bring no domain up. -/
theorem create_domain_bringup_prelude_calls (st : CreateState) (env : PassEnv) :
    ∀ e ∈ create_domain_bringup_prelude st env, e.is_bringup = false := by
  intro e he
  unfold create_domain_bringup_prelude at he
  simp only [List.mem_append] at he
  rcases he with (he | he) | he
  · exact acquire_lock_calls _ _ e he
  · split_ifs at he
    · simp only [List.mem_append, List.mem_singleton] at he
      rcases he with he | he
      · exact freemem_calls _ e he
      · subst he; rfl
    · simp at he
  · split_ifs at he
    · simp at he; subst he; rfl
    · simp at he

/-- The ways in which the first part of a pass ends: without a bring-up call
(failed assertion, lock, `freemem` or pipe failure), or with the selected call
made after the lock was acquired and, outside a soft reset, `freemem` gave
true; the call is followed by `error_out:` when it failed and by
`release_lock` when it succeeded. -/
theorem create_domain_bringup_cases (info : domain_create) (st : CreateState) (env : PassEnv) :
    (∃ r, create_domain_bringup info st env = .failed r
        ∧ (∀ e ∈ r.trace, e.is_bringup = false)
        ∧ (st.domid ≠ INVALID_DOMID ∨ (acquire_lock st.fd_lock env.lock).rc < 0
            ∨ (st.domid_soft_reset = INVALID_DOMID ∧ (freemem env.freemem).1 = false)
            ∨ (st.console_autoconnect = true ∧ env.pipe_rc ≠ 0)))
    ∨ (st.domid = INVALID_DOMID ∧ ¬ (acquire_lock st.fd_lock env.lock).rc < 0
        ∧ (st.domid_soft_reset = INVALID_DOMID → (freemem env.freemem).1 = true)
        ∧ (st.console_autoconnect = true → env.pipe_rc = 0)
        ∧ ((∃ r tail, create_domain_bringup info st env = .failed r
              ∧ env.bringup_ret ≠ 0
              ∧ r.trace = create_domain_bringup_prelude st env
                  ++ [(create_domain_call info st env).1] ++ tail
              ∧ ∀ e ∈ tail, e.is_bringup = false)
            ∨ (∃ st1, create_domain_bringup info st env
                  = .created
                      (create_domain_bringup_prelude st env
                        ++ [(create_domain_call info st env).1]
                        ++ (release_lock (acquire_lock st.fd_lock env.lock).fd_lock
                              env.unlock_interrupted env.unlock_rc).calls) st1
                ∧ env.bringup_ret = 0
                ∧ st1.restoring = false
                ∧ st1.fd_lock < 0))) := by
  have hcall := create_domain_call_fd_lock info st env (acquire_lock st.fd_lock env.lock).fd_lock
  by_cases hd : st.domid = INVALID_DOMID
  swap
  · left
    refine ⟨Run.of st .abort [], ?_, ?_, Or.inl hd⟩
    · simp [create_domain_bringup, hd]
    · intro e he
      simp [Run.of] at he
  by_cases hl : (acquire_lock st.fd_lock env.lock).rc < 0
  · left
    obtain ⟨tail, htr, htail⟩ := create_domain_error_out_trace info
      { st with fd_lock := (acquire_lock st.fd_lock env.lock).fd_lock } env
      (acquire_lock st.fd_lock env.lock).calls
    refine ⟨create_domain_error_out info
      { st with fd_lock := (acquire_lock st.fd_lock env.lock).fd_lock } env
      (acquire_lock st.fd_lock env.lock).calls, ?_, ?_, Or.inr (Or.inl hl)⟩
    · simp only [create_domain_bringup, hd, hl, ne_eq, not_true_eq_false, if_false, if_true]
    · intro e he
      rw [htr, List.mem_append] at he
      rcases he with he | he
      · exact acquire_lock_calls _ _ e he
      · exact htail e he
  by_cases hf : st.domid_soft_reset = INVALID_DOMID ∧ (freemem env.freemem).1 = false
  · left
    obtain ⟨hsr, hfm⟩ := hf
    obtain ⟨tail, htr, htail⟩ := create_domain_error_out_trace info
      { st with fd_lock := (acquire_lock st.fd_lock env.lock).fd_lock, ret := ERROR_FAIL } env
      ((acquire_lock st.fd_lock env.lock).calls
        ++ ((freemem env.freemem).2 ++ [Ev.freemem (freemem env.freemem).1]))
    refine ⟨create_domain_error_out info
      { st with fd_lock := (acquire_lock st.fd_lock env.lock).fd_lock, ret := ERROR_FAIL } env
      ((acquire_lock st.fd_lock env.lock).calls
        ++ ((freemem env.freemem).2 ++ [Ev.freemem (freemem env.freemem).1])), ?_, ?_,
      Or.inr (Or.inr (Or.inl ⟨hsr, hfm⟩))⟩
    · simp only [create_domain_bringup, hd, hl, hsr, hfm, ne_eq, not_true_eq_false, if_false,
        if_true, Bool.false_eq_true, not_false_eq_true]
    · intro e he
      rw [htr] at he
      simp only [List.mem_append, List.mem_singleton] at he
      rcases he with (he | he | he) | he
      · exact acquire_lock_calls _ _ e he
      · exact freemem_calls _ e he
      · subst he; rfl
      · exact htail e he
  have hfm : st.domid_soft_reset = INVALID_DOMID → (freemem env.freemem).1 = true := by
    intro hsr
    cases hb : (freemem env.freemem).1
    · exact absurd ⟨hsr, hb⟩ hf
    · rfl
  have hfm1 : (if st.domid_soft_reset = INVALID_DOMID then
        ((freemem env.freemem).1,
          (freemem env.freemem).2 ++ [Ev.freemem (freemem env.freemem).1])
      else (true, [])).1 = true := by
    split_ifs with hsr
    · exact hfm hsr
    · rfl
  have hfm2 : (if st.domid_soft_reset = INVALID_DOMID then
        ((freemem env.freemem).1,
          (freemem env.freemem).2 ++ [Ev.freemem (freemem env.freemem).1])
      else (true, [])).2
      = (if st.domid_soft_reset = INVALID_DOMID then
          (freemem env.freemem).2 ++ [Ev.freemem (freemem env.freemem).1]
        else []) := by
    split_ifs <;> rfl
  by_cases hp : st.console_autoconnect = true ∧ env.pipe_rc ≠ 0
  · left
    obtain ⟨tail, htr, htail⟩ := create_domain_error_out_trace info
      { st with fd_lock := (acquire_lock st.fd_lock env.lock).fd_lock, ret := ERROR_FAIL } env
      (create_domain_bringup_prelude st env)
    refine ⟨create_domain_error_out info
      { st with fd_lock := (acquire_lock st.fd_lock env.lock).fd_lock, ret := ERROR_FAIL } env
      (create_domain_bringup_prelude st env), ?_, ?_, Or.inr (Or.inr (Or.inr hp))⟩
    · simp [create_domain_bringup, create_domain_bringup_prelude, hd, hl, hfm1, hfm2, hp]
    · intro e he
      rw [htr, List.mem_append] at he
      rcases he with he | he
      · exact create_domain_bringup_prelude_calls _ _ e he
      · exact htail e he
  have hpipe : st.console_autoconnect = true → env.pipe_rc = 0 := by
    intro hc
    by_contra hne
    exact hp ⟨hc, hne⟩
  right
  refine ⟨hd, hl, hfm, hpipe, ?_⟩
  by_cases hb : env.bringup_ret = 0
  · right
    refine ⟨{ (create_domain_call info
        { st with fd_lock := (acquire_lock st.fd_lock env.lock).fd_lock } env).2 with
        fd_lock := (release_lock (create_domain_call info
          { st with fd_lock := (acquire_lock st.fd_lock env.lock).fd_lock } env).2.fd_lock
          env.unlock_interrupted env.unlock_rc).fd_lock }, ?_, hb, ?_, ?_⟩
    · by_cases hr : st.restoring = true <;> by_cases hs : st.domid_soft_reset = INVALID_DOMID
        <;> simp [create_domain_bringup, create_domain_bringup_prelude, create_domain_call, hd,
          hl, hfm1, hfm2, hp, hb, hr, hs, hfm]
    · exact (create_domain_call_fd_lock info
        { st with fd_lock := (acquire_lock st.fd_lock env.lock).fd_lock } env 0).2.2
    · exact release_lock_fd_lock _ _ _
  · left
    obtain ⟨tail, htr, htail⟩ := create_domain_error_out_trace info
      (create_domain_call info
        { st with fd_lock := (acquire_lock st.fd_lock env.lock).fd_lock } env).2 env
      (create_domain_bringup_prelude st env ++ [(create_domain_call info st env).1])
    refine ⟨create_domain_error_out info
      (create_domain_call info
        { st with fd_lock := (acquire_lock st.fd_lock env.lock).fd_lock } env).2 env
      (create_domain_bringup_prelude st env ++ [(create_domain_call info st env).1]),
      tail, ?_, hb, htr, htail⟩
    by_cases hr : st.restoring = true <;> by_cases hs : st.domid_soft_reset = INVALID_DOMID
      <;> simp [create_domain_bringup, create_domain_bringup_prelude, create_domain_call, hd,
        hl, hfm1, hfm2, hp, hb, hr, hs, hfm]

/-- Steps that bring no domain up can be prepended. -/
theorem PassResult.keeps_prepend (r : PassResult) (st : CreateState) (evs : List Ev)
    (h : r.keeps st) (hevs : ∀ e ∈ evs, e.is_bringup = false) : (r.prepend evs).keeps st := by
  obtain ⟨h1, h2, h3⟩ := h
  refine ⟨?_, ?_, ?_⟩
  · rw [PassResult.prepend_fd_lock]; exact h1
  · intro e he
    rw [PassResult.prepend_trace, List.mem_append] at he
    rcases he with he | he
    · exact hevs e he
    · exact h2 e he
  · intro tr st1 heq
    cases r with
    | done r0 => simp [PassResult.prepend] at heq
    | restart tr0 st0 =>
      simp only [PassResult.prepend, PassResult.restart.injEq] at heq
      rw [← heq.2]
      exact h3 tr0 st0 rfl

/-- Only `fd_lock` and `restoring` of the state matter. -/
theorem PassResult.keeps_congr (r : PassResult) (st st0 : CreateState)
    (h : r.keeps st) (hfd : st.fd_lock = st0.fd_lock) (hr : st.restoring = st0.restoring) :
    r.keeps st0 := by
  obtain ⟨h1, h2, h3⟩ := h
  exact ⟨h1.trans hfd, h2, fun tr st1 heq => (h3 tr st1 heq).trans hr⟩

/-- A pass that ends at `out:`. -/
theorem PassResult.keeps_out (info : domain_create) (st st0 : CreateState) (tr : List Ev)
    (hfd : st0.fd_lock = st.fd_lock) (htr : ∀ e ∈ tr, e.is_bringup = false) :
    (PassResult.done (create_domain_out info st0 tr)).keeps st :=
  ⟨hfd, htr, fun _ _ heq => by cases heq⟩

/-- A pass that ends otherwise. -/
theorem PassResult.keeps_of (st st0 : CreateState) (e0 : End) (tr : List Ev)
    (hfd : st0.fd_lock = st.fd_lock) (htr : ∀ e ∈ tr, e.is_bringup = false) :
    (PassResult.done (Run.of st0 e0 tr)).keeps st :=
  ⟨hfd, htr, fun _ _ heq => by cases heq⟩

/-- The calls of `reload_domain_config` bring no domain up. -/
theorem reload_domain_config_calls (env : ReloadEnv) (domid : Nat) (c : libxl_domain_config) :
    ∀ e ∈ (reload_domain_config env domid c).2, e.is_bringup = false := by
  unfold reload_domain_config
  split_ifs <;> simp [Ev.is_bringup]

/-- The calls of `handle_domain_death` bring no domain up. -/
theorem handle_domain_death_calls (env : DeathEnv) (domid : Nat)
    (reason : libxl_shutdown_reason) (c : libxl_domain_config) (r : DeathResult)
    (h : handle_domain_death env domid reason c = some r) :
    ∀ e ∈ r.calls, e.is_bringup = false := by
  have hreload := reload_domain_config_calls env.reload domid c
  unfold handle_domain_death at h
  cases hact : handle_domain_death_action reason c with
  | none =>
    rw [hact] at h
    simp [domain_restart_type.of_int] at h
    subst h
    simp
  | some a =>
    rw [hact] at h
    cases a <;> simp at h <;> subst h <;> intro e he
      <;> simp only [List.mem_append, List.mem_singleton, List.mem_cons, List.not_mem_nil,
        List.nil_append, or_false, false_or] at he
    all_goals first
      | (subst he; rfl)
      | (rcases he with he | he
         · exact hreload e he
         · subst he; rfl)
      | (rcases he with he | he
         · subst he; rfl
         · subst he; rfl)
      | (rcases he with he | he | he
         · subst he; rfl
         · exact hreload e he
         · subst he; rfl)
      | exact hreload e he

/-- The calls of `preserve_domain` bring no domain up. -/
theorem preserve_domain_calls (env : PreserveEnv) (domid : Nat) :
    ∀ e ∈ (preserve_domain env domid).2.2, e.is_bringup = false := by
  unfold preserve_domain
  split_ifs <;> simp [Ev.is_bringup]

/-- The case `DOMAIN_RESTART_NORMAL` keeps the lock and `restoring`. -/
theorem create_domain_restart_keeps (st : CreateState) (a : ShutdownEnv) (tr : List Ev)
    (htr : ∀ e ∈ tr, e.is_bringup = false) : (create_domain_restart st a tr).keeps st := by
  refine ⟨rfl, ?_, ?_⟩
  · intro e he
    simp only [create_domain_restart, PassResult.trace, List.mem_append, List.mem_singleton]
      at he
    rcases he with he | he
    · exact htr e he
    · subst he; rfl
  · intro tr1 st1 heq
    simp only [create_domain_restart, PassResult.restart.injEq] at heq
    rw [← heq.2]

/-- The case `DOMAIN_RESTART_RENAME` keeps the lock and `restoring`. -/
theorem create_domain_rename_keeps (info : domain_create) (st : CreateState) (a : ShutdownEnv)
    (tr : List Ev) (htr : ∀ e ∈ tr, e.is_bringup = false) :
    (create_domain_rename info st a tr).keeps st := by
  have hp := preserve_domain_calls a.preserve st.domid
  have happ : ∀ e ∈ tr ++ (preserve_domain a.preserve st.domid).2.2, e.is_bringup = false := by
    intro e he
    rw [List.mem_append] at he
    rcases he with he | he
    · exact htr e he
    · exact hp e he
  unfold create_domain_rename
  simp only []
  split_ifs
  · exact PassResult.keeps_out info st _ _ rfl happ
  · exact PassResult.keeps_congr _ _ st (create_domain_restart_keeps _ a _ happ) rfl rfl
  · exact create_domain_restart_keeps st a tr htr

/-- The handling of a shutdown event keeps the lock and `restoring`. -/
theorem create_domain_shutdown_keeps (info : domain_create) (st : CreateState)
    (reason : libxl_shutdown_reason) (a : ShutdownEnv) :
    (create_domain_shutdown info st reason a).keeps st := by
  unfold create_domain_shutdown
  cases h : handle_domain_death a.death st.domid reason st.d_config with
  | none =>
    exact PassResult.keeps_of st st _ _ rfl (by simp)
  | some r =>
    have hc := handle_domain_death_calls a.death st.domid reason st.d_config r h
    simp only []
    cases r.restart
    · exact PassResult.keeps_out info st _ _ rfl hc
    · exact PassResult.keeps_congr _ _ st (create_domain_restart_keeps _ a _ hc) rfl rfl
    · exact PassResult.keeps_congr _ _ st (create_domain_rename_keeps info _ a _ hc) rfl rfl
    · exact PassResult.keeps_congr _ _ st (create_domain_rename_keeps info _ a _ hc) rfl rfl

/-- The wait loop keeps the lock and `restoring`, and brings no domain up. -/
theorem create_domain_wait_keeps (info : domain_create) (evs : List WaitResult) :
    ∀ st : CreateState, (create_domain_wait info st evs).keeps st := by
  induction evs with
  | nil =>
    intro st
    exact PassResult.keeps_of st st _ _ rfl (by simp)
  | cons w rest ih =>
    intro st
    cases w with
    | failed code =>
      exact PassResult.keeps_out info st _ _ rfl (by simp [Ev.is_bringup])
    | event d ev =>
      unfold create_domain_wait
      split_ifs with hd
      · exact PassResult.keeps_prepend _ _ _ (ih st) (by simp [Ev.is_bringup])
      · cases ev with
        | domain_shutdown reason a =>
          exact PassResult.keeps_prepend _ _ _
            (PassResult.keeps_congr _ _ st (create_domain_shutdown_keeps info _ reason a) rfl rfl)
            (by simp [Ev.is_bringup])
        | domain_death =>
          exact PassResult.keeps_out info st _ _ rfl (by simp [Ev.is_bringup])
        | disk_eject =>
          exact PassResult.keeps_prepend _ _ _
            (PassResult.keeps_congr _ _ st (ih _) rfl rfl) (by simp [Ev.is_bringup])
        | other t =>
          exact PassResult.keeps_prepend _ _ _
            (PassResult.keeps_congr _ _ st (ih _) rfl rfl) (by simp [Ev.is_bringup])

/-- The enabling of the disk-eject events brings no domain up. -/
theorem evenable_disk_ejects_calls (domid : Nat) (l : List Int) :
    ∀ e ∈ (evenable_disk_ejects domid l).2, e.is_bringup = false := by
  induction l with
  | nil => intro e he; simp [evenable_disk_ejects] at he
  | cons r rest ih =>
    intro e he
    unfold evenable_disk_ejects at he
    split_ifs at he
    · simp at he; subst he; rfl
    · simp only [List.mem_cons] at he
      rcases he with he | he
      · subst he; rfl
      · exact ih e he

/-- Prepending twice is prepending the concatenation. -/
theorem PassResult.prepend_prepend (a b : List Ev) (r : PassResult) :
    (r.prepend a).prepend b = r.prepend (b ++ a) := by
  cases r <;> simp [PassResult.prepend, Run.prepend]

/-- The enabling of the events and the wait loop only append steps that bring
no domain up, and keep the lock and `restoring`. -/
theorem create_domain_events_keeps (info : domain_create) (st : CreateState) (env : PassEnv)
    (pre : List Ev) :
    ∃ r : PassResult, create_domain_events info st env pre = r.prepend pre ∧ r.keeps st := by
  have hej := evenable_disk_ejects_calls st.domid env.evenable_eject_ret
  unfold create_domain_events
  simp only []
  split_ifs with h1
  · exact ⟨.done (create_domain_out info { st with ret := env.evenable_death_ret }
        [.evenable_domain_death st.domid env.evenable_death_ret]), rfl,
      PassResult.keeps_out info st _ _ rfl (by simp [Ev.is_bringup])⟩
  · have hpre : ∀ e ∈ [Ev.evenable_domain_death st.domid env.evenable_death_ret]
        ++ (evenable_disk_ejects st.domid env.evenable_eject_ret).2, e.is_bringup = false := by
      intro e he
      rw [List.mem_append, List.mem_singleton] at he
      rcases he with he | he
      · subst he; rfl
      · exact hej e he
    cases hm : (evenable_disk_ejects st.domid env.evenable_eject_ret).1 with
    | some r =>
      refine ⟨.done (create_domain_out info { st with ret := r }
        ([.evenable_domain_death st.domid env.evenable_death_ret]
          ++ (evenable_disk_ejects st.domid env.evenable_eject_ret).2)), ?_,
        PassResult.keeps_out info st _ _ rfl hpre⟩
      simp [PassResult.prepend, Run.prepend, create_domain_out, Run.of]
    | none =>
      refine ⟨(create_domain_wait info { st with ret := 0 } env.events).prepend
        ([.evenable_domain_death st.domid env.evenable_death_ret]
          ++ (evenable_disk_ejects st.domid env.evenable_eject_ret).2), ?_,
        PassResult.keeps_prepend _ _ _
          (PassResult.keeps_congr _ _ st (create_domain_wait_keeps info env.events _) rfl rfl)
          hpre⟩
      simp [PassResult.prepend_prepend, List.append_assoc]

/-- The second part of a pass only appends steps that bring no domain up, and
keeps the lock and `restoring`. -/
theorem create_domain_monitor_keeps (info : domain_create) (st : CreateState) (env : PassEnv)
    (trace : List Ev) :
    ∃ r : PassResult, create_domain_monitor info st env trace = r.prepend trace ∧ r.keeps st := by
  have hun : ∀ e ∈ (if ¬ st.paused then [Ev.domain_unpause st.domid env.unpause_rc] else []),
      e.is_bringup = false := by
    split_ifs <;> simp [Ev.is_bringup]
  have hvnc : ∀ e ∈ (if info.vnc then [Ev.vncviewer st.domid] else []),
      e.is_bringup = false := by
    split_ifs <;> simp [Ev.is_bringup]
  unfold create_domain_monitor
  simp only []
  generalize (if ¬ st.paused then [Ev.domain_unpause st.domid env.unpause_rc] else []) = un
    at hun ⊢
  generalize (if info.vnc then [Ev.vncviewer st.domid] else []) = vn at hvnc ⊢
  have hdd : ∀ e ∈ un ++ vn ++ [Ev.do_daemonize], e.is_bringup = false := by
    intro e he
    simp only [List.mem_append, List.mem_singleton] at he
    rcases he with (he | he) | he
    · exact hun e he
    · exact hvnc e he
    · subst he; rfl
  have hnd : ∀ e ∈ un ++ vn, e.is_bringup = false := by
    intro e he
    simp only [List.mem_append] at he
    rcases he with he | he
    · exact hun e he
    · exact hvnc e he
  have hof : ∀ e0 : End,
      PassResult.done (Run.of { st with ret := int_of_u32 st.domid } e0
          (trace ++ un ++ vn ++ [Ev.do_daemonize]))
        = (PassResult.done (Run.of { st with ret := int_of_u32 st.domid } e0
            (un ++ vn ++ [Ev.do_daemonize]))).prepend trace := by
    intro e0
    simp [PassResult.prepend, Run.prepend, Run.of]
  by_cases h1 : ¬ info.daemonize ∧ ¬ info.monitor
  · rw [if_pos h1]
    exact ⟨.done (create_domain_out info { st with ret := int_of_u32 st.domid } un), rfl,
      PassResult.keeps_out info st _ _ rfl hun⟩
  rw [if_neg h1]
  by_cases h2 : st.need_daemon = true
  · rw [if_pos h2]
    cases hd : do_daemonize env.daemonize with
    | ret dret =>
      simp only []
      by_cases h3 : dret ≠ 0
      · rw [if_pos h3]
        refine ⟨.done (create_domain_out info
            { st with ret := if dret = 1 then int_of_u32 st.domid else dret }
            (un ++ vn ++ [Ev.do_daemonize])), ?_,
          PassResult.keeps_out info st _ _ rfl hdd⟩
        simp [PassResult.prepend, Run.prepend, create_domain_out, Run.of]
      · rw [if_neg h3]
        obtain ⟨r, heq, hk⟩ := create_domain_events_keeps info
          { st with ret := dret, need_daemon := false } env
          (trace ++ un ++ vn ++ [Ev.do_daemonize])
        refine ⟨r.prepend (un ++ vn ++ [Ev.do_daemonize]), ?_,
          PassResult.keeps_prepend _ _ _ (PassResult.keeps_congr _ _ st hk rfl rfl) hdd⟩
        rw [PassResult.prepend_prepend, ← List.append_assoc, ← List.append_assoc]
        exact heq
    | exit code => exact ⟨_, hof _, PassResult.keeps_of st _ _ _ rfl hdd⟩
    | abort => exact ⟨_, hof _, PassResult.keeps_of st _ _ _ rfl hdd⟩
    | oversize sz => exact ⟨_, hof _, PassResult.keeps_of st _ _ _ rfl hdd⟩
    | blocked => exact ⟨_, hof _, PassResult.keeps_of st _ _ _ rfl hdd⟩
    | unfinished => exact ⟨_, hof _, PassResult.keeps_of st _ _ _ rfl hdd⟩
  · rw [if_neg h2]
    obtain ⟨r, heq, hk⟩ := create_domain_events_keeps info
      { st with ret := int_of_u32 st.domid } env (trace ++ un ++ vn)
    refine ⟨r.prepend (un ++ vn), ?_,
      PassResult.keeps_prepend _ _ _ (PassResult.keeps_congr _ _ st hk rfl rfl) hnd⟩
    rw [PassResult.prepend_prepend, ← List.append_assoc]
    exact heq

/-- A restore is one of the three bring-up calls. -/
theorem not_restore_of_not_bringup (l : List Ev) (h : ∀ e ∈ l, e.is_bringup = false)
    (v : Nat) (c : libxl_checkpointed_stream) (x : Int) :
    Ev.domain_create_restore v c x ∉ l := fun hmem => by
  have := h _ hmem
  simp [Ev.is_bringup] at this

/-- Outside a restoring pass the bring-up call is no restore. -/
theorem create_domain_call_not_restore (info : domain_create) (st : CreateState)
    (env : PassEnv) (h : st.restoring = false) (v : Nat) (c : libxl_checkpointed_stream)
    (x : Int) : (create_domain_call info st env).1 ≠ Ev.domain_create_restore v c x := by
  unfold create_domain_call
  rw [h]
  simp only [Bool.false_eq_true, if_false]
  split_ifs <;> simp

/-- The shape of a whole pass: it ends without a bring-up call, or its steps
are those before the call, the call selected by mode, and steps that bring no
domain up; it leaves the lock not held; a jump back to `start:` is made with
`restoring` cleared. -/
theorem create_domain_start_cases (info : domain_create) (st : CreateState) (env : PassEnv) :
    ((∀ e ∈ (create_domain_start info st env).trace, e.is_bringup = false)
        ∧ (∃ r, create_domain_start info st env = .done r)
        ∧ (st.domid ≠ INVALID_DOMID ∨ (acquire_lock st.fd_lock env.lock).rc < 0
            ∨ (st.domid_soft_reset = INVALID_DOMID ∧ (freemem env.freemem).1 = false)
            ∨ (st.console_autoconnect = true ∧ env.pipe_rc ≠ 0))
        ∧ (st.fd_lock < 0 → (create_domain_start info st env).fd_lock < 0))
    ∨ (st.domid = INVALID_DOMID ∧ ¬ (acquire_lock st.fd_lock env.lock).rc < 0
        ∧ (st.domid_soft_reset = INVALID_DOMID → (freemem env.freemem).1 = true)
        ∧ (st.console_autoconnect = true → env.pipe_rc = 0)
        ∧ (∃ tail, (create_domain_start info st env).trace
              = create_domain_bringup_prelude st env ++ [(create_domain_call info st env).1]
                  ++ tail
            ∧ (∀ e ∈ tail, e.is_bringup = false))
        ∧ (create_domain_start info st env).fd_lock < 0
        ∧ (∀ tr st1, create_domain_start info st env = .restart tr st1 →
            st1.restoring = false)) := by
  rcases create_domain_bringup_cases info st env with
    ⟨r, hb, hno, hwhy⟩ | ⟨hd, hl, hfm, hpipe, ⟨r, tail, hb, -, htr, htail⟩ | ⟨st1, hb, -, hres, hfd⟩⟩
  · left
    have hfdl := create_domain_bringup_fd_lock info st env
    unfold create_domain_start
    rw [hb] at hfdl ⊢
    exact ⟨hno, ⟨r, rfl⟩, hwhy, hfdl⟩
  · right
    have hfdl := create_domain_bringup_fd_lock info st env
    refine ⟨hd, hl, hfm, hpipe, ?_⟩
    unfold create_domain_start
    rw [hb] at hfdl ⊢
    refine ⟨⟨tail, htr, htail⟩, ?_, fun tr st1 heq => by cases heq⟩
    have hcases := create_domain_bringup_cases info st env
    rw [hb] at hcases
    rcases hcases with ⟨r0, hr0, -, -⟩ | ⟨-, -, -, -, ⟨r0, tail0, hr0, -, -, -⟩ | ⟨st1, hc, -⟩⟩
    · cases hr0
      by_cases hneg : st.fd_lock < 0
      · exact hfdl hneg
      · exfalso
        apply hl
        unfold acquire_lock
        rw [if_pos (not_lt.mp hneg)]
        show ERROR_INVAL < 0
        decide
    · cases hr0
      by_cases hneg : st.fd_lock < 0
      · exact hfdl hneg
      · exfalso
        apply hl
        unfold acquire_lock
        rw [if_pos (not_lt.mp hneg)]
        show ERROR_INVAL < 0
        decide
    · cases hc
  · right
    refine ⟨hd, hl, hfm, hpipe, ?_⟩
    unfold create_domain_start
    rw [hb]
    simp only []
    obtain ⟨r, heq, hk1, hk2, hk3⟩ := create_domain_monitor_keeps info st1 env
      (create_domain_bringup_prelude st env ++ [(create_domain_call info st env).1]
        ++ (release_lock (acquire_lock st.fd_lock env.lock).fd_lock env.unlock_interrupted
              env.unlock_rc).calls)
    rw [heq]
    refine ⟨⟨(release_lock (acquire_lock st.fd_lock env.lock).fd_lock env.unlock_interrupted
              env.unlock_rc).calls ++ r.trace, ?_, ?_⟩, ?_, ?_⟩
    · rw [PassResult.prepend_trace, List.append_assoc]
    · intro e he
      rw [List.mem_append] at he
      rcases he with he | he
      · exact release_lock_calls _ _ _ e he
      · exact hk2 e he
    · rw [PassResult.prepend_fd_lock, hk1]
      exact hfd
    · intro tr st2 heq2
      cases r with
      | done r0 => simp [PassResult.prepend] at heq2
      | restart tr0 st0 =>
        simp only [PassResult.prepend, PassResult.restart.injEq] at heq2
        rw [← heq2.2, hk3 tr0 st0 rfl]
        exact hres

/-- Whatever the passes, they leave the lock not held. -/
theorem create_domain_passes_fd_lock (info : domain_create) (envs : List PassEnv) :
    ∀ st : CreateState, st.fd_lock < 0 → (create_domain_passes info st envs).fd_lock < 0 := by
  induction envs with
  | nil => intro st h; exact h
  | cons env rest ih =>
    intro st h
    have hfd : (create_domain_start info st env).fd_lock < 0 := by
      rcases create_domain_start_cases info st env with ⟨-, -, -, h1⟩ | ⟨-, -, -, -, -, h1, -⟩
      · exact h1 h
      · exact h1
    unfold create_domain_passes
    cases hs : create_domain_start info st env with
    | done r =>
      rw [hs] at hfd
      exact hfd
    | restart tr st1 =>
      rw [hs] at hfd
      exact ih st1 hfd

/-- A pass entered with `restoring` cleared calls no restore. -/
theorem create_domain_start_no_restore (info : domain_create) (st : CreateState)
    (env : PassEnv) (h : st.restoring = false) (v : Nat) (c : libxl_checkpointed_stream)
    (x : Int) : Ev.domain_create_restore v c x ∉ (create_domain_start info st env).trace := by
  rcases create_domain_start_cases info st env with
    ⟨h1, -, -, -⟩ | ⟨-, -, -, -, ⟨tail, htr, htail⟩, -, -⟩
  · exact not_restore_of_not_bringup _ h1 v c x
  · rw [htr]
    intro hmem
    simp only [List.mem_append, List.mem_singleton] at hmem
    rcases hmem with (hmem | hmem) | hmem
    · exact not_restore_of_not_bringup _ (create_domain_bringup_prelude_calls st env) v c x hmem
    · exact create_domain_call_not_restore info st env h v c x hmem.symm
    · exact not_restore_of_not_bringup _ htail v c x hmem

/-- Passes entered with `restoring` cleared call no restore. -/
theorem create_domain_passes_no_restore (info : domain_create) (envs : List PassEnv) :
    ∀ st : CreateState, st.restoring = false →
      ∀ v c x, Ev.domain_create_restore v c x ∉ (create_domain_passes info st envs).trace := by
  induction envs with
  | nil =>
    intro st _ v c x hmem
    simp [create_domain_passes, Run.of] at hmem
  | cons env rest ih =>
    intro st h v c x
    have h1 := create_domain_start_no_restore info st env h v c x
    have h2 : ∀ tr st1, create_domain_start info st env = .restart tr st1 →
        st1.restoring = false := by
      rcases create_domain_start_cases info st env with
        ⟨-, ⟨r, hr⟩, -, -⟩ | ⟨-, -, -, -, -, -, h2⟩
      · intro tr st1 heq
        rw [hr] at heq
        cases heq
      · exact h2
    unfold create_domain_passes
    cases hs : create_domain_start info st env with
    | done r =>
      rw [hs] at h1
      exact h1
    | restart tr st1 =>
      rw [hs] at h1
      simp only [Run.prepend, List.mem_append]
      intro hmem
      rcases hmem with hmem | hmem
      · exact h1 hmem
      · exact ih st1 (h2 tr st1 hs) v c x hmem

/-- The function `create_domain` leaves the lock not held when it is entered so. -/
theorem create_domain_fd_lock (P : Platform) (info : domain_create) (env : CreateEnv)
    (fd_lock : Int) (h : fd_lock < 0) : (create_domain P info env fd_lock).fd_lock < 0 := by
  have hconf : ∀ restoring flags unread config,
      (create_domain_configured info env fd_lock restoring flags unread config).fd_lock < 0 := by
    intro restoring flags unread config
    unfold create_domain_configured
    simp only []
    split_ifs
    all_goals first
      | exact h
      | exact create_domain_passes_fd_lock info env.passes _ h
  unfold create_domain
  simp only []
  split
  · exact h
  · exact h
  · exact h
  · split
    · exact h
    · exact h
    · exact h
    · exact hconf _ _ _ _

set_option maxRecDepth 100000 in
/-- C18, the counterexample: `xl create` of a domain that asks for a soft reset.
The second pass acquires the lock and calls `libxl_domain_soft_reset` without
consulting `freemem`: the step `freemem` occurs once, in the first pass. -/
theorem soft_reset_pass_skips_freemem :
    (create_domain ⟨false, true⟩ domain_create.nominal
        (CreateEnv.nominal []
          [PassEnv.nominal 9 0 .child
             [.event 9 (.domain_shutdown .SOFT_RESET
                { death := { core_dump_rc := 0,
                             reload := { userdata_ret := 0, t_len := 0,
                                         updated := libxl_domain_config.nominal "vm",
                                         retrieve_rc := 0,
                                         retrieved := libxl_domain_config.nominal "vm" } },
                  preserve := { time_ok := true, preserve_rc := 0 },
                  event_check_ret := -1 })],
           PassEnv.nominal 9 0 .child [.event 9 .domain_death]]) (-1)).trace
      = [Ev.parse_config false (ascii "name=\"vm\"") 9,
         Ev.lock_open 7, Ev.lock_setfd 0, Ev.lock_wait 0 0,
         Ev.freemem true,
         Ev.domain_create_new 0,
         Ev.lock_release 0 0, Ev.lock_close 7,
         Ev.domain_unpause 9 0, Ev.do_daemonize, Ev.evenable_domain_death 9 0,
         Ev.event_wait 0 9,
         Ev.userdata_retrieve 9, Ev.retrieve_domain_configuration 9 0,
         Ev.event_check (-1),
         Ev.lock_open 7, Ev.lock_setfd 0, Ev.lock_wait 0 0,
         Ev.domain_soft_reset 9 0,
         Ev.lock_release 0 0, Ev.lock_close 7,
         Ev.domain_unpause 9 0, Ev.evenable_domain_death 9 0,
         Ev.event_wait 0 9] := by
  decide

/-- C18, amended: in every pass of `create_domain` from `start:`, whatever the
state and the answers of the environment. The bring-up call is selected by
mode: restore when `restoring` is set, else soft reset when a soft reset is
pending, else fresh create. A pass makes at most one bring-up call, and any it
makes is the selected one, made with the lock acquired, with `freemem` having
given true unless a soft reset is pending, and with the console pipe made when
one is asked for. When these hold the steps of the pass are: the calls of
`acquire_lock`; then, only when no soft reset is pending, the calls of
`freemem` and its result; then the pipe if asked for; then the selected call;
then steps that bring no domain up. A jump back to `start:` is made with
`restoring` cleared, and passes entered with `restoring` cleared never call
restore. -/
theorem bringup_call_by_mode (info : domain_create) (st : CreateState) (env : PassEnv) :
    (create_domain_call info st env).1
        = (if st.restoring then
            Ev.domain_create_restore
              (if st.mandatory_flags &&& XL_MANDATORY_FLAG_STREAMv2 ≠ 0 then 2 else 1)
              info.checkpointed_stream env.bringup_ret
          else if st.domid_soft_reset ≠ INVALID_DOMID then
            Ev.domain_soft_reset st.domid_soft_reset env.bringup_ret
          else Ev.domain_create_new env.bringup_ret)
    ∧ (create_domain_start info st env).trace.countP Ev.is_bringup ≤ 1
    ∧ (∀ e ∈ (create_domain_start info st env).trace, e.is_bringup = true →
        e = (create_domain_call info st env).1
        ∧ st.domid = INVALID_DOMID
        ∧ ¬ (acquire_lock st.fd_lock env.lock).rc < 0
        ∧ (st.domid_soft_reset = INVALID_DOMID → (freemem env.freemem).1 = true)
        ∧ (st.console_autoconnect = true → env.pipe_rc = 0))
    ∧ (st.domid = INVALID_DOMID → ¬ (acquire_lock st.fd_lock env.lock).rc < 0 →
        (st.domid_soft_reset = INVALID_DOMID → (freemem env.freemem).1 = true) →
        (st.console_autoconnect = true → env.pipe_rc = 0) →
        ∃ tail, (create_domain_start info st env).trace
            = (acquire_lock st.fd_lock env.lock).calls
              ++ (if st.domid_soft_reset = INVALID_DOMID then
                    (freemem env.freemem).2 ++ [Ev.freemem true]
                  else [])
              ++ (if st.console_autoconnect then [Ev.pipe 0] else [])
              ++ [(create_domain_call info st env).1] ++ tail
          ∧ ∀ e ∈ tail, e.is_bringup = false)
    ∧ (∀ tr st1, create_domain_start info st env = .restart tr st1 → st1.restoring = false)
    ∧ (st.restoring = false → ∀ envs v c x,
        Ev.domain_create_restore v c x ∉ (create_domain_passes info st envs).trace) := by
  refine ⟨?_, ?_, ?_, ?_, ?_, ?_⟩
  · unfold create_domain_call
    by_cases h1 : st.restoring = true
    · simp [h1]
    · by_cases h2 : st.domid_soft_reset = INVALID_DOMID
      · simp [h1, h2]
      · simp [h1, h2]
  · rcases create_domain_start_cases info st env with
      ⟨h1, -, -, -⟩ | ⟨-, -, -, -, ⟨tail, htr, htail⟩, -, -⟩
    · have : (create_domain_start info st env).trace.countP Ev.is_bringup = 0 := by
        rw [List.countP_eq_zero]
        intro e he
        rw [h1 e he]
        decide
      omega
    · have h0 : (create_domain_bringup_prelude st env).countP Ev.is_bringup = 0 := by
        rw [List.countP_eq_zero]
        intro e he
        rw [create_domain_bringup_prelude_calls st env e he]
        decide
      have h2 : tail.countP Ev.is_bringup = 0 := by
        rw [List.countP_eq_zero]
        intro e he
        rw [htail e he]
        decide
      rw [htr, List.countP_append, List.countP_append, h0, h2, List.countP_singleton]
      split_ifs <;> omega
  · intro e he hb
    rcases create_domain_start_cases info st env with
      ⟨h1, -, -, -⟩ | ⟨hd, hl, hfm, hpipe, ⟨tail, htr, htail⟩, -, -⟩
    · rw [h1 e he] at hb
      cases hb
    · refine ⟨?_, hd, hl, hfm, hpipe⟩
      rw [htr] at he
      simp only [List.mem_append, List.mem_singleton] at he
      rcases he with (he | he) | he
      · rw [create_domain_bringup_prelude_calls st env e he] at hb
        cases hb
      · exact he
      · rw [htail e he] at hb
        cases hb
  · intro hd hl hfm hpipe
    rcases create_domain_start_cases info st env with
      ⟨-, -, hwhy, -⟩ | ⟨-, -, -, -, ⟨tail, htr, htail⟩, -, -⟩
    · exfalso
      rcases hwhy with h | h | ⟨h1, h2⟩ | ⟨h1, h2⟩
      · exact h hd
      · exact hl h
      · rw [hfm h1] at h2
        cases h2
      · exact h2 (hpipe h1)
    · refine ⟨tail, ?_, htail⟩
      rw [htr]
      unfold create_domain_bringup_prelude
      by_cases hs : st.domid_soft_reset = INVALID_DOMID
      · by_cases hc : st.console_autoconnect = true
        · simp [hs, hc, hfm hs, hpipe hc]
        · simp [hs, hc, hfm hs]
      · by_cases hc : st.console_autoconnect = true
        · simp [hs, hc, hpipe hc]
        · simp [hs, hc]
  · rcases create_domain_start_cases info st env with
      ⟨-, ⟨r, hr⟩, -, -⟩ | ⟨-, -, -, -, -, -, h2⟩
    · intro tr st1 heq
      rw [hr] at heq
      cases heq
    · exact h2
  · intro h envs
    exact create_domain_passes_no_restore info envs st h

/-- When `acquire_lock` succeeds the lock file is open and `fd_lock` holds its
descriptor. -/
theorem acquire_lock_ok (fd_lock : Int) (env : LockEnv)
    (h : ¬ (acquire_lock fd_lock env).rc < 0) :
    fd_lock < 0 ∧ 0 ≤ env.open_fd ∧ (acquire_lock fd_lock env).fd_lock = env.open_fd := by
  unfold acquire_lock at h ⊢
  by_cases h1 : fd_lock ≥ 0
  · rw [if_pos h1] at h
    exact absurd (show ERROR_INVAL < 0 by decide) h
  · rw [if_neg h1] at h ⊢
    by_cases h2 : env.open_fd < 0
    · rw [if_pos h2] at h
      exact absurd (show ERROR_FAIL < 0 by decide) h
    · rw [if_neg h2] at h ⊢
      by_cases h3 : env.setfd_rc < 0
      · rw [if_pos h3] at h
        exact absurd (show ERROR_FAIL < 0 by decide) h
      · rw [if_neg h3]
        exact ⟨not_le.mp h1, not_lt.mp h2, rfl⟩

/-- C19: the lock invariant of `create_domain`. Entered with the lock not held
(`fd_lock < 0`), `create_domain` ends with the lock not held, however it ends:
it returns, exits, aborts, stays blocked in the wait loop after any number of
events, or stops at `start:` after any number of passes. Pass by pass: the
first part of a pass leaves the lock not held whether it ends at `error_out:`
(lock, `freemem`, pipe or bring-up failure) or with the domain brought up; when
the domain is brought up the steps after the bring-up call are the unlock and
the close of the lock file; the rest of the pass, the wait loop included,
never changes `fd_lock`; so the state at every jump back to `start:` has the
lock not held. -/
theorem lock_invariant (P : Platform) (info : domain_create) (env : CreateEnv)
    (fd_lock : Int) (h : fd_lock < 0) :
    (create_domain P info env fd_lock).fd_lock < 0
    ∧ (∀ st penv, st.fd_lock < 0 → (create_domain_bringup info st penv).fd_lock < 0)
    ∧ (∀ st penv trace st1, create_domain_bringup info st penv = .created trace st1 →
        st1.fd_lock < 0
        ∧ ∃ pre, trace = pre ++ [(create_domain_call info st penv).1]
            ++ [Ev.lock_release penv.unlock_interrupted penv.unlock_rc,
                Ev.lock_close penv.lock.open_fd])
    ∧ (∀ st evs, (create_domain_wait info st evs).fd_lock = st.fd_lock)
    ∧ (∀ st penv trace, (create_domain_monitor info st penv trace).fd_lock = st.fd_lock)
    ∧ (∀ st penv, st.fd_lock < 0 → (create_domain_start info st penv).fd_lock < 0)
    ∧ (∀ st penvs, st.fd_lock < 0 → (create_domain_passes info st penvs).fd_lock < 0) := by
  refine ⟨create_domain_fd_lock P info env fd_lock h,
    fun st penv => create_domain_bringup_fd_lock info st penv, ?_,
    fun st evs => (create_domain_wait_keeps info evs st).1, ?_, ?_,
    fun st penvs => create_domain_passes_fd_lock info penvs st⟩
  · intro st penv trace st1 hc
    rcases create_domain_bringup_cases info st penv with
      ⟨r, hb, -, -⟩ | ⟨-, hl, -, -, ⟨r, tail, hb, -, -, -⟩ | ⟨st2, hb, -, -, hfd⟩⟩
    · rw [hb] at hc
      cases hc
    · rw [hb] at hc
      cases hc
    · rw [hb] at hc
      simp only [BringupResult.created.injEq] at hc
      obtain ⟨-, hopen, hfdl⟩ := acquire_lock_ok st.fd_lock penv.lock hl
      refine ⟨by rw [← hc.2]; exact hfd, create_domain_bringup_prelude st penv, ?_⟩
      rw [← hc.1, hfdl]
      unfold release_lock
      rw [if_neg (not_lt.mpr hopen)]
  · intro st penv trace
    obtain ⟨r, heq, hk, -, -⟩ := create_domain_monitor_keeps info st penv trace
    rw [heq, PassResult.prepend_fd_lock]
    exact hk
  · intro st penv hst
    rcases create_domain_start_cases info st penv with ⟨-, -, -, h1⟩ | ⟨-, -, -, -, -, h1, -⟩
    · exact h1 hst
    · exact h1

set_option maxRecDepth 100000 in
/-- C19 at `xl create` of a domain that reboots once and is then destroyed:
two passes, and the lock is not held at the end. -/
theorem lock_invariant_witness :
    ((-1 : Int) < 0)
    ∧ (create_domain ⟨false, true⟩ domain_create.nominal
        (CreateEnv.nominal []
          [PassEnv.nominal 9 0 .child
             [.event 9 (.domain_shutdown .REBOOT
                { death := { core_dump_rc := 0,
                             reload := { userdata_ret := 0, t_len := 0,
                                         updated := libxl_domain_config.nominal "vm",
                                         retrieve_rc := 0,
                                         retrieved := libxl_domain_config.nominal "vm" } },
                  preserve := { time_ok := true, preserve_rc := 0 },
                  event_check_ret := -1 })],
           PassEnv.nominal 10 0 .child [.event 10 .domain_death]]) (-1)).fd_lock < 0 :=
  ⟨by decide,
   (lock_invariant ⟨false, true⟩ domain_create.nominal
      (CreateEnv.nominal []
        [PassEnv.nominal 9 0 .child
           [.event 9 (.domain_shutdown .REBOOT
              { death := { core_dump_rc := 0,
                           reload := { userdata_ret := 0, t_len := 0,
                                       updated := libxl_domain_config.nominal "vm",
                                       retrieve_rc := 0,
                                       retrieved := libxl_domain_config.nominal "vm" } },
                preserve := { time_ok := true, preserve_rc := 0 },
                event_check_ret := -1 })],
         PassEnv.nominal 10 0 .child [.event 10 .domain_death]]) (-1) (by decide)).1⟩

set_option maxRecDepth 100000 in
/-- C20, the code at the failing input: `xl create` with a configuration file,
the lock file cannot be opened on the first pass. `acquire_lock` returns
`ERROR_FAIL`, no bring-up call is made, and `create_domain` returns 0 to its
caller, because `ret` still holds the 0 stored before `start:`. -/
theorem lock_failure_returns_zero :
    create_domain ⟨false, true⟩ domain_create.nominal
        (CreateEnv.nominal []
          [{ PassEnv.nominal 9 0 (.parent 0) [] with
             lock := { LockEnv.nominal with open_fd := -1 } }]) (-1)
      = { trace := [Ev.parse_config false (ascii "name=\"vm\"") 9, Ev.lock_open (-1)]
          ending := End.ret 0
          fd_lock := -1
          common_domname := none
          migration_domname := none
          unread := [] }
    ∧ (acquire_lock (-1) { LockEnv.nominal with open_fd := -1 }).rc = ERROR_FAIL := by
  constructor <;> decide

/-- What holds of C20 on every pass: when `acquire_lock` returns an error, the
pass ends `create_domain` without any bring-up call, and the value returned
(or passed to `exit` by a daemon) is the value that `ret` had at `start:`: 0
on the first pass. -/
theorem lock_failure_pass (info : domain_create) (st : CreateState) (env : PassEnv)
    (hd : st.domid = INVALID_DOMID) (hrc : (acquire_lock st.fd_lock env.lock).rc < 0) :
    ∃ r, create_domain_start info st env = PassResult.done r
      ∧ r.ending = (if info.daemonize ∧ ¬ st.need_daemon then End.exit st.ret
                    else End.ret st.ret)
      ∧ ∀ e ∈ r.trace, e.is_bringup = false := by
  unfold create_domain_start create_domain_bringup
  simp only [hd, ne_eq, not_true_eq_false, if_false, hrc, if_true]
  refine ⟨_, rfl, ?_, ?_⟩
  · simp [create_domain_error_out, create_domain_out, Run.of]
  · intro e he
    have hval : libxl_domid_valid_guest INVALID_DOMID = false := by decide
    simp only [create_domain_error_out, create_domain_out, Run.of, hd, hval] at he
    simp only [Bool.false_eq_true, if_false, List.append_nil, List.mem_append] at he
    rcases he with he | he
    · unfold acquire_lock at he
      split_ifs at he <;> simp at he <;> (try rcases he with he | he | he) <;> subst_vars <;> rfl
    · unfold release_lock at he
      split_ifs at he <;> simp at he <;> (try rcases he with he | he) <;> subst_vars <;> rfl

/-! ## Properties of the receiver -/

set_option maxRecDepth 100000 in
/-- C14, the code at the failing input: `xl migrate-receive` without options,
the sender's header, configuration, five bytes of state and "permission to go"
on the receive endpoint, and the lock file cannot be opened. `create_domain`
makes no restore call and returns 0, which `migrate_receive` takes for the
domain id 0: it writes "ready" although nothing was ingested, and goes on
with the handshake (reading the unread state bytes in place of "permission to
go") down to a destroy of domain 0. -/
theorem ready_written_without_restore :
    main_migrate_receive ⟨false, true⟩ false false false false .NONE
        (ReceiveEnv.nominal
          (save_domain_core_writeconfig_bytes ⟨false, true⟩ [123, 125, 0] 3
            ++ [1, 2, 3, 4, 5] ++ migrate_permission_to_go)
          [{ PassEnv.nominal 9 5 (.parent 0) [] with
             lock := { LockEnv.nominal with open_fd := -1 } }]) (-1)
      = ([Ev.write_exactly .banner (migrate_receiver_banner.take 54) 0,
          Ev.parse_config true [123, 125, 0] 3,
          Ev.lock_open (-1),
          Ev.write_exactly .ready_message migrate_receiver_ready 0,
          Ev.read_exactly .GO_message 44
            (some (([1, 2, 3, 4, 5] ++ migrate_permission_to_go).take 44)),
          Ev.write_exactly .report migrate_report 0,
          Ev.write_exactly .status_code [255] 0,
          Ev.domain_destroy 0,
          Ev.write_exactly .go_back migrate_permission_to_go 0],
         End.exit 0) := by
  decide


/-- The status byte of a result in the range of the receiver is zero exactly
when the result is zero. -/
theorem status_byte_ne_zero (rc : Int) (h : rc = 1 ∨ (-255 ≤ rc ∧ rc ≤ 0)) :
    status_byte rc ≠ 0 ↔ rc ≠ 0 := by
  unfold status_byte
  have key : ((-rc) % 256).toNat % 256 = 0 ↔ rc = 0 := by omega
  constructor
  · intro hb hz
    apply hb
    subst hz
    rfl
  · intro hz hb
    apply hz
    apply key.mp
    have := congrArg Fin.val hb
    simpa [Fin.ofNat] using this

/-- Prepending steps changes no name. -/
theorem PassResult.prepend_names (evs : List Ev) (r : PassResult) :
    (r.prepend evs).names = r.names := by
  cases r <;> rfl

/-- The case `DOMAIN_RESTART_NORMAL` changes no name. -/
theorem create_domain_restart_names (st : CreateState) (a : ShutdownEnv) (tr : List Ev) :
    (create_domain_restart st a tr).names = (st.common_domname, st.migration_domname) := rfl

/-- The case `DOMAIN_RESTART_RENAME` changes no name. -/
theorem create_domain_rename_names (info : domain_create) (st : CreateState) (a : ShutdownEnv)
    (tr : List Ev) :
    (create_domain_rename info st a tr).names = (st.common_domname, st.migration_domname) := by
  unfold create_domain_rename
  simp only []
  split_ifs <;> rfl

/-- The handling of a shutdown event changes no name. -/
theorem create_domain_shutdown_names (info : domain_create) (st : CreateState)
    (reason : libxl_shutdown_reason) (a : ShutdownEnv) :
    (create_domain_shutdown info st reason a).names
      = (st.common_domname, st.migration_domname) := by
  unfold create_domain_shutdown
  cases h : handle_domain_death a.death st.domid reason st.d_config with
  | none => rfl
  | some r =>
    simp only []
    cases r.restart
    · rfl
    · rfl
    · exact create_domain_rename_names info _ a _
    · exact create_domain_rename_names info _ a _

/-- The wait loop changes no name. -/
theorem create_domain_wait_names (info : domain_create) (evs : List WaitResult) :
    ∀ st : CreateState,
      (create_domain_wait info st evs).names = (st.common_domname, st.migration_domname) := by
  induction evs with
  | nil => intro st; rfl
  | cons w rest ih =>
    intro st
    cases w with
    | failed code => rfl
    | event d ev =>
      unfold create_domain_wait
      split_ifs with hd
      · rw [PassResult.prepend_names]; exact ih st
      · cases ev with
        | domain_shutdown reason a =>
          simp only []
          rw [PassResult.prepend_names]
          exact create_domain_shutdown_names info _ reason a
        | domain_death => rfl
        | disk_eject =>
          simp only []
          rw [PassResult.prepend_names]
          exact ih _
        | other t =>
          simp only []
          rw [PassResult.prepend_names]
          exact ih _

/-- The enabling of the events and the wait loop change no name. -/
theorem create_domain_events_names (info : domain_create) (st : CreateState) (env : PassEnv)
    (pre : List Ev) :
    (create_domain_events info st env pre).names
      = (st.common_domname, st.migration_domname) := by
  unfold create_domain_events
  simp only []
  split_ifs with h1
  · rfl
  · cases hm : (evenable_disk_ejects st.domid env.evenable_eject_ret).1 with
    | some r => rfl
    | none =>
      simp only []
      rw [PassResult.prepend_names]
      exact create_domain_wait_names info env.events _

/-- The second part of a pass changes no name. -/
theorem create_domain_monitor_names (info : domain_create) (st : CreateState) (env : PassEnv)
    (trace : List Ev) :
    (create_domain_monitor info st env trace).names
      = (st.common_domname, st.migration_domname) := by
  unfold create_domain_monitor
  simp only []
  by_cases h1 : ¬ info.daemonize ∧ ¬ info.monitor
  · rw [if_pos h1]; rfl
  rw [if_neg h1]
  by_cases h2 : st.need_daemon = true
  · rw [if_pos h2]
    cases hd : do_daemonize env.daemonize with
    | ret dret =>
      simp only []
      by_cases h3 : dret ≠ 0
      · rw [if_pos h3]; rfl
      · rw [if_neg h3]
        exact create_domain_events_names info _ env _
    | exit code => rfl
    | abort => rfl
    | oversize sz => rfl
    | blocked => rfl
    | unfinished => rfl
  · rw [if_neg h2]
    exact create_domain_events_names info _ env _

/-- The bring-up call changes no name. -/
theorem create_domain_call_names (info : domain_create) (st : CreateState) (env : PassEnv) :
    (create_domain_call info st env).2.common_domname = st.common_domname
      ∧ (create_domain_call info st env).2.migration_domname = st.migration_domname := by
  unfold create_domain_call
  split_ifs <;> exact ⟨rfl, rfl⟩

/-- The label `error_out:` changes no name. -/
theorem create_domain_error_out_names (info : domain_create) (st : CreateState) (env : PassEnv)
    (tr : List Ev) :
    (create_domain_error_out info st env tr).common_domname = st.common_domname
      ∧ (create_domain_error_out info st env tr).migration_domname = st.migration_domname :=
  ⟨rfl, rfl⟩

/-- A whole pass changes no name. -/
theorem create_domain_start_names (info : domain_create) (st : CreateState) (env : PassEnv) :
    (create_domain_start info st env).names = (st.common_domname, st.migration_domname) := by
  have hcall := create_domain_call_names info
    { st with fd_lock := (acquire_lock st.fd_lock env.lock).fd_lock } env
  unfold create_domain_start
  cases hb : create_domain_bringup info st env with
  | failed r =>
    simp only []
    unfold create_domain_bringup at hb
    simp only [] at hb
    split_ifs at hb
    all_goals
      simp only [BringupResult.failed.injEq] at hb
      subst hb
      first
        | rfl
        | (show ((create_domain_error_out info _ env _).common_domname,
              (create_domain_error_out info _ env _).migration_domname) = _
           rw [(create_domain_error_out_names info _ env _).1,
             (create_domain_error_out_names info _ env _).2, hcall.1, hcall.2])
  | created trace st1 =>
    simp only []
    rw [create_domain_monitor_names]
    unfold create_domain_bringup at hb
    simp only [] at hb
    split_ifs at hb
    all_goals
      simp only [BringupResult.created.injEq] at hb
      rw [← hb.2]
      show ((create_domain_call info _ env).2.common_domname,
        (create_domain_call info _ env).2.migration_domname) = _
      rw [hcall.1, hcall.2]

/-- The passes of `create_domain` change no name. -/
theorem create_domain_passes_names (info : domain_create) (envs : List PassEnv) :
    ∀ st : CreateState,
      (create_domain_passes info st envs).common_domname = st.common_domname
        ∧ (create_domain_passes info st envs).migration_domname = st.migration_domname := by
  induction envs with
  | nil => intro st; exact ⟨rfl, rfl⟩
  | cons env rest ih =>
    intro st
    have h := create_domain_start_names info st env
    unfold create_domain_passes
    cases hs : create_domain_start info st env with
    | done r =>
      rw [hs] at h
      simp only [PassResult.names, Prod.mk.injEq] at h
      exact h
    | restart tr st1 =>
      rw [hs] at h
      simp only [PassResult.names, Prod.mk.injEq] at h
      simp only [Run.prepend]
      rw [← h.1, ← h.2]
      exact ih st1

/-- A return of the restoring block is the error `ERROR_INVAL`. -/
theorem create_domain_restoring_ret (P : Platform) (stream : List Byte) (rc : Int)
    (rest : List Byte) (h : create_domain_restoring P stream = (.ret rc, rest)) :
    rc = ERROR_INVAL := by
  unfold create_domain_restoring at h
  split at h
  · rename_i rc0 rest0 hh
    simp only [Prod.mk.injEq, Outcome.ret.injEq] at h
    unfold create_domain_read_header at hh
    split at hh
    · simp at hh
    · simp only [] at hh
      split_ifs at hh <;> simp at hh <;> rw [← h.1, ← hh.1]
  · simp at h
  · simp at h
  · rename_i hdr rest0 hh
    unfold create_domain_read_optdata at h
    by_cases h0 : hdr.optional_data_len = 0
    · rw [if_pos h0] at h
      simp at h
    · rw [if_neg h0] at h
      cases hre : libxl_read_exactly rest0 hdr.optional_data_len with
      | none =>
        rw [hre] at h
        simp at h
      | some p =>
        rw [hre] at h
        simp only [] at h
        split_ifs at h <;> simp at h <;> exact h.1.symm

/-- In a receive that returns a domain id, `create_domain` leaves the name of
the configuration in `common_domname` and that name with the suffix
`--incoming` in `*migration_domname_r`. -/
theorem create_domain_migration_names (P : Platform) (info : domain_create) (env : CreateEnv)
    (fd_lock rc : Int) (hfd : info.migrate_fd ≥ 0) (hcf : info.config_file = none)
    (hret : (create_domain P info env fd_lock).ending = .ret rc) (hrc : 0 ≤ rc) :
    (create_domain P info env fd_lock).migration_domname
        = some (env.parsed.name ++ "--incoming")
      ∧ (create_domain P info env fd_lock).common_domname = some env.parsed.name := by
  have hneg : ¬ ERROR_INVAL ≥ 0 := by decide
  have hconf : ∀ restoring flags unread config,
      (create_domain_configured info env fd_lock restoring flags unread config).ending = .ret rc →
      (create_domain_configured info env fd_lock restoring flags unread config).migration_domname
          = some (env.parsed.name ++ "--incoming")
        ∧ (create_domain_configured info env fd_lock restoring flags unread config).common_domname
          = some env.parsed.name := by
    intro restoring flags unread config he
    unfold create_domain_configured at he ⊢
    simp only [] at he ⊢
    split_ifs at he ⊢
    · simp [create_domain_early, Run.prepend] at he
    · simp [Run.of, hfd]
    · simp [create_domain_out, Run.of, hfd]
    · simp only [Run.prepend]
      have := create_domain_passes_names info env.passes
      rw [(this _).1, (this _).2]
      simp [hfd]
  unfold create_domain at hret ⊢
  simp only [] at hret ⊢
  have hres : (info.restore_file || decide (info.migrate_fd ≥ 0)) = true := by simp [hfd]
  rw [hres] at hret ⊢
  have hdec : create_domain_decode P info env true = create_domain_restoring P env.stream := by
    simp [create_domain_decode, hfd]
  rw [hdec] at hret ⊢
  cases hr : create_domain_restoring P env.stream with
  | mk o rest =>
    rw [hr] at hret
    cases o with
    | ret rc0 =>
      simp only [create_domain_early, End.ret.injEq] at hret
      have := create_domain_restoring_ret P env.stream rc0 rest hr
      rw [hret] at this
      rw [this] at hrc
      exact absurd hrc hneg
    | chk_errnoval => simp [create_domain_early] at hret
    | oversize sz => simp [create_domain_early] at hret
    | cont rs =>
      simp only [] at hret ⊢
      have hsel : create_domain_select_config P info env true rs
          = create_domain_saved_config rs := by
        simp [create_domain_select_config, hcf]
      rw [hsel] at hret ⊢
      cases hs : create_domain_saved_config rs with
      | ret rc0 =>
        rw [hs] at hret
        simp only [create_domain_early, End.ret.injEq] at hret
        unfold create_domain_saved_config at hs
        split at hs
        · simp only [Outcome.ret.injEq] at hs
          rw [hret] at hs
          rw [← hs] at hrc
          exact absurd hrc hneg
        · simp at hs
      | chk_errnoval =>
        rw [hs] at hret
        simp [create_domain_early] at hret
      | oversize sz =>
        rw [hs] at hret
        simp [create_domain_early] at hret
      | cont config =>
        rw [hs] at hret
        exact hconf _ _ _ _ hret

set_option maxRecDepth 100000 in
/-- C17, the counterexample: a COLO receive in which every call succeeds. After
`create_domain` has restored domain 9 the receiver renames it to `vm` and
exits with status 0; `libxl_domain_unpause` is never called. -/
theorem colo_exits_without_unpause :
    main_migrate_receive ⟨false, true⟩ false true false false .COLO
        (ReceiveEnv.nominal
          (save_domain_core_writeconfig_bytes ⟨false, true⟩ [123, 125, 0] 3 ++ [1, 2, 3, 4, 5])
          [PassEnv.nominal 9 5 (.parent 0) []]) (-1)
      = ([Ev.write_exactly .banner (migrate_receiver_banner.take 54) 0,
          Ev.parse_config true [123, 125, 0] 3,
          Ev.lock_open 7,
          Ev.lock_setfd 0,
          Ev.lock_wait 0 0,
          Ev.freemem true,
          Ev.domain_create_restore 2 .COLO 0,
          Ev.lock_release 0 0,
          Ev.lock_close 7,
          Ev.domain_rename 9 "vm--incoming" "vm" 0],
         End.exit 0) := by
  decide

/-- C17, amended: in a checkpointed receive (Remus or COLO) on a receive
endpoint `recv_fd ≥ 0`, whose banner is written and whose `create_domain`
returns a domain id `rc ≥ 0`, the steps of `migrate_receive` after those of
`create_domain` are given in full, so nothing is written to or read from the
sender any more. The receiver renames the domain `rc` from the name of the
received configuration with the suffix `--incoming` to the name of the
received configuration, with the result `env.rename_rc`, and goes on whatever
that result is. In Remus mode the next and last step is the unpause of the
domain, and the receiver exits with success exactly when the unpause
succeeded. In COLO mode the rename is the last step: there is no unpause, and
the receiver exits with status `-ERROR_FAIL` when the rename failed and 0
otherwise. -/
theorem checkpointed_receive (P : Platform) (debug daemonize monitor pause_after_migration : Bool)
    (send_fd recv_fd : Int) (c : libxl_checkpointed_stream) (env : ReceiveEnv)
    (fd_lock rc : Int) (hc : c ≠ .NONE) (hfd : 0 ≤ recv_fd) (hb : env.write_banner_rc = 0)
    (hret : (create_domain P
        (migrate_receive_dom_info debug daemonize monitor send_fd recv_fd c)
        env.create fd_lock).ending = .ret rc)
    (hrc : 0 ≤ rc) :
    (c = .REMUS →
        migrate_receive P debug daemonize monitor pause_after_migration send_fd recv_fd c env
            fd_lock
          = (Ev.write_exactly .banner (migrate_receiver_banner.take 54) 0
              :: (create_domain P
                    (migrate_receive_dom_info debug daemonize monitor send_fd recv_fd c)
                    env.create fd_lock).trace
              ++ [Ev.domain_rename (u32_of_int rc) (env.create.parsed.name ++ "--incoming")
                    env.create.parsed.name env.rename_rc,
                  Ev.domain_unpause (u32_of_int rc) env.unpause_rc],
             End.exit (if env.unpause_rc ≠ 0 then EXIT_FAILURE else EXIT_SUCCESS)))
    ∧ (c = .COLO →
        migrate_receive P debug daemonize monitor pause_after_migration send_fd recv_fd c env
            fd_lock
          = (Ev.write_exactly .banner (migrate_receiver_banner.take 54) 0
              :: (create_domain P
                    (migrate_receive_dom_info debug daemonize monitor send_fd recv_fd c)
                    env.create fd_lock).trace
              ++ [Ev.domain_rename (u32_of_int rc) (env.create.parsed.name ++ "--incoming")
                    env.create.parsed.name env.rename_rc],
             End.exit (if env.rename_rc ≠ 0 then -ERROR_FAIL else 0))) := by
  have hlen : migrate_receiver_banner.length - 1 = 54 := by decide
  have hnot : ¬ rc < 0 := not_lt.mpr hrc
  obtain ⟨hmn, hcn⟩ := create_domain_migration_names P
    (migrate_receive_dom_info debug daemonize monitor send_fd recv_fd c) env.create fd_lock rc
    hfd rfl hret hrc
  refine ⟨?_, ?_⟩
  · intro hcc
    subst hcc
    unfold migrate_receive
    simp only [hb, hret, hlen, hnot, ne_eq, not_true_eq_false, if_false]
    simp [after_end, migrate_receive_checkpointed, migrate_receive_rename, hmn, hcn]
  · intro hcc
    subst hcc
    unfold migrate_receive
    simp only [hb, hret, hlen, hnot, ne_eq, not_true_eq_false, if_false]
    simp [after_end, migrate_receive_checkpointed, migrate_receive_rename, hmn, hcn]

set_option maxRecDepth 100000 in
/-- C17, the amended statement at a Remus receive without monitoring (option
`-e`) in which the rename fails with `ERROR_FAIL` and every other call
succeeds: after `create_domain` has restored domain 9 the receiver calls the
rename from `vm--incoming` to `vm`, then unpauses the domain all the same, and
exits with success; it writes nothing after the banner and reads nothing after
the restore. -/
theorem checkpointed_receive_witness :
    (libxl_checkpointed_stream.REMUS ≠ .NONE
      ∧ (0 : Int) ≤ 0
      ∧ ({ ReceiveEnv.nominal
            (save_domain_core_writeconfig_bytes ⟨false, true⟩ [123, 125, 0] 3 ++ [1, 2, 3, 4, 5])
            [PassEnv.nominal 9 5 (.parent 0) []] with rename_rc := -3 }).write_banner_rc = 0
      ∧ (create_domain ⟨false, true⟩
          (migrate_receive_dom_info false false false 1 0 .REMUS)
          ({ ReceiveEnv.nominal
              (save_domain_core_writeconfig_bytes ⟨false, true⟩ [123, 125, 0] 3
                ++ [1, 2, 3, 4, 5])
              [PassEnv.nominal 9 5 (.parent 0) []] with rename_rc := -3 }).create
          (-1)).ending = .ret 9
      ∧ (0 : Int) ≤ 9)
    ∧ migrate_receive ⟨false, true⟩ false false false false 1 0 .REMUS
        { ReceiveEnv.nominal
            (save_domain_core_writeconfig_bytes ⟨false, true⟩ [123, 125, 0] 3 ++ [1, 2, 3, 4, 5])
            [PassEnv.nominal 9 5 (.parent 0) []] with rename_rc := -3 } (-1)
      = ([Ev.write_exactly .banner (migrate_receiver_banner.take 54) 0,
          Ev.parse_config true [123, 125, 0] 3,
          Ev.lock_open 7,
          Ev.lock_setfd 0,
          Ev.lock_wait 0 0,
          Ev.freemem true,
          Ev.domain_create_restore 2 .REMUS 0,
          Ev.lock_release 0 0,
          Ev.lock_close 7,
          Ev.domain_rename 9 "vm--incoming" "vm" (-3),
          Ev.domain_unpause 9 0],
         End.exit 0) :=
  ⟨⟨by decide, by decide, by decide, by decide, by decide⟩,
   ((checkpointed_receive ⟨false, true⟩ false false false false 1 0 .REMUS
      { ReceiveEnv.nominal
          (save_domain_core_writeconfig_bytes ⟨false, true⟩ [123, 125, 0] 3 ++ [1, 2, 3, 4, 5])
          [PassEnv.nominal 9 5 (.parent 0) []] with rename_rc := -3 } (-1) 9
      (by decide) (by decide) (by decide) (by decide) (by decide)).1 rfl).trans (by decide)⟩

/-! ## Further properties of `create_domain` -/

/-- The calls of `freemem` destroy no domain. -/
theorem freemem_no_destroy (env : FreememEnv) (d : Nat) :
    Ev.domain_destroy d ∉ (freemem env).2 := by
  have hloop : ∀ n i, Ev.domain_destroy d ∉ (freemem_loop env n i).2 := by
    intro n
    induction n with
    | zero => intro i; simp [freemem_loop]
    | succ n ih =>
      intro i
      unfold freemem_loop
      split_ifs <;> simp [ih]
  unfold freemem
  split_ifs <;> simp [hloop]

/-- C21: when `freemem` returns false in a pass (the assertion at `start:`
holds, the lock is acquired and no soft reset is pending, so that `freemem` is
called), `create_domain` ends in that pass: its steps are the calls of
`acquire_lock`, the calls of `freemem`, then the unlock and the close of the
lock file; no bring-up call is made, no domain is destroyed, the lock is not
held at the end, and the result is `ERROR_FAIL`, returned to the caller or
passed to `exit` by a process that has daemonized. -/
theorem freemem_failure_leaves_nothing (info : domain_create) (st : CreateState)
    (env : PassEnv) (hd : st.domid = INVALID_DOMID)
    (hl : ¬ (acquire_lock st.fd_lock env.lock).rc < 0)
    (hs : st.domid_soft_reset = INVALID_DOMID) (hf : (freemem env.freemem).1 = false) :
    ∃ r, create_domain_start info st env = .done r
      ∧ (∀ envs, create_domain_passes info st (env :: envs) = r)
      ∧ r.trace = (acquire_lock st.fd_lock env.lock).calls ++ (freemem env.freemem).2
          ++ [Ev.freemem false]
          ++ [Ev.lock_release env.unlock_interrupted env.unlock_rc,
              Ev.lock_close env.lock.open_fd]
      ∧ (∀ e ∈ r.trace, e.is_bringup = false)
      ∧ (∀ d, Ev.domain_destroy d ∉ r.trace)
      ∧ r.fd_lock = -1
      ∧ r.ending = (if info.daemonize ∧ ¬ st.need_daemon then End.exit ERROR_FAIL
                    else End.ret ERROR_FAIL) := by
  obtain ⟨hneg, hopen, hfd⟩ := acquire_lock_ok st.fd_lock env.lock hl
  have hval : libxl_domid_valid_guest INVALID_DOMID = false := by decide
  have hstart : create_domain_start info st env
      = .done (create_domain_error_out info
          { st with fd_lock := (acquire_lock st.fd_lock env.lock).fd_lock, ret := ERROR_FAIL } env
          ((acquire_lock st.fd_lock env.lock).calls
            ++ ((freemem env.freemem).2 ++ [Ev.freemem (freemem env.freemem).1]))) := by
    unfold create_domain_start create_domain_bringup
    simp only [hd, hl, hs, hf, ne_eq, not_true_eq_false, if_false, if_true,
      Bool.false_eq_true, not_false_eq_true]
  have htrace : (create_domain_error_out info
          { st with fd_lock := (acquire_lock st.fd_lock env.lock).fd_lock, ret := ERROR_FAIL } env
          ((acquire_lock st.fd_lock env.lock).calls
            ++ ((freemem env.freemem).2 ++ [Ev.freemem (freemem env.freemem).1]))).trace
      = (acquire_lock st.fd_lock env.lock).calls ++ (freemem env.freemem).2
          ++ [Ev.freemem false]
          ++ [Ev.lock_release env.unlock_interrupted env.unlock_rc,
              Ev.lock_close env.lock.open_fd] := by
    simp only [create_domain_error_out, create_domain_out, Run.of, hd, hval, hfd, hf,
      release_lock, if_neg (not_lt.mpr hopen), Bool.false_eq_true, if_false, List.append_nil,
      List.append_assoc]
  refine ⟨_, hstart, ?_, htrace, ?_, ?_, ?_, ?_⟩
  · intro envs
    simp only [create_domain_passes, hstart]
  · intro e he
    rw [htrace] at he
    simp only [List.mem_append, List.mem_cons, List.mem_singleton, List.not_mem_nil,
      or_false] at he
    rcases he with ((he | he) | he) | he | he
    · exact acquire_lock_calls _ _ e he
    · exact freemem_calls _ e he
    · subst he; rfl
    · subst he; rfl
    · subst he; rfl
  · intro d hmem
    rw [htrace] at hmem
    simp only [List.mem_append, List.mem_cons, List.mem_singleton, List.not_mem_nil,
      or_false] at hmem
    rcases hmem with ((he | he) | he) | he | he
    · have := acquire_lock_calls _ _ _ he
      unfold acquire_lock at he
      split_ifs at he <;> simp at he
    · exact freemem_no_destroy _ d he
    · cases he
    · cases he
    · cases he
  · simp only [create_domain_error_out, create_domain_out, Run.of, hfd, release_lock,
      if_neg (not_lt.mpr hopen)]
  · simp only [create_domain_error_out, create_domain_out, Run.of]

set_option maxRecDepth 100000 in
/-- C21 at `xl create` with autoballoon on and a platform that cannot tell the
memory needed: the pass ends `create_domain` with `ERROR_FAIL`. -/
theorem freemem_failure_leaves_nothing_witness :
    ((CreateState.nominal INVALID_DOMID).domid = INVALID_DOMID
      ∧ ¬ (acquire_lock (CreateState.nominal INVALID_DOMID).fd_lock LockEnv.nominal).rc < 0
      ∧ (CreateState.nominal INVALID_DOMID).domid_soft_reset = INVALID_DOMID
      ∧ (freemem { FreememEnv.nominal with autoballoon := true, need_rc := -3 }).1 = false)
    ∧ ∃ r, create_domain_start domain_create.nominal (CreateState.nominal INVALID_DOMID)
        { PassEnv.nominal 9 0 .child [] with
          freemem := { FreememEnv.nominal with autoballoon := true, need_rc := -3 } }
        = .done r ∧ r.ending = End.exit ERROR_FAIL :=
  ⟨⟨rfl, by decide, rfl, by decide⟩,
   let ⟨r, h1, _, _, _, _, _, h7⟩ := freemem_failure_leaves_nothing domain_create.nominal
      (CreateState.nominal INVALID_DOMID)
      { PassEnv.nominal 9 0 .child [] with
        freemem := { FreememEnv.nominal with autoballoon := true, need_rc := -3 } }
      rfl (by decide) rfl (by decide)
   ⟨r, h1, h7⟩⟩

/-- The wait loop does not depend on the value of `ret` at its entry: every
path stores into `ret` before it is used. -/
theorem create_domain_wait_ret (info : domain_create) (evs : List WaitResult) :
    ∀ (st : CreateState) (r : Int),
      create_domain_wait info { st with ret := r } evs = create_domain_wait info st evs := by
  induction evs with
  | nil => intro st r; rfl
  | cons w rest ih =>
    intro st r
    cases w with
    | failed code => rfl
    | event d ev =>
      simp only [create_domain_wait]
      by_cases hd : d = st.domid
      · simp only [hd, ne_eq, not_true_eq_false, if_false]
      · simp only [hd, ne_eq, not_false_eq_true, if_true, ih st r]

/-- C26: in the wait loop, a domain-death event for the monitored domain ends
`create_domain` at `out:` with `ret = 0` (returned, or passed to `exit` by a
daemon); the event is the only step taken: no destroy, no preserve, no
restart. An event of an unrecognised type for the monitored domain is
ignored: the loop goes on with the next result of `libxl_event_wait` from a
state that differs from the one before at most in `ret`, which the loop never
reads, so what follows is what would have followed without the event. An
event for another domain is skipped in the same way by `domain_wait_event`. -/
theorem death_and_unknown_events (info : domain_create) (st : CreateState)
    (rest : List WaitResult) :
    create_domain_wait info st (.event st.domid .domain_death :: rest)
        = .done { trace := [Ev.event_wait 0 st.domid]
                  ending := if info.daemonize ∧ ¬ st.need_daemon then End.exit 0 else End.ret 0
                  fd_lock := st.fd_lock
                  common_domname := st.common_domname
                  migration_domname := st.migration_domname
                  unread := st.unread }
    ∧ (∀ t, create_domain_wait info st (.event st.domid (.other t) :: rest)
        = (create_domain_wait info st rest).prepend [Ev.event_wait 0 st.domid])
    ∧ (∀ d ev, d ≠ st.domid →
        create_domain_wait info st (.event d ev :: rest)
          = (create_domain_wait info st rest).prepend [Ev.event_wait 0 d]) := by
  refine ⟨?_, ?_, ?_⟩
  · simp only [create_domain_wait, ne_eq, not_true_eq_false, if_false]
    rfl
  · intro t
    simp only [create_domain_wait, ne_eq, not_true_eq_false, if_false]
    rw [create_domain_wait_ret info rest st 0]
  · intro d ev hd
    simp only [create_domain_wait, ne_eq, hd, not_false_eq_true, if_true]

/-! ## Properties of the restart handling -/

/-- C25: the three levels of `reload_domain_config`. When the stored "xl"
configuration is not empty (`t_len > 0`) the result is that configuration
parsed, the stored copy is removed, and the platform is not asked for the
current configuration. Otherwise the platform is asked: when it answers
(`rc = 0`) the result is the configuration retrieved, and when it fails the
configuration is left as it was; nothing is removed. The result of
`libxl_userdata_retrieve` itself plays no part. -/
theorem reload_priority (env : ReloadEnv) (domid : Nat) (d_config : libxl_domain_config) :
    (env.t_len > 0 →
      reload_domain_config env domid d_config
        = (env.updated, [Ev.userdata_retrieve domid, Ev.userdata_unlink domid]))
    ∧ (¬ env.t_len > 0 → env.retrieve_rc = 0 →
        reload_domain_config env domid d_config
          = (env.retrieved,
             [Ev.userdata_retrieve domid, Ev.retrieve_domain_configuration domid 0]))
    ∧ (¬ env.t_len > 0 → env.retrieve_rc ≠ 0 →
        reload_domain_config env domid d_config
          = (d_config,
             [Ev.userdata_retrieve domid,
              Ev.retrieve_domain_configuration domid env.retrieve_rc]))
    ∧ (∀ r, reload_domain_config { env with userdata_ret := r } domid d_config
          = reload_domain_config env domid d_config)
    ∧ (Ev.userdata_unlink domid ∈ (reload_domain_config env domid d_config).2 ↔ env.t_len > 0)
    ∧ ((∃ rc, Ev.retrieve_domain_configuration domid rc
          ∈ (reload_domain_config env domid d_config).2) ↔ ¬ env.t_len > 0) := by
  unfold reload_domain_config
  refine ⟨?_, ?_, ?_, ?_, ?_, ?_⟩
  · intro h
    rw [if_pos h]
  · intro h h2
    rw [if_neg h, if_neg (not_not.mpr h2), h2]
  · intro h h2
    rw [if_neg h, if_pos h2]
  · intro r
    rfl
  · by_cases h : env.t_len > 0
    · simp [h]
    · by_cases h2 : env.retrieve_rc = 0 <;> simp [h, h2]
  · by_cases h : env.t_len > 0
    · simp [h]
    · by_cases h2 : env.retrieve_rc = 0 <;> simp [h, h2]

/-! ## The assertion at `start:` and the decision switches -/

/-- The switch of `handle_domain_death` never reaches `abort()`, and what it
leaves in `*r_domid`: the invalid id after a destroy (every decision of
restart-in-place comes with one), the id unchanged otherwise. -/
theorem handle_domain_death_some (env : DeathEnv) (domid : Nat)
    (reason : libxl_shutdown_reason) (c : libxl_domain_config) :
    ∃ r, handle_domain_death env domid reason c = some r
      ∧ (r.restart = DOMAIN_RESTART_NORMAL →
          r.r_domid = INVALID_DOMID ∧ Ev.domain_destroy domid ∈ r.calls)
      ∧ (r.restart = DOMAIN_RESTART_RENAME ∨ r.restart = DOMAIN_RESTART_SOFT_RESET →
          r.r_domid = domid ∧ (∀ d, Ev.domain_destroy d ∉ r.calls)
          ∧ (∀ d rc, Ev.domain_preserve d rc ∉ r.calls)) := by
  have hreload : ∀ d, Ev.domain_destroy d ∉ (reload_domain_config env.reload domid c).2 := by
    intro d
    unfold reload_domain_config
    split_ifs <;> simp
  have hreload2 : ∀ d rc, Ev.domain_preserve d rc
      ∉ (reload_domain_config env.reload domid c).2 := by
    intro d rc
    unfold reload_domain_config
    split_ifs <;> simp
  unfold handle_domain_death
  cases hact : handle_domain_death_action reason c with
  | none => simp [domain_restart_type.of_int]
  | some a => cases a <;> simp [hreload, hreload2]

/-- Prepending steps keeps a pass safe. -/
theorem PassResult.safe_prepend (r : PassResult) (evs : List Ev) (h : r.safe) :
    (r.prepend evs).safe := by
  obtain ⟨h1, h2⟩ := h
  cases r with
  | done r0 =>
    refine ⟨?_, fun tr st1 heq => by simp [PassResult.prepend] at heq⟩
    intro run heq
    simp only [PassResult.prepend, PassResult.done.injEq] at heq
    rw [← heq]
    exact h1 r0 rfl
  | restart tr0 st0 =>
    refine ⟨fun run heq => by simp [PassResult.prepend] at heq, ?_⟩
    intro tr st1 heq
    simp only [PassResult.prepend, PassResult.restart.injEq] at heq
    rw [← heq.2]
    exact h2 tr0 st0 rfl

/-- A pass that ends at `out:` does not abort. -/
theorem PassResult.safe_out (info : domain_create) (st : CreateState) (tr : List Ev) :
    (PassResult.done (create_domain_out info st tr)).safe := by
  refine ⟨?_, fun _ _ heq => by cases heq⟩
  intro run heq
  simp only [PassResult.done.injEq] at heq
  rw [← heq]
  simp only [create_domain_out, Run.of]
  split_ifs <;> simp

/-- The case `DOMAIN_RESTART_NORMAL` jumps back with what it is given. -/
theorem create_domain_restart_safe (st : CreateState) (a : ShutdownEnv) (tr : List Ev)
    (hd : st.domid = INVALID_DOMID) (hr : st.restoring = false) :
    (create_domain_restart st a tr).safe := by
  refine ⟨fun run heq => by simp [create_domain_restart] at heq, ?_⟩
  intro tr1 st1 heq
  simp only [create_domain_restart, PassResult.restart.injEq] at heq
  rw [← heq.2]
  exact ⟨hd, hr⟩

/-- The case `DOMAIN_RESTART_RENAME` jumps back with `domid` invalid, either
because `preserve_domain` succeeded or because a soft reset is pending. -/
theorem create_domain_rename_safe (info : domain_create) (st : CreateState) (a : ShutdownEnv)
    (tr : List Ev) (hd : st.domid_soft_reset = INVALID_DOMID ∨ st.domid = INVALID_DOMID)
    (hr : st.restoring = false) : (create_domain_rename info st a tr).safe := by
  unfold create_domain_rename
  simp only []
  by_cases hs : st.domid_soft_reset = INVALID_DOMID
  · rw [if_pos hs]
    by_cases hp : (preserve_domain a.preserve st.domid).1 = 0
    · rw [if_pos hp]
      exact PassResult.safe_out info _ _
    · rw [if_neg hp]
      have hinv : (preserve_domain a.preserve st.domid).2.1 = INVALID_DOMID := by
        unfold preserve_domain at hp ⊢
        by_cases ht : a.preserve.time_ok = true
        · simp [ht]
        · simp [ht] at hp
      exact create_domain_restart_safe _ a _ hinv hr
  · rw [if_neg hs]
    rcases hd with hd | hd
    · exact absurd hd hs
    · exact create_domain_restart_safe st a tr hd hr

/-- The handling of a shutdown event never reaches `abort()` and jumps back with
`domid` invalid. -/
theorem create_domain_shutdown_safe (info : domain_create) (st : CreateState)
    (reason : libxl_shutdown_reason) (a : ShutdownEnv)
    (hs : st.domid_soft_reset = INVALID_DOMID) (hr : st.restoring = false) :
    (create_domain_shutdown info st reason a).safe := by
  obtain ⟨r, hsome, hnormal, -⟩ := handle_domain_death_some a.death st.domid reason st.d_config
  unfold create_domain_shutdown
  rw [hsome]
  simp only []
  cases hres : r.restart with
  | DOMAIN_RESTART_NONE => exact PassResult.safe_out info _ _
  | DOMAIN_RESTART_NORMAL =>
    exact create_domain_restart_safe _ a _ (hnormal hres).1 hr
  | DOMAIN_RESTART_RENAME =>
    exact create_domain_rename_safe info _ a _ (Or.inl hs) hr
  | DOMAIN_RESTART_SOFT_RESET =>
    exact create_domain_rename_safe info _ a _ (Or.inr rfl) hr

/-- The wait loop never reaches `abort()` and jumps back with `domid` invalid. -/
theorem create_domain_wait_safe (info : domain_create) (evs : List WaitResult) :
    ∀ st : CreateState, st.domid_soft_reset = INVALID_DOMID → st.restoring = false →
      (create_domain_wait info st evs).safe := by
  induction evs with
  | nil =>
    intro st _ _
    refine ⟨?_, fun _ _ heq => by cases heq⟩
    intro run heq
    simp only [create_domain_wait, PassResult.done.injEq] at heq
    rw [← heq]
    simp [Run.of]
  | cons w rest ih =>
    intro st hs hr
    cases w with
    | failed code => exact PassResult.safe_out info _ _
    | event d ev =>
      simp only [create_domain_wait]
      by_cases hd : d = st.domid
      · simp only [hd, ne_eq, not_true_eq_false, if_false]
        cases ev with
        | domain_shutdown reason a =>
          exact PassResult.safe_prepend _ _ (create_domain_shutdown_safe info _ reason a hs hr)
        | domain_death => exact PassResult.safe_out info _ _
        | disk_eject => exact PassResult.safe_prepend _ _ (ih _ hs hr)
        | other t => exact PassResult.safe_prepend _ _ (ih _ hs hr)
      · simp only [hd, ne_eq, not_false_eq_true, if_true]
        exact PassResult.safe_prepend _ _ (ih st hs hr)

/-- The enabling of the events and the wait loop are safe. -/
theorem create_domain_events_safe (info : domain_create) (st : CreateState) (env : PassEnv)
    (pre : List Ev) (hs : st.domid_soft_reset = INVALID_DOMID) (hr : st.restoring = false) :
    (create_domain_events info st env pre).safe := by
  unfold create_domain_events
  simp only []
  split_ifs
  · exact PassResult.safe_out info _ _
  · cases (evenable_disk_ejects st.domid env.evenable_eject_ret).1 with
    | some r => exact PassResult.safe_out info _ _
    | none => exact PassResult.safe_prepend _ _ (create_domain_wait_safe info env.events _ hs hr)

/-- The second part of a pass is safe. -/
theorem create_domain_monitor_safe (info : domain_create) (st : CreateState) (env : PassEnv)
    (trace : List Ev) (hs : st.domid_soft_reset = INVALID_DOMID) (hr : st.restoring = false) :
    (create_domain_monitor info st env trace).safe := by
  unfold create_domain_monitor
  simp only []
  by_cases h1 : ¬ info.daemonize ∧ ¬ info.monitor
  · rw [if_pos h1]
    exact PassResult.safe_out info _ _
  rw [if_neg h1]
  by_cases h2 : st.need_daemon = true
  · rw [if_pos h2]
    cases hd : env.daemonize with
    | parent r =>
      simp only [do_daemonize]
      by_cases hr0 : r ≠ 0
      · rw [if_pos hr0]
        simp only []
        rw [if_pos hr0]
        exact PassResult.safe_out info _ _
      · rw [if_neg hr0]
        simp only []
        rw [if_pos (by decide : (1 : Int) ≠ 0)]
        exact PassResult.safe_out info _ _
    | child =>
      simp only [do_daemonize]
      rw [if_neg (by decide : ¬ (0 : Int) ≠ 0)]
      exact create_domain_events_safe info _ env _ hs hr
    | child_exit code =>
      simp only [do_daemonize]
      refine ⟨?_, fun _ _ heq => by cases heq⟩
      intro run heq
      simp only [PassResult.done.injEq] at heq
      rw [← heq]
      simp [Run.of]
  · rw [if_neg h2]
    exact create_domain_events_safe info _ env _ hs hr

/-- The state that the first part of a pass leaves when the domain is brought
up: the one left by the bring-up call, but for `fd_lock`; the assertion at
`start:` held. -/
theorem create_domain_bringup_created (info : domain_create) (st : CreateState) (env : PassEnv)
    (tr : List Ev) (st1 : CreateState)
    (h : create_domain_bringup info st env = .created tr st1) :
    st.domid = INVALID_DOMID
    ∧ ∃ fd1 fd2, st1 = { (create_domain_call info { st with fd_lock := fd1 } env).2 with
                          fd_lock := fd2 } := by
  unfold create_domain_bringup at h
  simp only [] at h
  by_cases hd : st.domid ≠ INVALID_DOMID
  · rw [if_pos hd] at h
    cases h
  rw [if_neg hd] at h
  refine ⟨not_not.mp hd, ?_⟩
  split_ifs at h
  all_goals
    simp only [BringupResult.created.injEq] at h
    exact ⟨_, _, h.2.symm⟩

/-- What the bring-up call leaves in the state, for the three modes. -/
theorem create_domain_call_state (info : domain_create) (st : CreateState) (env : PassEnv) :
    (st.restoring = true →
      (create_domain_call info st env).2.domid = env.bringup_domid
      ∧ (create_domain_call info st env).2.domid_soft_reset = st.domid_soft_reset)
    ∧ (st.restoring = false → st.domid_soft_reset ≠ INVALID_DOMID →
        (create_domain_call info st env).1
          = Ev.domain_soft_reset st.domid_soft_reset env.bringup_ret
        ∧ (create_domain_call info st env).2.domid = st.domid_soft_reset
        ∧ (create_domain_call info st env).2.domid_soft_reset = INVALID_DOMID)
    ∧ (st.restoring = false → st.domid_soft_reset = INVALID_DOMID →
        (create_domain_call info st env).1 = Ev.domain_create_new env.bringup_ret
        ∧ (create_domain_call info st env).2.domid = env.bringup_domid
        ∧ (create_domain_call info st env).2.domid_soft_reset = INVALID_DOMID)
    ∧ (create_domain_call info st env).2.restoring = false
    ∧ (create_domain_call info st env).2.d_config = st.d_config := by
  unfold create_domain_call
  by_cases h1 : st.restoring = true
  · simp [h1]
  · by_cases h2 : st.domid_soft_reset = INVALID_DOMID
    · simp [h1, h2]
    · simp [h1, h2]

/-- A whole pass entered with the assertion at `start:` true is safe. -/
theorem create_domain_start_safe (info : domain_create) (st : CreateState) (env : PassEnv)
    (hd : st.domid = INVALID_DOMID)
    (hr : st.restoring = true → st.domid_soft_reset = INVALID_DOMID) :
    (create_domain_start info st env).safe := by
  unfold create_domain_start
  cases hb : create_domain_bringup info st env with
  | failed r =>
    simp only []
    refine ⟨?_, fun _ _ heq => by cases heq⟩
    intro run heq
    simp only [PassResult.done.injEq] at heq
    rw [← heq]
    unfold create_domain_bringup at hb
    simp only [hd, ne_eq, not_true_eq_false, if_false] at hb
    split_ifs at hb
    all_goals
      simp only [BringupResult.failed.injEq] at hb
      rw [← hb]
      simp only [create_domain_error_out, create_domain_out, Run.of]
      split_ifs <;> simp
  | created tr st1 =>
    simp only []
    obtain ⟨-, fd1, fd2, hst1⟩ := create_domain_bringup_created info st env tr st1 hb
    obtain ⟨c1, c2, c3, c4, -⟩ := create_domain_call_state info { st with fd_lock := fd1 } env
    have hs1 : st1.domid_soft_reset = INVALID_DOMID := by
      rw [hst1]
      show (create_domain_call info { st with fd_lock := fd1 } env).2.domid_soft_reset
        = INVALID_DOMID
      by_cases h1 : st.restoring = true
      · rw [(c1 h1).2]
        exact hr h1
      · have h1f : st.restoring = false := by
          cases hres : st.restoring
          · rfl
          · exact absurd hres h1
        by_cases h2 : st.domid_soft_reset = INVALID_DOMID
        · exact (c3 h1f h2).2.2
        · exact (c2 h1f h2).2.2
    have hr1 : st1.restoring = false := by
      rw [hst1]
      exact c4
    exact create_domain_monitor_safe info st1 env tr hs1 hr1

/-- The passes of `create_domain` never end in `abort()`. -/
theorem create_domain_passes_no_abort (info : domain_create) (envs : List PassEnv) :
    ∀ st : CreateState, st.domid = INVALID_DOMID →
      (st.restoring = true → st.domid_soft_reset = INVALID_DOMID) →
      (create_domain_passes info st envs).ending ≠ End.abort := by
  induction envs with
  | nil =>
    intro st _ _
    simp [create_domain_passes, Run.of]
  | cons env rest ih =>
    intro st hd hr
    obtain ⟨h1, h2⟩ := create_domain_start_safe info st env hd hr
    unfold create_domain_passes
    cases hs : create_domain_start info st env with
    | done r => exact h1 r hs
    | restart tr st1 =>
      obtain ⟨hd1, hr1⟩ := h2 tr st1 hs
      simp only [Run.prepend]
      exact ih st1 hd1 (fun h => by rw [hr1] at h; cases h)

/-- C29: `create_domain` never ends in `abort()` through the assertion
`domid == INVALID_DOMID` at `start:` or through the defaults of the two
decision switches (the other assertion of `create_domain`, that
`common_domname` is null when a migration stream is given, is left aside by
the hypothesis, and the assertions of `do_daemonize` on its descriptors are
not part of the model). The switch on the action in `handle_domain_death` never
reaches `abort()`, for every shutdown reason and every configured action. A
pass entered with the assertion true and no soft reset pending while
restoring never aborts, and every jump back to `start:` that it makes is made
with `domid` invalid. -/
theorem bringup_assertion_holds (P : Platform) (info : domain_create) (env : CreateEnv)
    (fd_lock : Int) (h : ¬ (info.migrate_fd ≥ 0 ∧ env.common_domname.isSome)) :
    (create_domain P info env fd_lock).ending ≠ End.abort
    ∧ (∀ denv d reason c, handle_domain_death denv d reason c ≠ none)
    ∧ (∀ st penv, st.domid = INVALID_DOMID →
        (st.restoring = true → st.domid_soft_reset = INVALID_DOMID) →
        (∀ run, create_domain_start info st penv = .done run → run.ending ≠ End.abort)
        ∧ (∀ tr st1, create_domain_start info st penv = .restart tr st1 →
            st1.domid = INVALID_DOMID ∧ st1.restoring = false))
    ∧ (∀ st penvs, st.domid = INVALID_DOMID →
        (st.restoring = true → st.domid_soft_reset = INVALID_DOMID) →
        (create_domain_passes info st penvs).ending ≠ End.abort) := by
  refine ⟨?_, ?_, fun st penv hd hr => create_domain_start_safe info st penv hd hr,
    fun st penvs => create_domain_passes_no_abort info penvs st⟩
  · have hconf : ∀ restoring flags unread config,
        (create_domain_configured info env fd_lock restoring flags unread config).ending
          ≠ End.abort := by
      intro restoring flags unread config
      unfold create_domain_configured
      simp only []
      rw [if_neg h]
      split_ifs
      all_goals first
        | (simp only [Run.prepend]
           exact create_domain_passes_no_abort info env.passes _ rfl (fun _ => rfl))
        | (simp only [create_domain_out, Run.of]; split_ifs <;> simp)
        | simp [Run.of]
    unfold create_domain
    simp only []
    split
    · simp [create_domain_early]
    · simp [create_domain_early]
    · simp [create_domain_early]
    · split
      · simp [create_domain_early]
      · simp [create_domain_early]
      · simp [create_domain_early]
      · exact hconf _ _ _ _
  · intro denv d reason c hnone
    obtain ⟨r, hsome, -⟩ := handle_domain_death_some denv d reason c
    rw [hsome] at hnone
    cases hnone

set_option maxRecDepth 100000 in
/-- C29 at `xl create` of a domain that reboots once and is then destroyed. -/
theorem bringup_assertion_holds_witness :
    (¬ (domain_create.nominal.migrate_fd ≥ 0
        ∧ (CreateEnv.nominal []
            [PassEnv.nominal 9 0 .child
               [.event 9 (.domain_shutdown .REBOOT
                  { death := { core_dump_rc := 0,
                               reload := { userdata_ret := 0, t_len := 0,
                                           updated := libxl_domain_config.nominal "vm",
                                           retrieve_rc := 0,
                                           retrieved := libxl_domain_config.nominal "vm" } },
                    preserve := { time_ok := true, preserve_rc := 0 },
                    event_check_ret := -1 })],
             PassEnv.nominal 10 0 .child [.event 10 .domain_death]]).common_domname.isSome))
    ∧ (create_domain ⟨false, true⟩ domain_create.nominal
        (CreateEnv.nominal []
          [PassEnv.nominal 9 0 .child
             [.event 9 (.domain_shutdown .REBOOT
                { death := { core_dump_rc := 0,
                             reload := { userdata_ret := 0, t_len := 0,
                                         updated := libxl_domain_config.nominal "vm",
                                         retrieve_rc := 0,
                                         retrieved := libxl_domain_config.nominal "vm" } },
                  preserve := { time_ok := true, preserve_rc := 0 },
                  event_check_ret := -1 })],
           PassEnv.nominal 10 0 .child [.event 10 .domain_death]]) (-1)).ending ≠ End.abort :=
  ⟨by decide,
   (bringup_assertion_holds ⟨false, true⟩ domain_create.nominal
      (CreateEnv.nominal []
        [PassEnv.nominal 9 0 .child
           [.event 9 (.domain_shutdown .REBOOT
              { death := { core_dump_rc := 0,
                           reload := { userdata_ret := 0, t_len := 0,
                                       updated := libxl_domain_config.nominal "vm",
                                       retrieve_rc := 0,
                                       retrieved := libxl_domain_config.nominal "vm" } },
                preserve := { time_ok := true, preserve_rc := 0 },
                event_check_ret := -1 })],
         PassEnv.nominal 10 0 .child [.event 10 .domain_death]]) (-1) (by decide)).1⟩

/-- The loop of `freemem` gives true exactly when one of its queries succeeds
and reports enough free memory, every query before it having succeeded and
reported too little, and every shrink request and wait before it having
succeeded. -/
theorem freemem_loop_true_iff (env : FreememEnv) :
    ∀ n i, (freemem_loop env n i).1 = true ↔
      ∃ k, k < n ∧ (¬ env.free_rc (i + k) < 0 ∧ env.free_memkb (i + k) ≥ env.need_memkb)
        ∧ ∀ j, j < k → (¬ env.free_rc (i + j) < 0 ∧ env.free_memkb (i + j) < env.need_memkb
            ∧ ¬ env.set_target_rc (i + j) < 0 ∧ ¬ env.wait_rc (i + j) < 0) := by
  intro n
  induction n with
  | zero =>
    intro i
    simp [freemem_loop]
  | succ n ih =>
    intro i
    have hfail : ¬ (¬ env.free_rc i < 0 ∧ env.free_memkb i ≥ env.need_memkb) →
        ¬ (¬ env.free_rc i < 0 ∧ env.free_memkb i < env.need_memkb
            ∧ ¬ env.set_target_rc i < 0 ∧ ¬ env.wait_rc i < 0) →
        ¬ ∃ k, k < n + 1
          ∧ (¬ env.free_rc (i + k) < 0 ∧ env.free_memkb (i + k) ≥ env.need_memkb)
          ∧ ∀ j, j < k → (¬ env.free_rc (i + j) < 0
              ∧ env.free_memkb (i + j) < env.need_memkb
              ∧ ¬ env.set_target_rc (i + j) < 0 ∧ ¬ env.wait_rc (i + j) < 0) := by
      intro h0 h1 ⟨k, _, hok, hbefore⟩
      cases k with
      | zero => exact h0 hok
      | succ k => exact h1 (hbefore 0 (Nat.succ_pos k))
    unfold freemem_loop
    by_cases h1 : env.free_rc i < 0
    · rw [if_pos h1]
      constructor
      · intro h; cases h
      · intro h
        exact absurd h (hfail (fun h => h.1 h1) (fun h => h.1 h1))
    rw [if_neg h1]
    by_cases h2 : env.free_memkb i ≥ env.need_memkb
    · rw [if_pos h2]
      constructor
      · intro _
        exact ⟨0, Nat.succ_pos n, ⟨h1, h2⟩, fun j hj => absurd hj (Nat.not_lt_zero j)⟩
      · intro _; rfl
    rw [if_neg h2]
    simp only []
    by_cases h3 : env.set_target_rc i < 0
    · rw [if_pos h3]
      constructor
      · intro h; cases h
      · intro h
        exact absurd h (hfail (fun h => h2 h.2) (fun h => h.2.2.1 h3))
    rw [if_neg h3]
    by_cases h4 : env.wait_rc i < 0
    · rw [if_pos h4]
      constructor
      · intro h; cases h
      · intro h
        exact absurd h (hfail (fun h => h2 h.2) (fun h => h.2.2.2 h4))
    rw [if_neg h4]
    simp only []
    rw [ih (i + 1)]
    constructor
    · rintro ⟨k, hk, hok, hbefore⟩
      refine ⟨k + 1, Nat.succ_lt_succ hk, ?_, ?_⟩
      · have : i + (k + 1) = i + 1 + k := by omega
        rw [this]
        exact hok
      · intro j hj
        cases j with
        | zero => exact ⟨h1, not_le.mp h2, h3, h4⟩
        | succ j =>
          have : i + (j + 1) = i + 1 + j := by omega
          rw [this]
          exact hbefore j (Nat.lt_of_succ_lt_succ hj)
    · rintro ⟨k, hk, hok, hbefore⟩
      cases k with
      | zero => exact absurd hok.2 h2
      | succ k =>
        refine ⟨k, Nat.lt_of_succ_lt_succ hk, ?_, ?_⟩
        · have : i + 1 + k = i + (k + 1) := by omega
          rw [this]
          exact hok
        · intro j hj
          have : i + 1 + j = i + (j + 1) := by omega
          rw [this]
          exact hbefore (j + 1) (Nat.succ_lt_succ hj)

/-- The loop of `freemem` with `n` rounds left makes at most `n` queries and
at most `n` shrink requests. -/
theorem freemem_loop_counts (env : FreememEnv) :
    ∀ n i, (freemem_loop env n i).2.countP Ev.is_free_query ≤ n
      ∧ (freemem_loop env n i).2.countP Ev.is_shrink ≤ n := by
  intro n
  induction n with
  | zero => intro i; simp [freemem_loop]
  | succ n ih =>
    intro i
    have h := ih (i + 1)
    unfold freemem_loop
    split_ifs
    all_goals simp only [List.countP_cons, List.countP_nil, List.countP_append,
      Ev.is_free_query, Ev.is_shrink]
    all_goals simp
    all_goals omega

/-- C22: the result of `freemem`. With autoballoon off it returns true without
any platform call. With autoballoon on it makes one need-memory call, at most
3 free-memory queries and at most 3 shrink requests; it returns true exactly
when the need-memory call succeeded and one of the queries 1 to 3 succeeded
and reported `free >= need`, every query before it having succeeded with
`free < need` and the shrink request and the wait after each of those having
succeeded. So it returns false when the need-memory call fails, when a query,
a shrink request or a wait that is made fails, and when the three queries all
report `free < need`; in that last case the third shrink and wait are still
made. A platform call fails when its result is negative. -/
theorem freemem_result (env : FreememEnv) :
    (env.autoballoon = false → freemem env = (true, []))
    ∧ (env.autoballoon = true →
        ((freemem env).1 = true ↔
          ¬ env.need_rc < 0
          ∧ ∃ k, k < 3 ∧ (¬ env.free_rc k < 0 ∧ env.free_memkb k ≥ env.need_memkb)
            ∧ ∀ j, j < k → (¬ env.free_rc j < 0 ∧ env.free_memkb j < env.need_memkb
                ∧ ¬ env.set_target_rc j < 0 ∧ ¬ env.wait_rc j < 0)))
    ∧ (freemem env).2.countP Ev.is_free_query ≤ 3
    ∧ (freemem env).2.countP Ev.is_shrink ≤ 3
    ∧ (env.autoballoon = true → env.need_rc < 0 →
        freemem env = (false, [Ev.domain_need_memory env.need_rc]))
    ∧ (env.autoballoon = true → ¬ env.need_rc < 0 →
        (∀ j, j < 3 → (¬ env.free_rc j < 0 ∧ env.free_memkb j < env.need_memkb
            ∧ ¬ env.set_target_rc j < 0 ∧ ¬ env.wait_rc j < 0)) →
        (freemem env).1 = false
        ∧ (freemem env).2.countP Ev.is_free_query = 3
        ∧ (freemem env).2.countP Ev.is_shrink = 3) := by
  refine ⟨?_, ?_, ?_, ?_, ?_, ?_⟩
  · intro h
    simp [freemem, h]
  · intro h
    have hl := freemem_loop_true_iff env 3 0
    simp only [Nat.zero_add] at hl
    by_cases hn : env.need_rc < 0
    · simp [freemem, h, hn]
    · simp only [freemem, h, hn, not_true_eq_false, if_false, not_false_eq_true, true_and]
      exact hl
  · have hc := (freemem_loop_counts env 3 0).1
    unfold freemem
    split_ifs
    all_goals simp only [List.countP_cons, List.countP_nil, Ev.is_free_query]
    all_goals first
      | exact hc
      | simp
  · have hc := (freemem_loop_counts env 3 0).2
    unfold freemem
    split_ifs
    all_goals simp only [List.countP_cons, List.countP_nil, Ev.is_shrink]
    all_goals first
      | exact hc
      | simp
  · intro h hn
    simp [freemem, h, hn]
  · intro h hn hall
    obtain ⟨a0, b0, c0, d0⟩ := hall 0 (by decide)
    obtain ⟨a1, b1, c1, d1⟩ := hall 1 (by decide)
    obtain ⟨a2, b2, c2, d2⟩ := hall 2 (by decide)
    have e0 := not_le.mpr b0
    have e1 := not_le.mpr b1
    have e2 := not_le.mpr b2
    simp [freemem, freemem_loop, h, hn, a0, a1, a2, e0, e1, e2, c0, c1, c2, d0, d1, d2,
      Ev.is_free_query, Ev.is_shrink]

/-- Every shrink request of the loop of `freemem` is for domain 0 and its
relative target is the 64-bit difference `free - need` of a query that
succeeded and reported too little memory. -/
theorem freemem_loop_shrink (env : FreememEnv) :
    ∀ n i d t rc, Ev.set_memory_target d t rc ∈ (freemem_loop env n i).2 →
      d = 0 ∧ ∃ k, i ≤ k ∧ k < i + n ∧ ¬ env.free_rc k < 0
        ∧ env.free_memkb k < env.need_memkb
        ∧ t = (((env.free_memkb k : Int) - (env.need_memkb : Int))
                % 18446744073709551616).toNat
        ∧ rc = env.set_target_rc k := by
  intro n
  induction n with
  | zero => intro i d t rc h; simp [freemem_loop] at h
  | succ n ih =>
    intro i d t rc h
    unfold freemem_loop at h
    by_cases h1 : env.free_rc i < 0
    · rw [if_pos h1] at h
      simp at h
    rw [if_neg h1] at h
    by_cases h2 : env.free_memkb i ≥ env.need_memkb
    · rw [if_pos h2] at h
      simp at h
    rw [if_neg h2] at h
    have hhere : d = 0 ∧ t = (((env.free_memkb i : Int) - (env.need_memkb : Int))
          % 18446744073709551616).toNat ∧ rc = env.set_target_rc i →
        d = 0 ∧ ∃ k, i ≤ k ∧ k < i + (n + 1) ∧ ¬ env.free_rc k < 0
          ∧ env.free_memkb k < env.need_memkb
          ∧ t = (((env.free_memkb k : Int) - (env.need_memkb : Int))
                  % 18446744073709551616).toNat
          ∧ rc = env.set_target_rc k := by
      rintro ⟨hd, ht, hrc⟩
      exact ⟨hd, i, le_refl i, by omega, h1, not_le.mp h2, ht, hrc⟩
    simp only [] at h
    by_cases h3 : env.set_target_rc i < 0
    · rw [if_pos h3] at h
      simp at h
      exact hhere h
    rw [if_neg h3] at h
    by_cases h4 : env.wait_rc i < 0
    · rw [if_pos h4] at h
      simp at h
      exact hhere h
    rw [if_neg h4] at h
    simp at h
    rcases h with h | h
    · exact hhere h
    · obtain ⟨hd, k, hk1, hk2, hk3, hk4, hk5, hk6⟩ := ih (i + 1) d t rc h
      exact ⟨hd, k, by omega, by omega, hk3, hk4, hk5, hk6⟩

/-- In the loop of `freemem` a query that succeeds and reports too little
memory is followed at once by the shrink request for domain 0 with the 64-bit
difference `free - need`. -/
theorem freemem_loop_query_then_shrink (env : FreememEnv) :
    ∀ n i pre post rc free,
      (freemem_loop env n i).2 = pre ++ Ev.get_free_memory rc free :: post →
      ¬ rc < 0 → free < env.need_memkb →
      ∃ rc2 post2, post
        = Ev.set_memory_target 0
            ((((free : Int) - (env.need_memkb : Int)) % 18446744073709551616).toNat) rc2
          :: post2 := by
  intro n
  induction n with
  | zero =>
    intro i pre post rc free h
    simp [freemem_loop] at h
  | succ n ih =>
    intro i pre post rc free h hrc hfree
    unfold freemem_loop at h
    by_cases h1 : env.free_rc i < 0
    · rw [if_pos h1] at h
      rcases pre with _ | ⟨a, pre⟩
      · simp at h
        exact absurd (h.1.1 ▸ h1) hrc
      · simp at h
    rw [if_neg h1] at h
    by_cases h2 : env.free_memkb i ≥ env.need_memkb
    · rw [if_pos h2] at h
      rcases pre with _ | ⟨a, pre⟩
      · simp at h
        exact absurd (h.1.2 ▸ h2) (not_le.mpr hfree)
      · simp at h
    rw [if_neg h2] at h
    simp only [] at h
    by_cases h3 : env.set_target_rc i < 0
    · rw [if_pos h3] at h
      rcases pre with _ | ⟨a, _ | ⟨b, pre⟩⟩
      · simp at h
        obtain ⟨⟨-, hf⟩, hp⟩ := h
        exact ⟨_, _, by rw [← hp, hf]⟩
      · simp at h
      · simp at h
    rw [if_neg h3] at h
    by_cases h4 : env.wait_rc i < 0
    · rw [if_pos h4] at h
      rcases pre with _ | ⟨a, _ | ⟨b, _ | ⟨c, pre⟩⟩⟩
      · simp at h
        obtain ⟨⟨-, hf⟩, hp⟩ := h
        exact ⟨_, _, by rw [← hp, hf]⟩
      · simp at h
      · simp at h
      · simp at h
    rw [if_neg h4] at h
    rcases pre with _ | ⟨a, _ | ⟨b, _ | ⟨c, pre⟩⟩⟩
    · simp at h
      obtain ⟨⟨-, hf⟩, hp⟩ := h
      exact ⟨_, _, by rw [← hp, hf]⟩
    · simp at h
    · simp at h
    · simp at h
      exact ih (i + 1) pre post rc free h.2.2.2 hrc hfree

/-- In the loop of `freemem` the shrink request of round `k` is made when the
rounds before it were short and succeeded and the query of round `k` succeeds
and reports too little memory. -/
theorem freemem_loop_shrink_made (env : FreememEnv) :
    ∀ n i k, k < n →
      (∀ j, j < k → (¬ env.free_rc (i + j) < 0 ∧ env.free_memkb (i + j) < env.need_memkb
          ∧ ¬ env.set_target_rc (i + j) < 0 ∧ ¬ env.wait_rc (i + j) < 0)) →
      ¬ env.free_rc (i + k) < 0 → env.free_memkb (i + k) < env.need_memkb →
      Ev.set_memory_target 0
          ((((env.free_memkb (i + k) : Int) - (env.need_memkb : Int))
            % 18446744073709551616).toNat) (env.set_target_rc (i + k))
        ∈ (freemem_loop env n i).2 := by
  intro n
  induction n with
  | zero => intro i k hk; exact absurd hk (Nat.not_lt_zero k)
  | succ n ih =>
    intro i k hk hbefore hrc hfree
    cases k with
    | zero =>
      simp only [Nat.add_zero] at hrc hfree ⊢
      unfold freemem_loop
      rw [if_neg hrc, if_neg (not_le.mpr hfree)]
      simp only []
      split_ifs <;> simp
    | succ k =>
      obtain ⟨h1, h2, h3, h4⟩ := hbefore 0 (Nat.succ_pos k)
      simp only [Nat.add_zero] at h1 h2 h3 h4
      have hidx : i + (k + 1) = i + 1 + k := by omega
      have hrec := ih (i + 1) k (Nat.lt_of_succ_lt_succ hk)
        (fun j hj => by
          have := hbefore (j + 1) (Nat.succ_lt_succ hj)
          have hj2 : i + (j + 1) = i + 1 + j := by omega
          rw [hj2] at this
          exact this)
        (by rw [← hidx]; exact hrc) (by rw [← hidx]; exact hfree)
      rw [← hidx] at hrec
      unfold freemem_loop
      rw [if_neg h1, if_neg (not_le.mpr h2)]
      simp only []
      rw [if_neg h3, if_neg h4]
      simp only [List.mem_append]
      exact Or.inr hrec

/-- C27: shrink by the shortfall. With autoballoon on and the need-memory call
succeeding, whenever one of the three queries of `freemem` is reached (the
rounds before it were short and succeeded), succeeds and reports
`free < need`, `freemem` asks `libxl_set_memory_target` for domain 0 for the
relative target that is the unsigned 64-bit difference `free - need`; in the
first round this request is the step right after the query. Conversely every
shrink request that `freemem` makes is for domain 0 with the difference of one
of the three queries, which succeeded and reported `free < need`, and every
such query in the steps is followed at once by that request. For `free < need`
with `need - free < 2^63` the difference is `2^64 - (need - free)`, which read
as a signed 64-bit value is `-(need - free)`: a reduction by exactly the
shortfall. -/
theorem shrink_by_shortfall (env : FreememEnv) :
    (∀ k, k < 3 → env.autoballoon = true → ¬ env.need_rc < 0 →
      (∀ j, j < k → (¬ env.free_rc j < 0 ∧ env.free_memkb j < env.need_memkb
          ∧ ¬ env.set_target_rc j < 0 ∧ ¬ env.wait_rc j < 0)) →
      ¬ env.free_rc k < 0 → env.free_memkb k < env.need_memkb →
      Ev.set_memory_target 0
          ((((env.free_memkb k : Int) - (env.need_memkb : Int))
            % 18446744073709551616).toNat) (env.set_target_rc k)
        ∈ (freemem env).2)
    ∧ (env.autoballoon = true → ¬ env.need_rc < 0 → ¬ env.free_rc 0 < 0 →
        env.free_memkb 0 < env.need_memkb →
        (freemem env).2.take 3
          = [Ev.domain_need_memory env.need_rc,
             Ev.get_free_memory (env.free_rc 0) (env.free_memkb 0),
             Ev.set_memory_target 0
               ((((env.free_memkb 0 : Int) - (env.need_memkb : Int))
                 % 18446744073709551616).toNat) (env.set_target_rc 0)])
    ∧ (∀ d t rc, Ev.set_memory_target d t rc ∈ (freemem env).2 →
      d = 0 ∧ ∃ k, k < 3 ∧ ¬ env.free_rc k < 0 ∧ env.free_memkb k < env.need_memkb
        ∧ t = (((env.free_memkb k : Int) - (env.need_memkb : Int))
                % 18446744073709551616).toNat
        ∧ rc = env.set_target_rc k)
    ∧ (∀ pre post rc free, (freemem env).2 = pre ++ Ev.get_free_memory rc free :: post →
        ¬ rc < 0 → free < env.need_memkb →
        ∃ rc2 post2, post
          = Ev.set_memory_target 0
              ((((free : Int) - (env.need_memkb : Int)) % 18446744073709551616).toNat) rc2
            :: post2)
    ∧ (∀ free need : Nat, free < need → need - free < 9223372036854775808 →
        (((free : Int) - (need : Int)) % 18446744073709551616).toNat
            = 18446744073709551616 - (need - free)
        ∧ int64_of_u64 ((((free : Int) - (need : Int)) % 18446744073709551616).toNat)
            = -((need - free : Nat) : Int)) := by
  refine ⟨?_, ?_, ?_, ?_, ?_⟩
  · intro k hk ha hn hbefore hrc hfree
    have h := freemem_loop_shrink_made env 3 0 k hk
      (fun j hj => by simpa using hbefore j hj) (by simpa using hrc) (by simpa using hfree)
    simp only [Nat.zero_add] at h
    unfold freemem
    simp only [ha, hn, not_true_eq_false, if_false]
    exact List.mem_cons_of_mem _ h
  · intro ha hn hrc hfree
    unfold freemem
    simp only [ha, hn, not_true_eq_false, if_false]
    unfold freemem_loop
    rw [if_neg hrc, if_neg (not_le.mpr hfree)]
    simp only []
    split_ifs <;> simp
  · intro d t rc h
    unfold freemem at h
    by_cases ha : env.autoballoon = true
    · by_cases hn : env.need_rc < 0
      · simp [ha, hn] at h
      · simp [ha, hn] at h
        obtain ⟨hd, k, -, hk2, hk3, hk4, hk5, hk6⟩ := freemem_loop_shrink env 3 0 d t rc h
        exact ⟨hd, k, by omega, hk3, hk4, hk5, hk6⟩
    · simp [ha] at h
  · intro pre post rc free h hrc hfree
    unfold freemem at h
    by_cases ha : env.autoballoon = true
    · by_cases hn : env.need_rc < 0
      · simp only [ha, hn, not_true_eq_false, if_false, if_true] at h
        rcases pre with _ | ⟨a, pre⟩ <;> simp at h
      · simp only [ha, hn, not_true_eq_false, if_false] at h
        rcases pre with _ | ⟨a, pre⟩
        · simp at h
        · simp only [List.cons_append, List.cons.injEq] at h
          exact freemem_loop_query_then_shrink env 3 0 pre post rc free h.2 hrc hfree
    · simp only [ha, Bool.false_eq_true, not_false_eq_true, if_true] at h
      rcases pre with _ | ⟨a, pre⟩ <;> simp at h
  · intro free need hlt hsmall
    have h1 : (((free : Int) - (need : Int)) % 18446744073709551616).toNat
        = 18446744073709551616 - (need - free) := by omega
    refine ⟨h1, ?_⟩
    rw [h1]
    unfold int64_of_u64
    have h2 : (18446744073709551616 - (need - free)) % 18446744073709551616
        = 18446744073709551616 - (need - free) := by omega
    rw [h2]
    split_ifs with h3
    · omega
    · omega

set_option maxRecDepth 100000 in
/-- C27 at a platform that needs 1000 KiB and finds 400 KiB free at the first
query and 1000 KiB at the second: the whole run of `freemem`. The shrink
request is for domain 0 with `2^64 - 600`, which is -600 as a signed 64-bit
value. -/
theorem shrink_by_shortfall_witness :
    freemem { FreememEnv.nominal with
                autoballoon := true
                need_memkb := 1000
                free_memkb := fun i => if i = 0 then 400 else 1000 }
        = (true, [Ev.domain_need_memory 0,
                  Ev.get_free_memory 0 400,
                  Ev.set_memory_target 0 18446744073709551016 0,
                  Ev.wait_for_memory_target 0,
                  Ev.get_free_memory 0 1000])
    ∧ Ev.set_memory_target 0 18446744073709551016 0
        ∈ (freemem { FreememEnv.nominal with
                       autoballoon := true
                       need_memkb := 1000
                       free_memkb := fun i => if i = 0 then 400 else 1000 }).2
    ∧ int64_of_u64 18446744073709551016 = -600 :=
  ⟨by decide,
   (shrink_by_shortfall
      { FreememEnv.nominal with
          autoballoon := true
          need_memkb := 1000
          free_memkb := fun i => if i = 0 then 400 else 1000 }).1 0 (by decide) rfl (by decide)
      (fun j hj => absurd hj (Nat.not_lt_zero j)) (by decide) (by decide),
   ((shrink_by_shortfall
      { FreememEnv.nominal with
          autoballoon := true
          need_memkb := 1000
          free_memkb := fun i => if i = 0 then 400 else 1000 }).2.2.2.2 400 1000
      (by decide) (by decide)).2⟩

/-! ## Properties of the creation lock -/

set_option maxRecDepth 100000 in
/-- C23, the code at the failing input: `acquire_lock` is entered with the
lock file closed (`fd_lock = -1`) and `fcntl(F_SETLKW)` fails, or
`fcntl(F_SETFD)` fails; it returns `ERROR_FAIL`, so the session does not hold
the lock, but it leaves in `fd_lock` the descriptor 7 that `open` gave, which
after the failed `fcntl(F_SETFD)` it has just closed. A second `acquire_lock`
then returns `ERROR_INVAL`, the answer that the comment `lock already acquired`
keeps for a lock that is held, and makes no system call. -/
theorem error_inval_without_holding :
    (acquire_lock (-1) { LockEnv.nominal with setlkw_rc := -1 }).rc = ERROR_FAIL
    ∧ lock_held (-1) false [.acquire { LockEnv.nominal with setlkw_rc := -1 }] = false
    ∧ (acquire_lock (lock_session (-1) [.acquire { LockEnv.nominal with setlkw_rc := -1 }])
        LockEnv.nominal).rc = ERROR_INVAL
    ∧ lock_held (-1) false [.acquire { LockEnv.nominal with setfd_rc := -1 }] = false
    ∧ (acquire_lock (lock_session (-1) [.acquire { LockEnv.nominal with setfd_rc := -1 }])
        LockEnv.nominal).rc = ERROR_INVAL
    ∧ acquire_lock (-1) { LockEnv.nominal with setlkw_rc := -1 }
        = { rc := ERROR_FAIL, fd_lock := 7,
            calls := [Ev.lock_open 7, Ev.lock_setfd 0, Ev.lock_wait 0 (-1)] }
    ∧ acquire_lock (-1) { LockEnv.nominal with setfd_rc := -1 }
        = { rc := ERROR_FAIL, fd_lock := 7,
            calls := [Ev.lock_open 7, Ev.lock_setfd (-1), Ev.lock_close 7] }
    ∧ acquire_lock 7 LockEnv.nominal = { rc := ERROR_INVAL, fd_lock := 7, calls := [] } := by
  refine ⟨?_, ?_, ?_, ?_, ?_, ?_, ?_, ?_⟩ <;> decide

/-- The state of a session: `fd_lock` is non-negative exactly when the lock
file has been opened and not released, and it is so whenever the lock is
held. -/
theorem lock_session_state (ops : List LockOp) :
    ∀ (fd_lock : Int) (held opened : Bool),
      (held = true → fd_lock ≥ 0) → (opened = true ↔ fd_lock ≥ 0) →
      (lock_held fd_lock held ops = true → lock_session fd_lock ops ≥ 0)
      ∧ (lock_opened opened ops = true ↔ lock_session fd_lock ops ≥ 0) := by
  induction ops with
  | nil =>
    intro fd_lock held opened h1 h2
    exact ⟨h1, h2⟩
  | cons op ops ih =>
    intro fd_lock held opened h1 h2
    cases op with
    | acquire env =>
      simp only [lock_held, lock_session, lock_opened]
      apply ih
      · intro h
        simp only [Bool.or_eq_true, decide_eq_true_eq] at h
        unfold acquire_lock at h ⊢
        by_cases hfd : fd_lock ≥ 0
        · simp only [hfd, if_true]
        · have hnh : held = false := by
            cases held
            · rfl
            · exact absurd (h1 rfl) hfd
          simp only [hfd, if_false, hnh, Bool.false_eq_true, false_or] at h ⊢
          by_cases ho : env.open_fd < 0
          · simp only [ho, if_true] at h
            exact absurd h (by decide)
          · simp only [ho, if_false] at h ⊢
            by_cases hs : env.setfd_rc < 0
            · simp only [hs, if_true] at h
              exact absurd h (by decide)
            · simp only [hs, if_false]
              exact not_lt.mp ho
      · simp only [Bool.or_eq_true, decide_eq_true_eq]
        unfold acquire_lock
        by_cases hfd : fd_lock ≥ 0
        · simp only [hfd, if_true, iff_true]
          exact Or.inl (h2.mpr hfd)
        · have hno : opened = false := by
            cases opened
            · rfl
            · exact absurd (h2.mp rfl) hfd
          simp only [hfd, if_false, hno, Bool.false_eq_true, false_or]
          by_cases ho : env.open_fd < 0
          · simp only [ho, if_true]
          · simp only [ho, if_false]
            by_cases hs : env.setfd_rc < 0
            · simp only [hs, if_true]
            · simp only [hs, if_false]
    | release i rc =>
      simp only [lock_held, lock_session, lock_opened]
      apply ih
      · intro h; cases h
      · constructor
        · intro h; cases h
        · intro h
          exact absurd h (not_le.mpr (release_lock_fd_lock fd_lock i rc))

/-- What holds of C23 in every session: `acquire_lock` returns `ERROR_INVAL`
exactly when `fd_lock` is non-negative at entry, and then it leaves `fd_lock`
as it is and makes no system call (no file is opened). In a session that
starts with the lock file closed, `fd_lock` is non-negative exactly when an
earlier `acquire_lock` opened the lock file, whether or not it obtained the
lock, and no `release_lock` has run since; this is so in particular whenever
the session holds the lock. -/
theorem error_inval_iff_opened (fd_lock : Int) (env : LockEnv) :
    ((acquire_lock fd_lock env).rc = ERROR_INVAL ↔ fd_lock ≥ 0)
    ∧ (fd_lock ≥ 0 →
        acquire_lock fd_lock env = { rc := ERROR_INVAL, fd_lock := fd_lock, calls := [] })
    ∧ (∀ fd0 ops, fd0 < 0 →
        ((acquire_lock (lock_session fd0 ops) env).rc = ERROR_INVAL
            ↔ lock_opened false ops = true)
        ∧ (lock_held fd0 false ops = true →
            acquire_lock (lock_session fd0 ops) env
              = { rc := ERROR_INVAL, fd_lock := lock_session fd0 ops, calls := [] })) := by
  have hiff : ∀ fd : Int, (acquire_lock fd env).rc = ERROR_INVAL ↔ fd ≥ 0 := by
    intro fd
    unfold acquire_lock
    by_cases hfd : fd ≥ 0
    · simp only [hfd, if_true]
    · simp only [hfd, if_false, iff_false]
      split_ifs
      all_goals first
        | (show ¬ ERROR_FAIL = ERROR_INVAL; decide)
        | (show ¬ (0 : Int) = ERROR_INVAL; decide)
  have hsame : ∀ fd : Int, fd ≥ 0 →
      acquire_lock fd env = { rc := ERROR_INVAL, fd_lock := fd, calls := [] } := by
    intro fd hfd
    unfold acquire_lock
    rw [if_pos hfd]
  refine ⟨hiff fd_lock, hsame fd_lock, ?_⟩
  intro fd0 ops hfd0
  obtain ⟨h1, h2⟩ := lock_session_state ops fd0 false false (fun h => by cases h)
    (Iff.intro (fun h => by cases h) (fun h => absurd h (not_le.mpr hfd0)))
  exact ⟨(hiff _).trans h2.symm, fun h => hsame _ (h1 h)⟩

/-! ## Further properties of the receiver -/

/-- C30: the status byte of the receiver. For every result `rc` that
`migrate_receive` can hold at `perhaps_destroy_notify_rc` (0, 1 from a failed
fixed-message read, or an error code from -255 to -1) the byte `-rc` stored in
a `char` is `-rc` itself for the error codes and 255 for 1; it is zero exactly
when `rc` is zero, so the assertion `!!rc_buf == !!rc` holds: the receiver
never aborts there, and whenever `rc` is non-zero every status byte it writes
is non-zero. -/
theorem status_byte_zero_iff (rc : Int) (h : rc = 0 ∨ rc = 1 ∨ (-255 ≤ rc ∧ rc ≤ -1)) :
    (status_byte rc = 0 ↔ rc = 0)
    ∧ ((status_byte rc).val = if rc = 1 then 255 else (-rc).toNat)
    ∧ decide (status_byte rc ≠ 0) = decide (rc ≠ 0)
    ∧ (∀ domid env, (migrate_receive_notify domid rc env).2 ≠ End.abort)
    ∧ (rc ≠ 0 → ∀ domid env b r,
        Ev.write_exactly .status_code b r ∈ (migrate_receive_notify domid rc env).1 →
          b = [status_byte rc] ∧ b ≠ [0]) := by
  have hrange : rc = 1 ∨ (-255 ≤ rc ∧ rc ≤ 0) := by
    rcases h with h | h | h
    · right; omega
    · left; exact h
    · right; omega
  have hne := status_byte_ne_zero rc hrange
  have hiff : status_byte rc = 0 ↔ rc = 0 := by
    constructor
    · intro hb
      by_contra hrc
      exact hne.mpr hrc hb
    · intro hrc
      by_contra hb
      exact hne.mp hb hrc
  have hassert : decide (status_byte rc ≠ 0) = decide (rc ≠ 0) := by
    by_cases hrc : rc = 0
    · have hb := hiff.mpr hrc
      rw [hrc] at hb
      simp [hrc, hb]
    · have hb : status_byte rc ≠ 0 := hne.mpr hrc
      simp [hrc, hb]
  refine ⟨hiff, ?_, hassert, ?_, ?_⟩
  · unfold status_byte
    rcases h with h | h | h
    · subst h; rfl
    · subst h; rfl
    · have h1 : rc ≠ 1 := by omega
      rw [if_neg h1]
      have h2 : ((-rc) % 256).toNat = (-rc).toNat := by omega
      rw [h2]
      simp only [Fin.ofNat]
      omega
  · intro domid env
    unfold migrate_receive_notify
    simp only [hassert, ne_eq, not_true_eq_false, if_false]
    split_ifs <;> simp
  · intro hrc domid env b r hmem
    have hb : status_byte rc ≠ 0 := hne.mpr hrc
    unfold migrate_receive_notify at hmem
    simp only [hassert, ne_eq, not_true_eq_false, if_false] at hmem
    split_ifs at hmem
    all_goals simp at hmem
    all_goals
      obtain ⟨hbb, -⟩ := hmem
      subst hbb
      exact ⟨rfl, by simpa using hb⟩

/-- C30 at the result -3 (`ERROR_FAIL`): the status byte is 3. -/
theorem status_byte_zero_iff_witness :
    ((-3 : Int) = 0 ∨ (-3 : Int) = 1 ∨ (-255 ≤ (-3 : Int) ∧ (-3 : Int) ≤ -1))
    ∧ (status_byte (-3)).val = 3 :=
  ⟨by decide, (status_byte_zero_iff (-3) (by decide)).2.1⟩

/-! ## Agreement of the sender and the receiver on the handshake -/

/-- The read of a fixed message of which the first `n` bytes are compared, when
those bytes are at the head of the stream. -/
theorem migrate_read_fixedmessage_head (msg rest : List Byte) (n : Nat) (what : What)
    (hn : n ≤ msg.length) :
    migrate_read_fixedmessage (msg.take n ++ rest) msg n what
      = (0, rest, Ev.read_exactly what n (some (msg.take n))) := by
  have hlen : (msg.take n).length = n := by simp [hn]
  have h1 : n ≤ (msg.take n ++ rest).length := by
    rw [List.length_append, hlen]; omega
  have h2 : (msg.take n ++ rest).take n = msg.take n := by
    rw [List.take_append_of_le_length (by rw [hlen])]
    simp [List.take_take]
  have h3 : (msg.take n ++ rest).drop n = rest := by
    rw [List.drop_append_of_le_length (by rw [hlen])]
    simp [List.drop_eq_nil_of_le (le_of_eq hlen)]
  unfold migrate_read_fixedmessage libxl_read_exactly
  rw [if_pos h1]
  simp only [h2, h3, ne_eq, not_true_eq_false, if_false]

/-- The receiver on its success path, from the write of "ready" on: with
"permission to go" at the head of its stream and every write and platform call
succeeding, it reads exactly that message, and what it puts on the wire is
"ready" with its NUL, "report" with its NUL and one zero byte. -/
theorem migrate_receive_handshake_success (pause_after_migration : Bool) (domid : Nat)
    (migration_domname common_domname : Option String) (rest : List Byte) (env : ReceiveEnv)
    (h1 : env.write_ready_rc = 0) (h2 : migration_domname.isSome = true → env.rename_rc = 0)
    (h3 : pause_after_migration = false → env.unpause_rc = 0)
    (h4 : env.write_report_rc = 0) (h5 : env.write_status_rc = 0) :
    (migrate_receive_handshake pause_after_migration domid migration_domname common_domname
        (migrate_permission_to_go ++ rest) env).2 = End.exit EXIT_SUCCESS
    ∧ written (migrate_receive_handshake pause_after_migration domid migration_domname
          common_domname (migrate_permission_to_go ++ rest) env).1
        = migrate_receiver_ready ++ migrate_report ++ [0]
    ∧ Ev.read_exactly .GO_message migrate_permission_to_go.length
          (some migrate_permission_to_go)
        ∈ (migrate_receive_handshake pause_after_migration domid migration_domname
            common_domname (migrate_permission_to_go ++ rest) env).1 := by
  have hsb : status_byte 0 = 0 := rfl
  have hnotify : migrate_receive_notify domid 0 env
      = ([Ev.write_exactly .report migrate_report 0, Ev.write_exactly .status_code [0] 0],
         End.exit EXIT_SUCCESS) := by
    simp [migrate_receive_notify, h4, h5, hsb]
  have hren : migration_domname.isSome = true ∧ env.rename_rc ≠ 0 → False :=
    fun h => h.2 (h2 h.1)
  have hwren : written (migrate_receive_rename domid migration_domname common_domname env)
      = [] := by
    unfold migrate_receive_rename
    cases migration_domname <;> simp [written, Ev.written]
  have hwapp : ∀ a b : List Ev, written (a ++ b) = written a ++ written b := by
    intro a b
    induction a with
    | nil => rfl
    | cons e es ih => simp [written, ih]
  unfold migrate_receive_handshake
  simp only [h1, ne_eq, not_true_eq_false, if_false, migrate_read_fixedmessage_match,
    if_neg hren]
  cases pause_after_migration with
  | true =>
    simp only [not_true_eq_false, if_false, hnotify, after_end]
    refine ⟨trivial, ?_, by simp⟩
    simp [hwapp, hwren, written, Ev.written]
  | false =>
    simp only [Bool.false_eq_true, not_false_eq_true, if_true, h3 rfl, not_true_eq_false,
      if_false, hnotify, after_end]
    refine ⟨trivial, ?_, by simp⟩
    simp [hwapp, hwren, written, Ev.written]

/-- The sender with the success-path bytes of the receiver on its receive
endpoint and every write and platform call succeeding: each of its four reads
consumes exactly one message, and it ends at its success exit. -/
theorem migrate_domain_success (P : Platform) (domid : Nat) (env : MigrateEnv)
    (cd : List Byte) (cl : Int) (hb : save_domain_core_begin env = some (cd, cl))
    (hcl : cl ≠ 0) (hfd : ¬ (env.send_fd < 0 ∨ env.recv_fd < 0))
    (hw1 : env.write_header_rc = 0) (hw2 : env.write_optdata_rc = 0)
    (hs : env.suspend_rc = 0) (hr : env.common_domname.isSome = true → env.rename_away_rc = 0)
    (hgo : env.write_go_rc = 0)
    (hrecv : env.recv = migrate_receiver_banner.take (migrate_receiver_banner.length - 1)
      ++ (migrate_receiver_ready ++ (migrate_report ++ [0]))) :
    migrate_domain P domid env
      = ([Ev.read_exactly .banner (migrate_receiver_banner.length - 1)
            (some (migrate_receiver_banner.take (migrate_receiver_banner.length - 1))),
          Ev.write_exactly .header ((save_domain_core_writeconfig P cd cl).1.bytes P) 0,
          Ev.write_exactly .header
            ((save_domain_core_writeconfig P cd cl).2.take
              (save_domain_core_writeconfig P cd cl).1.optional_data_len) 0,
          Ev.domain_suspend domid 0,
          Ev.read_exactly .ready_message migrate_receiver_ready.length
            (some migrate_receiver_ready)]
          ++ (env.common_domname.map
                (fun name => Ev.domain_rename domid name (name ++ "--migratedaway") 0)).toList
          ++ [Ev.write_exactly .GO_message migrate_permission_to_go 0,
              Ev.read_exactly .report_message migrate_report.length (some migrate_report),
              Ev.read_exactly .status 1 (some [0]),
              Ev.domain_destroy domid], EXIT_SUCCESS) := by
  have hren : env.common_domname.isSome = true ∧ env.rename_away_rc ≠ 0 → False :=
    fun h => h.2 (hr h.1)
  have hstatus : libxl_read_exactly ([0] : List Byte) 1 = some ([0], []) := by
    simp [libxl_read_exactly]
  have hreport : migrate_domain_report domid env (migrate_report ++ [0])
      = ([Ev.read_exactly .report_message migrate_report.length (some migrate_report),
          Ev.read_exactly .status 1 (some [0]), Ev.domain_destroy domid], EXIT_SUCCESS) := by
    unfold migrate_domain_report
    simp only [migrate_read_fixedmessage_match, ne_eq, not_true_eq_false, if_false, hstatus]
  have hsuspend : migrate_domain_suspend domid env
        (migrate_receiver_ready ++ (migrate_report ++ [0]))
      = ([Ev.domain_suspend domid 0,
          Ev.read_exactly .ready_message migrate_receiver_ready.length
            (some migrate_receiver_ready)]
          ++ (env.common_domname.map
                (fun name => Ev.domain_rename domid name (name ++ "--migratedaway") 0)).toList
          ++ [Ev.write_exactly .GO_message migrate_permission_to_go 0,
              Ev.read_exactly .report_message migrate_report.length (some migrate_report),
              Ev.read_exactly .status 1 (some [0]),
              Ev.domain_destroy domid], EXIT_SUCCESS) := by
    unfold migrate_domain_suspend
    simp only [hs, ne_eq, not_true_eq_false, if_false, migrate_read_fixedmessage_match,
      if_neg hren, hgo, hreport, after]
    cases hc : env.common_domname with
    | none => simp
    | some name =>
      have := hr (by rw [hc]; rfl)
      simp [this]
  have hpre : migrate_do_preamble P env cd cl
      = ([Ev.read_exactly .banner (migrate_receiver_banner.length - 1)
            (some (migrate_receiver_banner.take (migrate_receiver_banner.length - 1))),
          Ev.write_exactly .header ((save_domain_core_writeconfig P cd cl).1.bytes P) 0,
          Ev.write_exactly .header
            ((save_domain_core_writeconfig P cd cl).2.take
              (save_domain_core_writeconfig P cd cl).1.optional_data_len) 0],
         some (migrate_receiver_ready ++ (migrate_report ++ [0]))) := by
    unfold migrate_do_preamble
    rw [if_neg hfd, hrecv,
      migrate_read_fixedmessage_head _ _ _ _ (Nat.sub_le _ _)]
    simp only [ne_eq, not_true_eq_false, if_false, hw1, hw2]
  unfold migrate_domain
  rw [hb]
  simp only [hcl, if_false, hpre, hsuspend, after]
  simp

set_option maxRecDepth 100000 in
/-- C28: the sender and the receiver agree on every handshake message.
* The first step of `migrate_receive` is the write of the banner without its
  NUL, and from "ready" on its success path puts on the wire "ready", "report"
  (each with its NUL) and one zero byte, after reading exactly the bytes of
  "permission to go".
* With exactly those bytes on its receive endpoint (and every write and
  platform call succeeding) the sender reads the banner, "ready", "report" and
  the status byte, each read consuming exactly the bytes of one message, writes
  "permission to go" in between, destroys its domain and exits with success.
* On its failure path the receiver puts on the wire "report", a non-zero
  status byte and "permission to go" again; reading these, the sender finds the
  permission to resume and resumes its domain.
* End to end, on every platform: with the bytes written by the sender (and
  five bytes of state from the platform) as the stream of the receiver, and
  the bytes written by the receiver as the stream of the sender, both exit
  with success. -/
theorem handshake_messages_agree (P : Platform) :
    (∀ debug daemonize monitor pause_after_migration send_fd recv_fd checkpointed env fd_lock,
      env.write_banner_rc = 0 →
      ∃ tail, (migrate_receive P debug daemonize monitor pause_after_migration send_fd recv_fd
          checkpointed env fd_lock).1
        = Ev.write_exactly .banner
            (migrate_receiver_banner.take (migrate_receiver_banner.length - 1)) 0 :: tail)
    ∧ (∀ pause_after_migration domid migration_domname common_domname rest
        (env : ReceiveEnv),
        env.write_ready_rc = 0 → (migration_domname.isSome = true → env.rename_rc = 0) →
        (pause_after_migration = false → env.unpause_rc = 0) →
        env.write_report_rc = 0 → env.write_status_rc = 0 →
        (migrate_receive_handshake pause_after_migration domid migration_domname
            common_domname (migrate_permission_to_go ++ rest) env).2 = End.exit EXIT_SUCCESS
        ∧ written (migrate_receive_handshake pause_after_migration domid migration_domname
              common_domname (migrate_permission_to_go ++ rest) env).1
            = migrate_receiver_ready ++ migrate_report ++ [0])
    ∧ (∀ domid (env : MigrateEnv) cd cl, save_domain_core_begin env = some (cd, cl) →
        cl ≠ 0 → ¬ (env.send_fd < 0 ∨ env.recv_fd < 0) →
        env.write_header_rc = 0 → env.write_optdata_rc = 0 → env.suspend_rc = 0 →
        (env.common_domname.isSome = true → env.rename_away_rc = 0) → env.write_go_rc = 0 →
        env.recv = migrate_receiver_banner.take (migrate_receiver_banner.length - 1)
          ++ (migrate_receiver_ready ++ (migrate_report ++ [0])) →
        migrate_domain P domid env
          = ([Ev.read_exactly .banner (migrate_receiver_banner.length - 1)
                (some (migrate_receiver_banner.take (migrate_receiver_banner.length - 1))),
              Ev.write_exactly .header ((save_domain_core_writeconfig P cd cl).1.bytes P) 0,
              Ev.write_exactly .header
                ((save_domain_core_writeconfig P cd cl).2.take
                  (save_domain_core_writeconfig P cd cl).1.optional_data_len) 0,
              Ev.domain_suspend domid 0,
              Ev.read_exactly .ready_message migrate_receiver_ready.length
                (some migrate_receiver_ready)]
              ++ (env.common_domname.map
                    (fun name =>
                      Ev.domain_rename domid name (name ++ "--migratedaway") 0)).toList
              ++ [Ev.write_exactly .GO_message migrate_permission_to_go 0,
                  Ev.read_exactly .report_message migrate_report.length (some migrate_report),
                  Ev.read_exactly .status 1 (some [0]),
                  Ev.domain_destroy domid], EXIT_SUCCESS))
    ∧ (∀ domid rc (env : ReceiveEnv), (rc = 1 ∨ (-255 ≤ rc ∧ rc ≤ -1)) →
        env.write_report_rc = 0 → env.write_status_rc = 0 → env.destroy_rc = 0 →
        env.write_go_back_rc = 0 →
        written (migrate_receive_notify domid rc env).1
            = migrate_report ++ [status_byte rc] ++ migrate_permission_to_go
        ∧ status_byte rc ≠ 0)
    ∧ (∀ domid (env : MigrateEnv) (b : Byte), b ≠ 0 →
        migrate_domain_report domid env (migrate_report ++ [b] ++ migrate_permission_to_go)
          = ([Ev.read_exactly .report_message migrate_report.length (some migrate_report),
              Ev.read_exactly .status 1 (some [b]),
              Ev.read_exactly .resume_permission migrate_permission_to_go.length
                (some migrate_permission_to_go)]
              ++ (match env.common_domname with
                  | some name =>
                    [Ev.domain_rename domid (name ++ "--migratedaway") name
                      env.rename_back_rc]
                  | none => [])
              ++ [Ev.domain_resume domid], EXIT_FAILURE))
    ∧ (written (migrate_domain P 5
          (MigrateEnv.nominal (some "vm")
            (migrate_receiver_banner.take 54 ++ migrate_receiver_ready ++ migrate_report
              ++ [0]))).1
          = save_domain_core_writeconfig_bytes P [123, 125, 0] 3 ++ migrate_permission_to_go
        ∧ (migrate_domain P 5
            (MigrateEnv.nominal (some "vm")
              (migrate_receiver_banner.take 54 ++ migrate_receiver_ready ++ migrate_report
                ++ [0]))).2 = EXIT_SUCCESS
        ∧ written (main_migrate_receive P false false false false .NONE
            (ReceiveEnv.nominal
              (save_domain_core_writeconfig_bytes P [123, 125, 0] 3 ++ [1, 2, 3, 4, 5]
                ++ migrate_permission_to_go)
              [PassEnv.nominal 9 5 (.parent 0) []]) (-1)).1
          = migrate_receiver_banner.take 54 ++ migrate_receiver_ready ++ migrate_report ++ [0]
        ∧ (main_migrate_receive P false false false false .NONE
            (ReceiveEnv.nominal
              (save_domain_core_writeconfig_bytes P [123, 125, 0] 3 ++ [1, 2, 3, 4, 5]
                ++ migrate_permission_to_go)
              [PassEnv.nominal 9 5 (.parent 0) []]) (-1)).2 = End.exit 0) := by
  refine ⟨?_, ?_, ?_, ?_, ?_, ?_⟩
  · intro debug daemonize monitor pause_after_migration send_fd recv_fd checkpointed env
      fd_lock hb
    unfold migrate_receive
    simp only [hb, ne_eq, not_true_eq_false, if_false]
    split
    · split_ifs
      · exact ⟨_, rfl⟩
      · split
        · exact ⟨_, rfl⟩
        · exact ⟨_, rfl⟩
    · exact ⟨_, rfl⟩
  · intro pause_after_migration domid migration_domname common_domname rest env h1 h2 h3 h4 h5
    obtain ⟨a, b, -⟩ := migrate_receive_handshake_success pause_after_migration domid
      migration_domname common_domname rest env h1 h2 h3 h4 h5
    exact ⟨a, b⟩
  · intro domid env cd cl hb hcl hfd hw1 hw2 hs hr hgo hrecv
    exact migrate_domain_success P domid env cd cl hb hcl hfd hw1 hw2 hs hr hgo hrecv
  · intro domid rc env hrc h1 h2 h3 h4
    have hrange : rc = 1 ∨ (-255 ≤ rc ∧ rc ≤ 0) := by
      rcases hrc with h | h
      · left; exact h
      · right; omega
    have hne : rc ≠ 0 := by
      rcases hrc with h | h <;> omega
    have hsb : status_byte rc ≠ 0 := (status_byte_ne_zero rc hrange).mpr hne
    refine ⟨?_, hsb⟩
    simp [migrate_receive_notify, h1, h2, h3, h4, hne, hsb, written, Ev.written]
  · intro domid env b hb
    have hstatus : libxl_read_exactly ([b] ++ migrate_permission_to_go) 1
        = some ([b], migrate_permission_to_go) := by
      simp [libxl_read_exactly]
    have hb1 : ([b] : List Byte) ≠ [0] := by simpa using hb
    have hgo : migrate_read_fixedmessage migrate_permission_to_go migrate_permission_to_go
        migrate_permission_to_go.length .resume_permission
        = (0, [], Ev.read_exactly .resume_permission migrate_permission_to_go.length
            (some migrate_permission_to_go)) := by
      have := migrate_read_fixedmessage_match migrate_permission_to_go [] .resume_permission
      rwa [List.append_nil] at this
    unfold migrate_domain_report
    rw [List.append_assoc]
    simp only [migrate_read_fixedmessage_match, ne_eq, not_true_eq_false, if_false, hstatus,
      hb1, not_false_eq_true, if_true, hgo]
  · rcases P with ⟨_ | _, _ | _⟩ <;> refine ⟨?_, ?_, ?_, ?_⟩ <;> decide

end Xl
